import Mathlib

/-!
# selfdrive/ui/ui.cc : per-tick state synchronisation of the driving display

A shallow embedding of `src/selfdrive/ui/ui.cc`.

Conventions of the embedding

* `float`/`double` values are exact rationals (`ℚ`): rounding, infinities and
  NaN are outside the model.
* `uint64_t` frame counters are `Nat`; wherever the source subtracts them the
  embedding uses `u64_sub`, subtraction modulo `2 ^ 64`.
* capnp lists are `List`s, `l[i]` is `l.getD i 0`; every theorem that reads a
  list assumes the length the wire schema fixes (`TRAJECTORY_SIZE`).
* constants and helpers that `ui.cc` uses but that are declared in headers
  outside `src/` (`TRAJECTORY_SIZE`, `UI_FREQ`, the draw distances, the camera
  intrinsics, `euler2rot`) are fields of `Consts` and so parameters of
  every definition that needs them.
* calls on the audio device are recorded, in call order, in the field
  `sound` of `UIState`.
* `Core` collects the fields the status and alert logic works on; every stage
  of the tick is also given field by field on `Core` (`Core.update_status`,
  ...) and proved to agree with the embedded function (`core_update_status`,
  ...), so that the theorems about `tick` and `run` are proved on `Core`.
-/

namespace UI

/-! ## Data model -/

/-- A `mat3` of `common/mat.h`: `v0 .. v8` are `v[0] .. v[8]`, row major. -/
structure mat3 where
  v0 : ℚ
  v1 : ℚ
  v2 : ℚ
  v3 : ℚ
  v4 : ℚ
  v5 : ℚ
  v6 : ℚ
  v7 : ℚ
  v8 : ℚ
deriving DecidableEq, Inhabited

/-- A `vec3` of `common/mat.h`. -/
structure vec3 where
  v0 : ℚ
  v1 : ℚ
  v2 : ℚ
deriving DecidableEq, Inhabited

/-- The constants and helpers of `ui.hpp` and `common/` that `ui.cc` refers to
by name; none of them is declared under `src/`. -/
structure Consts where
  TRAJECTORY_SIZE : Nat
  UI_FREQ : Nat
  MIN_DRAW_DISTANCE : ℚ
  MAX_DRAW_DISTANCE : ℚ
  fcam_intrinsic_matrix : mat3
  ecam_intrinsic_matrix : mat3
  euler2rot : ℚ → ℚ → ℚ → mat3

/-- A `vertex_data` of `ui.hpp`: a point of the framebuffer. -/
structure vertex_data where
  x : ℚ
  y : ℚ
deriving DecidableEq, Inhabited

/-- A `line_vertices_data` of `ui.hpp`: the array `v` (its length is the
capacity, `2 * TRAJECTORY_SIZE` in `ui.hpp`) and the count `cnt`. -/
structure line_vertices_data where
  v : List vertex_data
  cnt : Nat
deriving DecidableEq, Inhabited

/-- A `cereal::ModelDataV2::XYZTData` record: the sample arrays read by `ui.cc`. -/
structure XYZTData where
  x : List ℚ
  y : List ℚ
  z : List ℚ
deriving DecidableEq, Inhabited

/-- The fields of a `cereal::ModelDataV2` message that `update_model` reads. -/
structure ModelDataV2 where
  position : XYZTData
  laneLines : List XYZTData
  laneLineProbs : List ℚ
  roadEdges : List XYZTData
  roadEdgeStds : List ℚ
deriving DecidableEq, Inhabited

/-- The fields of a `cereal::RadarState::LeadData` record that `ui.cc` reads. -/
structure LeadData where
  status : Bool
  dRel : ℚ
  yRel : ℚ
deriving DecidableEq, Inhabited

/-- A `cereal::RadarState` message. -/
structure RadarState where
  leadOne : LeadData
  leadTwo : LeadData
deriving DecidableEq, Inhabited

/-- A `cereal::LiveCalibrationData` message: `rpyCalib`. -/
structure LiveCalibration where
  rpyCalib : List ℚ
deriving DecidableEq, Inhabited

/-- The enum `cereal::ControlsState::AlertStatus`. -/
inductive AlertStatus where
  | NORMAL
  | USER_PROMPT
  | CRITICAL
deriving DecidableEq, Inhabited

/-- The enum `cereal::ControlsState::AlertSize`. -/
inductive AlertSize where
  | NONE
  | SMALL
  | MID
  | FULL
deriving DecidableEq, Inhabited

/-- The enum `AudibleAlert` (`cereal::CarControl::HUDControl::AudibleAlert`). -/
inductive AudibleAlert where
  | NONE
  | CHIME_ENGAGE
  | CHIME_DISENGAGE
  | CHIME_ERROR
  | CHIME_WARNING1
  | CHIME_WARNING2
  | CHIME_WARNING_REPEAT
  | CHIME_PROMPT
  | CHIME_WARNING2_REPEAT
deriving DecidableEq, Inhabited

/-- The enum `cereal::PandaState::PandaType`. -/
inductive PandaType where
  | UNKNOWN
  | WHITE_PANDA
  | GREY_PANDA
  | BLACK_PANDA
  | PEDAL
  | UNO
  | DOS
deriving DecidableEq, Inhabited

/-- The fields of a `cereal::ControlsState` message that `update_status` and
`update_alert` read. -/
structure ControlsState where
  enabled : Bool
  alertStatus : AlertStatus
  alertSound : AudibleAlert
  alertType : String
  alertText1 : String
  alertText2 : String
  alertSize : AlertSize
  alertBlinkingRate : ℚ
deriving DecidableEq, Inhabited

/-- The field of a `cereal::DeviceState` message that decides `started`. -/
structure DeviceState where
  started : Bool
deriving DecidableEq, Inhabited

/-- The fields of a `cereal::PandaState` message that `update_sockets` reads. -/
structure PandaState where
  pandaType : PandaType
  ignitionLine : Bool
  ignitionCan : Bool
deriving DecidableEq, Inhabited

/-- The fields of a `cereal::CarState` message that `update_sockets` reads.
`gearShifter` is the ordinal of the enum `GearShifter`. -/
structure CarState where
  brakePressed : Bool
  brakeLights : Bool
  gearShifter : Nat
  leftBlinker : Bool
  rightBlinker : Bool
  leftBlindspot : Bool
  rightBlindspot : Bool
  tpmsPressureFl : ℚ
  tpmsPressureFr : ℚ
  tpmsPressureRl : ℚ
  tpmsPressureRr : ℚ
  radarDistance : ℚ
  standStill : Bool
  vSetDis : ℚ
  cruiseAccStatus : Bool
  steeringAngleDeg : ℚ
deriving DecidableEq, Inhabited

/-- The enum `NetStatus` of `ui.hpp`. -/
inductive NetStatus where
  | NET_CONNECTED
  | NET_DISCONNECTED
  | NET_ERROR
deriving DecidableEq, Inhabited

/-- The persistent parameter store as `update_params` reads it: the value each
key has when it is read.  The three integer keys hold what the cast
`(int)params.get(..)` yields; `LastAthenaPingTime` is absent or a time in
nanoseconds. -/
structure Params where
  IsMetric : Bool
  IsOpenpilotViewEnabled : Bool
  OpkrUIBrightness : Int
  OpkrUIVolumeBoost : Int
  LateralControlMethod : Int
  OpkrDrivingRecord : Bool
  EndToEndToggle : Bool
  LastAthenaPingTime : Option ℚ
deriving DecidableEq, Inhabited

/-- The enum `UIStatus` of `ui.hpp`. -/
inductive UIStatus where
  | STATUS_OFFROAD
  | STATUS_DISENGAGED
  | STATUS_ENGAGED
  | STATUS_WARNING
  | STATUS_ALERT
deriving DecidableEq, Inhabited

/-- One topic of the bus as `ui.cc` queries it: `sm.updated(name)`,
`sm.rcv_frame(name)` and `sm[name]`, the last message received. -/
structure Topic (α : Type) where
  updated : Bool
  rcv_frame : Nat
  msg : α
deriving Inhabited

/-- The `SubMaster` behind `s->sm`: the frame counter and the topics whose
handlers are embedded here. -/
structure SubMaster where
  frame : Nat
  controlsState : Topic ControlsState
  carState : Topic CarState
  radarState : Topic RadarState
  liveCalibration : Topic LiveCalibration
  modelV2 : Topic ModelDataV2
  deviceState : Topic DeviceState
  pandaState : Topic PandaState
deriving Inhabited

/-- What one poll of the bus delivers: the new message of each topic that
updated, and in `others` the number of updated topics among those whose
handlers are not embedded (liveParameters, ubloxGnss, liveLocationKalman,
carParams, driverState, driverMonitoringState, sensorEvents, lateralPlan). -/
structure Poll where
  controlsState : Option ControlsState
  carState : Option CarState
  radarState : Option RadarState
  liveCalibration : Option LiveCalibration
  modelV2 : Option ModelDataV2
  deviceState : Option DeviceState
  pandaState : Option PandaState
  others : Nat
deriving Inhabited

/-- A call on the audio device `s->sound`. -/
inductive SoundCall where
  | play (a : AudibleAlert)
  | stop
deriving DecidableEq, Inhabited

/-- The camera sources `s->vipc_client` can point to. -/
inductive VipcSel where
  | rear
  | front
deriving DecidableEq, Inhabited

/-- The state of a `VisionIpcClient` that `ui.cc` reads and writes. -/
structure VisionIpcClient where
  connected : Bool
deriving DecidableEq, Inhabited

/-- The fields of `UIScene` (`ui.hpp`) that the embedded functions read or
write.  The fixed-size arrays `lead_data[2]`, `lead_vertices[2]`,
`lane_line_probs[4]`, `lane_line_vertices[4]`, `road_edge_stds[2]` and
`road_edge_vertices[2]` are functions of the index. -/
structure UIScene where
  started : Bool
  driver_view : Bool
  world_objects_visible : Bool
  recording : Bool
  touched : Bool
  map_on_top : Bool
  view_from_calib : mat3
  lead_data : Nat → LeadData
  lead_vertices : Nat → vertex_data
  lane_line_probs : Nat → ℚ
  lane_line_vertices : Nat → line_vertices_data
  road_edge_stds : Nat → ℚ
  road_edge_vertices : Nat → line_vertices_data
  track_vertices : line_vertices_data
  controls_state : ControlsState
  deviceState : DeviceState
  pandaType : PandaType
  ignition : Bool
  alert_text1 : String
  alert_text2 : String
  alert_size : AlertSize
  alert_type : String
  alert_blinking_rate : ℚ
  started_frame : Nat
  car_state : CarState
  blinker_blinkingrate : Int
  brakePress : Bool
  brakeLights : Bool
  getGearShifter : Nat
  leftBlinker : Bool
  rightBlinker : Bool
  leftblindspot : Bool
  rightblindspot : Bool
  tpmsPressureFl : ℚ
  tpmsPressureFr : ℚ
  tpmsPressureRl : ℚ
  tpmsPressureRr : ℚ
  radarDistance : ℚ
  standStill : Bool
  vSetDis : ℚ
  cruiseAccStatus : Bool
  angleSteers : ℚ
  is_metric : Bool
  end_to_end : Bool
  athenaStatus : NetStatus
deriving Inhabited

/-- The fields of `UIState` (`ui.hpp`) that the embedded functions read or
write, the log `sound` of the calls made on `s->sound` (oldest first), and
`started_prev`, the function-static variable of `update_status`. -/
structure UIState where
  sm : SubMaster
  scene : UIScene
  status : UIStatus
  sidebar_collapsed : Bool
  is_OpenpilotViewEnabled : Bool
  wide_camera : Bool
  car_space_transform : List ℚ
  fb_w : ℚ
  fb_h : ℚ
  vipc_client : VipcSel
  vipc_client_rear : VisionIpcClient
  vipc_client_front : VisionIpcClient
  last_frame : Option Nat
  sound : List SoundCall
  started_prev : Bool
  nOpkrUIBrightness : Int
  nOpkrUIVolumeBoost : Int
  lat_control : Int
  driving_record : Bool
deriving Inhabited

/-! ## Projection (`ui.cc` 14-28) -/

/-- Modelled from the spec: `matvecmul3` is declared in `common/mat.h`, outside
`src/`; it is the matrix-vector product by which the projection "applies the
calibration rotation, then the chosen camera intrinsic matrix". -/
def matvecmul3 (a : mat3) (b : vec3) : vec3 :=
  { v0 := a.v0 * b.v0 + a.v1 * b.v1 + a.v2 * b.v2
    v1 := a.v3 * b.v0 + a.v4 * b.v1 + a.v5 * b.v2
    v2 := a.v6 * b.v0 + a.v7 * b.v1 + a.v8 * b.v2 }

/-- Modelled from the spec: `nvgTransformPoint` belongs to the nanovg library,
outside `src/`; it applies the "2D transform mapping normalized projected
coordinates to current framebuffer pixel space", an affine map stored as six
coefficients `t[0] .. t[5]`. -/
def nvgTransformPoint (t : List ℚ) (sx sy : ℚ) : vertex_data :=
  { x := sx * t.getD 0 0 + sy * t.getD 2 0 + t.getD 4 0
    y := sx * t.getD 1 0 + sy * t.getD 3 0 + t.getD 5 0 }

/-- Function `calib_frame_to_full_frame`, lines 16-28: the vertex written to `*out` and
the returned visibility.  A zero divisor `KEp.v[2]` makes the float quotients
infinite or NaN, so does `*out`, and every comparison chain of line 27 fails:
the function returns `false`; the non-finite vertex it leaves in `*out` is
rendered here as the origin. -/
def calib_frame_to_full_frame (K : Consts) (s : UIState) (in_x in_y in_z : ℚ) :
    vertex_data × Bool :=
  let margin : ℚ := 500
  let pt : vec3 := { v0 := in_x, v1 := in_y, v2 := in_z }
  let Ep := matvecmul3 s.scene.view_from_calib pt
  let KEp := matvecmul3
    (if s.wide_camera then K.ecam_intrinsic_matrix else K.fcam_intrinsic_matrix) Ep
  if KEp.v2 = 0 then ({ x := 0, y := 0 }, false)
  else
    let x := KEp.v0 / KEp.v2
    let y := KEp.v1 / KEp.v2
    let out := nvgTransformPoint s.car_space_transform x y
    (out, decide (out.x ≥ -margin ∧ out.x ≤ s.fb_w + margin ∧
                  out.y ≥ -margin ∧ out.y ≤ s.fb_h + margin))

/-! ## Path-length truncation (`ui.cc` 98-105) -/

/-- The `for` loop of `get_path_length_idx`, lines 101-103.  The first argument
is `TRAJECTORY_SIZE - i`, so `0` there is the failure of the test
`i < TRAJECTORY_SIZE`; the second is `i`, the third `max_idx`. -/
def get_path_length_idx_loop (line_x : List ℚ) (path_height : ℚ) : Nat → Nat → Nat → Nat
  | 0, _, max_idx => max_idx
  | rem + 1, i, max_idx =>
    if line_x.getD i 0 < path_height then
      get_path_length_idx_loop line_x path_height rem (i + 1) i
    else max_idx

/-- Function `get_path_length_idx`, lines 98-105. -/
def get_path_length_idx (TRAJECTORY_SIZE : Nat) (line : XYZTData) (path_height : ℚ) : Nat :=
  let line_x := line.x
  get_path_length_idx_loop line_x path_height TRAJECTORY_SIZE 0 0

/-! ## Lead vehicles (`ui.cc` 107-117) -/

/-- One pass of the body of the `for` loop of `update_leads`, lines 109-115,
for the index `i`. -/
def update_leads_body (K : Consts) (radar_state : RadarState) (line : Option XYZTData)
    (i : Nat) (s : UIState) : UIState :=
  let lead_data := if i = 0 then radar_state.leadOne else radar_state.leadTwo
  let s1 : UIState :=
    if lead_data.status then
      let z : ℚ := match line with
        | some l => l.z.getD (get_path_length_idx K.TRAJECTORY_SIZE l lead_data.dRel) 0
        | none => 0
      { s with scene := { s.scene with
          lead_vertices := Function.update s.scene.lead_vertices i
            (calib_frame_to_full_frame K s lead_data.dRel (-lead_data.yRel) (z + 1.22)).1 } }
    else s
  { s1 with scene := { s1.scene with
      lead_data := Function.update s1.scene.lead_data i lead_data } }

/-- Function `update_leads`, lines 107-117: the loop runs for `i = 0` and `i = 1`. -/
def update_leads (K : Consts) (s : UIState) (radar_state : RadarState)
    (line : Option XYZTData) : UIState :=
  update_leads_body K radar_state line 1 (update_leads_body K radar_state line 0 s)

/-! ## Polyline construction (`ui.cc` 119-131) -/

/-- The moving pointer `v` of `update_line_data` over the array `pvd->v`:
the contents of the array, the offset `p = v - pvd->v`, and whether every
store made so far fell inside the array. -/
structure LineCursor where
  v : List vertex_data
  p : Nat
  in_bounds : Bool
deriving DecidableEq, Inhabited

/-- The statement `v += calib_frame_to_full_frame(s, in_x, in_y, in_z, v)` of
lines 124 and 127: the projection is stored at `*v` whether it is visible or
not, and `v` advances only when it is visible. -/
def update_line_data_store (K : Consts) (s : UIState) (c : LineCursor) (in_x in_y in_z : ℚ) :
    LineCursor :=
  let r := calib_frame_to_full_frame K s in_x in_y in_z
  { v := c.v.set c.p r.1
    p := c.p + (if r.2 then 1 else 0)
    in_bounds := c.in_bounds && decide (c.p < c.v.length) }

/-- The first `for` loop of `update_line_data`, lines 123-125.  The first
argument is `max_idx + 1 - i`, so `0` there is the failure of `i <= max_idx`;
the second is `i`. -/
def update_line_data_up (K : Consts) (s : UIState) (line : XYZTData) (y_off z_off : ℚ) :
    Nat → Nat → LineCursor → LineCursor
  | 0, _, c => c
  | rem + 1, i, c =>
    update_line_data_up K s line y_off z_off rem (i + 1)
      (update_line_data_store K s c (line.x.getD i 0) (line.y.getD i 0 - y_off)
        (line.z.getD i 0 + z_off))

/-- The second `for` loop of `update_line_data`, lines 126-128.  The argument
is `i + 1`, so `0` there is the failure of `i >= 0`. -/
def update_line_data_down (K : Consts) (s : UIState) (line : XYZTData) (y_off z_off : ℚ) :
    Nat → LineCursor → LineCursor
  | 0, c => c
  | i + 1, c =>
    update_line_data_down K s line y_off z_off i
      (update_line_data_store K s c (line.x.getD i 0) (line.y.getD i 0 + y_off)
        (line.z.getD i 0 + z_off))

/-- The pointer of `update_line_data` when line 129 is reached. -/
def update_line_data_cursor (K : Consts) (s : UIState) (line : XYZTData) (y_off z_off : ℚ)
    (pvd : line_vertices_data) (max_idx : Nat) : LineCursor :=
  update_line_data_down K s line y_off z_off (max_idx + 1)
    (update_line_data_up K s line y_off z_off (max_idx + 1) 0
      { v := pvd.v, p := 0, in_bounds := true })

/-- Function `update_line_data`, lines 119-129: the value of `*pvd` after
`pvd->cnt = v - pvd->v`.  `max_idx` is an `int` in the source; its only
producer, `get_path_length_idx`, never returns a negative value. -/
def update_line_data (K : Consts) (s : UIState) (line : XYZTData) (y_off z_off : ℚ)
    (pvd : line_vertices_data) (max_idx : Nat) : line_vertices_data :=
  let c := update_line_data_cursor K s line y_off z_off pvd max_idx
  { v := c.v, cnt := c.p }

/-- The condition of the `assert` of line 130, evaluated on the value of `*pvd`
that `update_line_data` produces. -/
def update_line_data_assert (K : Consts) (s : UIState) (line : XYZTData) (y_off z_off : ℚ)
    (pvd : line_vertices_data) (max_idx : Nat) : Bool :=
  let r := update_line_data K s line y_off z_off pvd max_idx
  decide (r.cnt < r.v.length)

/-! ## Model handler (`ui.cc` 133-163) -/

/-- The library function `std::clamp(v, lo, hi)`. -/
def clamp (v lo hi : ℚ) : ℚ :=
  if v < lo then lo else if hi < v then hi else v

/-- The value `max_distance` takes at lines 136-137. -/
def update_model_max_distance (K : Consts) (model : ModelDataV2) : ℚ :=
  clamp (model.position.x.getD (K.TRAJECTORY_SIZE - 1) 0)
    K.MIN_DRAW_DISTANCE K.MAX_DRAW_DISTANCE

/-- The value `max_distance` has at line 161, after lines 157-160. -/
def update_model_path_distance (scene : UIScene) (max_distance : ℚ) : ℚ :=
  if (scene.lead_data 0).status then
    let lead_d : ℚ := (scene.lead_data 0).dRel * 2
    clamp (lead_d - min (lead_d * 0.35) 10) 0 max_distance
  else max_distance

/-- The lane-line loop of `update_model`, lines 143-146.  The first argument is
`std::size(scene.lane_line_vertices) - i`, the second is `i`. -/
def update_model_lane_lines (K : Consts) (model : ModelDataV2) (max_idx : Nat) :
    Nat → Nat → UIState → UIState
  | 0, _, s => s
  | rem + 1, i, s =>
    let s1 : UIState := { s with scene := { s.scene with
      lane_line_probs := Function.update s.scene.lane_line_probs i
        (model.laneLineProbs.getD i 0) } }
    let s2 : UIState := { s1 with scene := { s1.scene with
      lane_line_vertices := Function.update s1.scene.lane_line_vertices i
        (update_line_data K s1 (model.laneLines.getD i default)
          (0.025 * s1.scene.lane_line_probs i) 0 (s1.scene.lane_line_vertices i) max_idx) } }
    update_model_lane_lines K model max_idx rem (i + 1) s2

/-- The road-edge loop of `update_model`, lines 151-154.  The first argument is
`std::size(scene.road_edge_vertices) - i`, the second is `i`. -/
def update_model_road_edges (K : Consts) (model : ModelDataV2) (max_idx : Nat) :
    Nat → Nat → UIState → UIState
  | 0, _, s => s
  | rem + 1, i, s =>
    let s1 : UIState := { s with scene := { s.scene with
      road_edge_stds := Function.update s.scene.road_edge_stds i
        (model.roadEdgeStds.getD i 0) } }
    let s2 : UIState := { s1 with scene := { s1.scene with
      road_edge_vertices := Function.update s1.scene.road_edge_vertices i
        (update_line_data K s1 (model.roadEdges.getD i default)
          0.025 0 (s1.scene.road_edge_vertices i) max_idx) } }
    update_model_road_edges K model max_idx rem (i + 1) s2

/-- The truncation index of the lane lines and road edges, line 142. -/
def update_model_lane_idx (K : Consts) (model : ModelDataV2) : Nat :=
  get_path_length_idx K.TRAJECTORY_SIZE (model.laneLines.getD 0 default)
    (update_model_max_distance K model)

/-- The truncation index of the path, line 161. -/
def update_model_path_idx (K : Consts) (s : UIState) (model : ModelDataV2) : Nat :=
  get_path_length_idx K.TRAJECTORY_SIZE model.position
    (update_model_path_distance s.scene (update_model_max_distance K model))

/-- Function `update_model`, lines 133-163; `scene.lane_line_vertices` has four
entries and `scene.road_edge_vertices` two. -/
def update_model (K : Consts) (s : UIState) (model : ModelDataV2) : UIState :=
  let model_position := model.position
  let max_idx := update_model_lane_idx K model
  let s1 := update_model_lane_lines K model max_idx 4 0 s
  let s2 := update_model_road_edges K model max_idx 2 0 s1
  let max_idx := update_model_path_idx K s2 model
  { s2 with scene := { s2.scene with
      track_vertices :=
        update_line_data K s2 model_position 0.7 1.22 s2.scene.track_vertices max_idx } }

/-! ## The telemetry bus -/

/-- The modulus of `uint64_t`. -/
def UINT64_MOD : Nat := 18446744073709551616

/-- The difference `a - b` of two `uint64_t` values. -/
def u64_sub (a b : Nat) : Nat :=
  (a % UINT64_MOD + (UINT64_MOD - b % UINT64_MOD)) % UINT64_MOD

/-- One topic after a poll at frame `frame`: a delivered message is stored,
flagged `updated` and stamped with the frame; without one only the flag is
cleared. -/
def Topic.receive {α : Type} (t : Topic α) (frame : Nat) : Option α → Topic α
  | some m => { updated := true, rcv_frame := frame, msg := m }
  | none => { t with updated := false }

/-- The number of messages (0 or 1) an optional delivery stands for. -/
def delivered {α : Type} (o : Option α) : Nat :=
  if o.isSome then 1 else 0

/-- Modelled from the spec: `SubMaster::update` belongs to the cereal messaging
library, outside `src/`.  One non-blocking poll advances the global frame
counter by one, clears the `updated` flag of every topic, stores each delivered
message with `updated` set and the current frame as its receive frame, and
returns the number of topics that updated.  (The counter is a `uint64_t`; runs
of `2 ^ 64` ticks are outside the model.) -/
def SubMaster.update (sm : SubMaster) (poll : Poll) : Nat × SubMaster :=
  let frame := sm.frame + 1
  (delivered poll.controlsState + delivered poll.carState + delivered poll.radarState +
      delivered poll.liveCalibration + delivered poll.modelV2 + delivered poll.deviceState +
      delivered poll.pandaState + poll.others,
   { frame := frame
     controlsState := sm.controlsState.receive frame poll.controlsState
     carState := sm.carState.receive frame poll.carState
     radarState := sm.radarState.receive frame poll.radarState
     liveCalibration := sm.liveCalibration.receive frame poll.liveCalibration
     modelV2 := sm.modelV2.receive frame poll.modelV2
     deviceState := sm.deviceState.receive frame poll.deviceState
     pandaState := sm.pandaState.receive frame poll.pandaState })

/-! ## Scene aggregation (`ui.cc` 165-325) -/

/-- The controlsState handler of `update_sockets`, lines 170-188.  Of the scene
fields it writes, only `controls_state` is read elsewhere in `ui.cc`. -/
def update_sockets_controlsState (s : UIState) : UIState :=
  if s.scene.started && s.sm.controlsState.updated then
    { s with scene := { s.scene with controls_state := s.sm.controlsState.msg } }
  else s

/-- The body of the carState handler of `update_sockets`, lines 190-210, on
the scene: `data` is the message of the topic. -/
def update_sockets_carState_scene (scene : UIScene) (data : CarState) : UIScene :=
  let scene : UIScene := { scene with car_state := data }
  let scene : UIScene :=
    if scene.leftBlinker != data.leftBlinker || scene.rightBlinker != data.rightBlinker then
      { scene with blinker_blinkingrate := 120 }
    else scene
  { scene with
    brakePress := data.brakePressed
    brakeLights := data.brakeLights
    getGearShifter := data.gearShifter
    leftBlinker := data.leftBlinker
    rightBlinker := data.rightBlinker
    leftblindspot := data.leftBlindspot
    rightblindspot := data.rightBlindspot
    tpmsPressureFl := data.tpmsPressureFl
    tpmsPressureFr := data.tpmsPressureFr
    tpmsPressureRl := data.tpmsPressureRl
    tpmsPressureRr := data.tpmsPressureRr
    radarDistance := data.radarDistance
    standStill := data.standStill
    vSetDis := data.vSetDis
    cruiseAccStatus := data.cruiseAccStatus
    angleSteers := data.steeringAngleDeg }

/-- The carState handler of `update_sockets`, lines 189-211. -/
def update_sockets_carState (s : UIState) : UIState :=
  if s.sm.carState.updated then
    { s with scene := update_sockets_carState_scene s.scene s.sm.carState.msg }
  else s

/-- The radarState handler of `update_sockets`, lines 221-227. -/
def update_sockets_radarState (K : Consts) (s : UIState) : UIState :=
  if s.sm.radarState.updated then
    let line : Option XYZTData :=
      if s.sm.modelV2.rcv_frame > 0 then some s.sm.modelV2.msg.position else none
    update_leads K s s.sm.radarState.msg line
  else s

/-- The product of two 3x3 matrices (`operator*` of `Eigen::Matrix3d`). -/
def matmul3 (a b : mat3) : mat3 :=
  { v0 := a.v0 * b.v0 + a.v1 * b.v3 + a.v2 * b.v6
    v1 := a.v0 * b.v1 + a.v1 * b.v4 + a.v2 * b.v7
    v2 := a.v0 * b.v2 + a.v1 * b.v5 + a.v2 * b.v8
    v3 := a.v3 * b.v0 + a.v4 * b.v3 + a.v5 * b.v6
    v4 := a.v3 * b.v1 + a.v4 * b.v4 + a.v5 * b.v7
    v5 := a.v3 * b.v2 + a.v4 * b.v5 + a.v5 * b.v8
    v6 := a.v6 * b.v0 + a.v7 * b.v3 + a.v8 * b.v6
    v7 := a.v6 * b.v1 + a.v7 * b.v4 + a.v8 * b.v7
    v8 := a.v6 * b.v2 + a.v7 * b.v5 + a.v8 * b.v8 }

/-- The liveCalibration handler of `update_sockets`, lines 228-244. -/
def update_sockets_liveCalibration (K : Consts) (s : UIState) : UIState :=
  if s.sm.liveCalibration.updated then
    let rpy_list := s.sm.liveCalibration.msg.rpyCalib
    let device_from_calib := K.euler2rot (rpy_list.getD 0 0) (rpy_list.getD 1 0) (rpy_list.getD 2 0)
    let view_from_device : mat3 :=
      { v0 := 0, v1 := 1, v2 := 0
        v3 := 0, v4 := 0, v5 := 1
        v6 := 1, v7 := 0, v8 := 0 }
    let view_from_calib := matmul3 view_from_device device_from_calib
    { s with scene := { s.scene with
        world_objects_visible := true
        view_from_calib := view_from_calib } }
  else s

/-- The modelV2 handler of `update_sockets`, lines 245-247. -/
def update_sockets_modelV2 (K : Consts) (s : UIState) : UIState :=
  if s.sm.modelV2.updated then update_model K s s.sm.modelV2.msg else s

/-- The deviceState handler of `update_sockets`, lines 248-255.  Of the scene
fields it writes, only `deviceState` is read elsewhere in `ui.cc`. -/
def update_sockets_deviceState (s : UIState) : UIState :=
  if s.sm.deviceState.updated then
    { s with scene := { s.scene with deviceState := s.sm.deviceState.msg } }
  else s

/-- The pandaState handler of `update_sockets`, lines 256-262. -/
def update_sockets_pandaState (K : Consts) (s : UIState) : UIState :=
  if s.sm.pandaState.updated then
    let pandaState := s.sm.pandaState.msg
    { s with scene := { s.scene with
        pandaType := pandaState.pandaType
        ignition := pandaState.ignitionLine || pandaState.ignitionCan } }
  else if u64_sub s.sm.frame s.sm.pandaState.rcv_frame > 5 * K.UI_FREQ then
    { s with scene := { s.scene with pandaType := PandaType.UNKNOWN } }
  else s

/-- Line 311 of `update_sockets`. -/
def update_sockets_started (s : UIState) : UIState :=
  { s with scene := { s.scene with
      started := s.scene.deviceState.started || s.scene.driver_view } }

/-- Function `update_sockets`, lines 165-325: the poll, the early return when nothing
updated, then the handlers in the order of the source.  The handlers of
liveParameters, ubloxGnss, liveLocationKalman, carParams, driverState,
driverMonitoringState, sensorEvents and lateralPlan only copy message fields
into scene fields that no other function of `ui.cc` reads; they are not
embedded, their topics count in `poll.others`. -/
def update_sockets (K : Consts) (poll : Poll) (s : UIState) : UIState :=
  let r := s.sm.update poll
  let s : UIState := { s with sm := r.2 }
  if r.1 = 0 then s
  else
    let s := update_sockets_controlsState s
    let s := update_sockets_carState s
    let s := update_sockets_radarState K s
    let s := update_sockets_liveCalibration K s
    let s := update_sockets_modelV2 K s
    let s := update_sockets_deviceState s
    let s := update_sockets_pandaState K s
    update_sockets_started s

/-! ## Alerts (`ui.cc` 327-368) -/

/-- The first block of `update_alert`, lines 329-343. -/
def update_alert_controls (s : UIState) : UIState :=
  if s.sm.controlsState.updated then
    let alert_sound := s.scene.controls_state.alertSound
    let s1 : UIState :=
      if s.scene.alert_type ≠ s.scene.controls_state.alertType then
        if alert_sound = AudibleAlert.NONE then
          { s with sound := s.sound ++ [SoundCall.stop] }
        else
          { s with sound := s.sound ++ [SoundCall.play alert_sound] }
      else s
    { s1 with scene := { s1.scene with
        alert_text1 := s1.scene.controls_state.alertText1
        alert_text2 := s1.scene.controls_state.alertText2
        alert_size := s1.scene.controls_state.alertSize
        alert_type := s1.scene.controls_state.alertType
        alert_blinking_rate := s1.scene.controls_state.alertBlinkingRate } }
  else s

/-- The controls-timeout block of `update_alert`, lines 345-367. -/
def update_alert_timeout (K : Consts) (s : UIState) : UIState :=
  if s.scene.deviceState.started &&
      decide (u64_sub s.sm.frame s.scene.started_frame > 10 * K.UI_FREQ) then
    let cs_frame := s.sm.controlsState.rcv_frame
    if cs_frame < s.scene.started_frame then
      if !s.is_OpenpilotViewEnabled then
        { s with scene := { s.scene with
            alert_text1 := "openpilot Unavailable"
            alert_text2 := "Waiting for controls to start"
            alert_size := AlertSize.MID } }
      else s
    else if u64_sub s.sm.frame cs_frame > 5 * K.UI_FREQ then
      let s1 : UIState :=
        if s.scene.alert_text2 ≠ "Controls Unresponsive" then
          { s with sound := s.sound ++ [SoundCall.play AudibleAlert.CHIME_WARNING_REPEAT] }
        else s
      { s1 with
        scene := { s1.scene with
          alert_text1 := "TAKE CONTROL IMMEDIATELY"
          alert_text2 := "Controls Unresponsive"
          alert_size := AlertSize.FULL }
        status := UIStatus.STATUS_ALERT }
    else s
  else s

/-- Function `update_alert`, lines 327-368. -/
def update_alert (K : Consts) (s : UIState) : UIState :=
  update_alert_timeout K (update_alert_controls s)

/-! ## Periodic refresh and camera (`ui.cc` 370-407) -/

/-- Function `update_params`, lines 370-388.  `params` is the parameter store
and `nanos_since_boot` the value the clock call of line 385 returns; times are
in nanoseconds. -/
def update_params (K : Consts) (params : Params) (nanos_since_boot : ℚ) (s : UIState) :
    UIState :=
  let frame := s.sm.frame
  if frame % (5 * K.UI_FREQ) = 0 then
    { s with
      scene := { s.scene with
        is_metric := params.IsMetric
        end_to_end := params.EndToEndToggle }
      is_OpenpilotViewEnabled := params.IsOpenpilotViewEnabled
      nOpkrUIBrightness := params.OpkrUIBrightness
      nOpkrUIVolumeBoost := params.OpkrUIVolumeBoost
      lat_control := params.LateralControlMethod
      driving_record := params.OpkrDrivingRecord }
  else if frame % (6 * K.UI_FREQ) = 0 then
    let s1 : UIState := { s with scene := { s.scene with
      athenaStatus := NetStatus.NET_DISCONNECTED } }
    match params.LastAthenaPingTime with
    | some last_ping =>
      { s1 with scene := { s1.scene with
          athenaStatus :=
            if nanos_since_boot - last_ping < 70000000000 then NetStatus.NET_CONNECTED
            else NetStatus.NET_ERROR } }
    | none => s1
  else s

/-- The client `s->vipc_client` points to. -/
def vipc (s : UIState) : VisionIpcClient :=
  match s.vipc_client with
  | VipcSel.rear => s.vipc_client_rear
  | VipcSel.front => s.vipc_client_front

/-- An assignment through `s->vipc_client`. -/
def set_vipc (s : UIState) (c : VisionIpcClient) : UIState :=
  match s.vipc_client with
  | VipcSel.rear => { s with vipc_client_rear := c }
  | VipcSel.front => { s with vipc_client_front := c }

/-- Function `ui_init_vision`, lines 30-50, without the GL texture set-up. -/
def ui_init_vision (s : UIState) : UIState :=
  { s with scene := { s.scene with
      world_objects_visible := false
      recording := false
      touched := false
      map_on_top := false } }

/-- Function `update_vision`, lines 390-407.  `connect_ok` is what
`vipc_client->connect(false)` returns if it is called (a successful connect
marks the client connected), `recv` what `vipc_client->recv()` returns. -/
def update_vision (connect_ok : Bool) (recv : Option Nat) (s : UIState) : UIState :=
  let s1 : UIState :=
    if !(vipc s).connected && s.scene.started then
      if connect_ok then ui_init_vision (set_vipc s { connected := true }) else s
    else s
  if (vipc s1).connected then
    match recv with
    | some buf => { s1 with last_frame := some buf }
    | none => s1
  else s1

/-! ## Status (`ui.cc` 409-440) -/

/-- The first block of `update_status`, lines 410-419. -/
def update_status_controls (s : UIState) : UIState :=
  if s.scene.started && s.sm.controlsState.updated then
    let alert_status := s.scene.controls_state.alertStatus
    if alert_status = AlertStatus.USER_PROMPT then
      { s with status := UIStatus.STATUS_WARNING }
    else if alert_status = AlertStatus.CRITICAL then
      { s with status := UIStatus.STATUS_ALERT }
    else
      { s with status :=
          if s.scene.controls_state.enabled then UIStatus.STATUS_ENGAGED
          else UIStatus.STATUS_DISENGAGED }
  else s

/-- The transition block of `update_status`, lines 421-439 (the refresh of
`is_rhd` from the store is left out). -/
def update_status_transition (s : UIState) : UIState :=
  let s1 : UIState :=
    if s.scene.started ≠ s.started_prev then
      if s.scene.started then
        { s with
          status := UIStatus.STATUS_DISENGAGED
          scene := { s.scene with
            started_frame := s.sm.frame
            alert_size := AlertSize.NONE }
          sidebar_collapsed := true
          vipc_client := if s.scene.driver_view then VipcSel.front else VipcSel.rear }
      else
        set_vipc
          { s with
            status := UIStatus.STATUS_OFFROAD
            sidebar_collapsed := false
            sound := s.sound ++ [SoundCall.stop] }
          { connected := false }
    else s
  { s1 with started_prev := s1.scene.started }

/-- Function `update_status`, lines 409-440. -/
def update_status (s : UIState) : UIState :=
  update_status_transition (update_status_controls s)

/-! ## The tick (`ui.cc` 442-449) and start-up (53-96) -/

/-- What the environment supplies to one tick: the result of the bus poll,
the value of `scene.driver_view` (written by the touch handling, outside
`ui.cc`), the parameter store, the clock, and the answers of the camera
transport. -/
structure TickInput where
  poll : Poll
  driver_view : Bool
  params : Params
  nanos_since_boot : ℚ
  connect_ok : Bool
  recv : Option Nat
deriving Inhabited

/-- The state in which `update_alert` is entered during `ui_update`: after
`update_params`, `update_sockets` and `update_status`. -/
def ui_update_status (K : Consts) (inp : TickInput) (s : UIState) : UIState :=
  update_status
    (update_sockets K inp.poll (update_params K inp.params inp.nanos_since_boot s))

/-- Function `ui_update`, lines 442-449.  The final call `dashcam(s)` (the recording
trigger of `dashcam.h`, outside `src/`) is not embedded. -/
def ui_update (K : Consts) (inp : TickInput) (s : UIState) : UIState :=
  update_vision inp.connect_ok inp.recv (update_alert K (ui_update_status K inp s))

/-- One tick: the environment sets `scene.driver_view`, the log of sound calls
starts empty, and `ui_update` runs. -/
def tick (K : Consts) (inp : TickInput) (s : UIState) : UIState :=
  ui_update K inp
    { s with scene := { s.scene with driver_view := inp.driver_view }, sound := [] }

/-- A run: one tick per input, in order. -/
def run (K : Consts) (inputs : List TickInput) (s : UIState) : UIState :=
  inputs.foldl (fun st inp => tick K inp st) s

/-- A freshly constructed `SubMaster`: frame `0`, nothing received. -/
def SubMaster.init : SubMaster :=
  { frame := 0
    controlsState := { updated := false, rcv_frame := 0, msg := default }
    carState := { updated := false, rcv_frame := 0, msg := default }
    radarState := { updated := false, rcv_frame := 0, msg := default }
    liveCalibration := { updated := false, rcv_frame := 0, msg := default }
    modelV2 := { updated := false, rcv_frame := 0, msg := default }
    deviceState := { updated := false, rcv_frame := 0, msg := default }
    pandaState := { updated := false, rcv_frame := 0, msg := default } }

/-- A zero-initialised vertex array of capacity `2 * TRAJECTORY_SIZE`. -/
def line_vertices_data.zero (K : Consts) : line_vertices_data :=
  { v := List.replicate (2 * K.TRAJECTORY_SIZE) { x := 0, y := 0 }, cnt := 0 }

/-- The zero-initialised `UIState` the process hands to `ui_init`; the static
`started_prev` of `update_status` starts `false`. -/
def UIState.zero (K : Consts) : UIState :=
  { (default : UIState) with
    scene := { (default : UIScene) with
      lane_line_vertices := fun _ => line_vertices_data.zero K
      road_edge_vertices := fun _ => line_vertices_data.zero K
      track_vertices := line_vertices_data.zero K }
    started_prev := false }

/-- Function `ui_init`, lines 53-96, for the fields embedded here (`wide_camera` stays
`false` outside the QCOM2 build). -/
def ui_init (s : UIState) : UIState :=
  { s with
    sm := SubMaster.init
    scene := { s.scene with started := false }
    status := UIStatus.STATUS_OFFROAD
    last_frame := none
    wide_camera := false
    vipc_client_rear := { connected := false }
    vipc_client_front := { connected := false }
    vipc_client := VipcSel.rear }

/-- The state in which the first tick runs. -/
def init_state (K : Consts) : UIState :=
  ui_init (UIState.zero K)

/-- Whether the controls-timeout block of `update_alert` takes its
"controls is lagging or died" branch (lines 355-366) in the state `s`. -/
def controls_lagging (K : Consts) (s : UIState) : Bool :=
  s.scene.deviceState.started &&
  decide (u64_sub s.sm.frame s.scene.started_frame > 10 * K.UI_FREQ) &&
  !decide (s.sm.controlsState.rcv_frame < s.scene.started_frame) &&
  decide (u64_sub s.sm.frame s.sm.controlsState.rcv_frame > 5 * K.UI_FREQ)

/-- The constants with the values `ui.hpp` and `common/` give them at this
revision (`euler2rot`, a trigonometric function, is replaced by the identity
rotation it returns at zero angles). -/
def upstream_consts : Consts :=
  { TRAJECTORY_SIZE := 33
    UI_FREQ := 20
    MIN_DRAW_DISTANCE := 10
    MAX_DRAW_DISTANCE := 100
    fcam_intrinsic_matrix :=
      { v0 := 910, v1 := 0, v2 := 582, v3 := 0, v4 := 910, v5 := 437, v6 := 0, v7 := 0, v8 := 1 }
    ecam_intrinsic_matrix :=
      { v0 := 620, v1 := 0, v2 := 964, v3 := 0, v4 := 620, v5 := 604, v6 := 0, v7 := 0, v8 := 1 }
    euler2rot := fun _ _ _ =>
      { v0 := 1, v1 := 0, v2 := 0, v3 := 0, v4 := 1, v5 := 0, v6 := 0, v7 := 0, v8 := 1 } }

/-! ## Sample inputs -/

/-- The samples `0, 1, .., n - 1`. -/
def ramp (n : Nat) : List ℚ :=
  (List.range n).map (fun (k : Nat) => (k : ℚ))

/-- A line of 33 samples going straight ahead, one unit apart. -/
def sample_line : XYZTData :=
  { x := ramp 33, y := List.replicate 33 0, z := List.replicate 33 0 }

/-- A model message whose path, lane lines and road edges are `sample_line`. -/
def sample_model : ModelDataV2 :=
  { position := sample_line
    laneLines := List.replicate 4 sample_line
    laneLineProbs := List.replicate 4 1
    roadEdges := List.replicate 2 sample_line
    roadEdgeStds := List.replicate 2 1 }

/-- The start-up state in which lead 0 is tracked at a range of 10. -/
def sample_lead_state : UIState :=
  { init_state upstream_consts with
    scene := { (init_state upstream_consts).scene with
      lead_data := fun _ => { status := true, dRel := 10, yRel := 0 } } }

/-! ## The part of the state the status and alert logic works on -/

/-- The fields of `UIState` that `update_status`, `update_alert` and
`update_vision` read or write. -/
structure Core where
  sm : SubMaster
  status : UIStatus
  sidebar_collapsed : Bool
  is_OpenpilotViewEnabled : Bool
  vipc_client : VipcSel
  vipc_client_rear : VisionIpcClient
  vipc_client_front : VisionIpcClient
  sound : List SoundCall
  started_prev : Bool
  started : Bool
  driver_view : Bool
  controls_state : ControlsState
  deviceState : DeviceState
  alert_text1 : String
  alert_text2 : String
  alert_size : AlertSize
  alert_type : String
  alert_blinking_rate : ℚ
  started_frame : Nat

/-- The `Core` of a state. -/
def core (s : UIState) : Core :=
  { sm := s.sm
    status := s.status
    sidebar_collapsed := s.sidebar_collapsed
    is_OpenpilotViewEnabled := s.is_OpenpilotViewEnabled
    vipc_client := s.vipc_client
    vipc_client_rear := s.vipc_client_rear
    vipc_client_front := s.vipc_client_front
    sound := s.sound
    started_prev := s.started_prev
    started := s.scene.started
    driver_view := s.scene.driver_view
    controls_state := s.scene.controls_state
    deviceState := s.scene.deviceState
    alert_text1 := s.scene.alert_text1
    alert_text2 := s.scene.alert_text2
    alert_size := s.scene.alert_size
    alert_type := s.scene.alert_type
    alert_blinking_rate := s.scene.alert_blinking_rate
    started_frame := s.scene.started_frame }

/-- The client `vipc_client` selects, on a `Core`. -/
def Core.vipc (c : Core) : VisionIpcClient :=
  match c.vipc_client with
  | VipcSel.rear => c.vipc_client_rear
  | VipcSel.front => c.vipc_client_front

/-- The condition under which the controls-timeout block of `update_alert`
takes its "controls is lagging or died" branch, on a `Core`. -/
def Core.lagging (K : Consts) (c : Core) : Bool :=
  c.deviceState.started &&
  decide (u64_sub c.sm.frame c.started_frame > 10 * K.UI_FREQ) &&
  !decide (c.sm.controlsState.rcv_frame < c.started_frame) &&
  decide (u64_sub c.sm.frame c.sm.controlsState.rcv_frame > 5 * K.UI_FREQ)

/-- The condition under which the controls-timeout block of `update_alert`
writes the waiting-for-controls alert, on a `Core`. -/
def Core.waiting (K : Consts) (c : Core) : Bool :=
  c.deviceState.started &&
  decide (u64_sub c.sm.frame c.started_frame > 10 * K.UI_FREQ) &&
  decide (c.sm.controlsState.rcv_frame < c.started_frame) &&
  !c.is_OpenpilotViewEnabled

/-- Function `update_params` on a `Core`, field by field. -/
def Core.update_params (K : Consts) (IsOpenpilotViewEnabled : Bool) (c : Core) : Core :=
  { c with
    is_OpenpilotViewEnabled :=
      if c.sm.frame % (5 * K.UI_FREQ) = 0 then IsOpenpilotViewEnabled
      else c.is_OpenpilotViewEnabled }

/-- Function `update_sockets` on a `Core`, field by field. -/
def Core.update_sockets (poll : Poll) (c : Core) : Core :=
  { c with
    sm := (c.sm.update poll).2
    controls_state :=
      if (c.sm.update poll).1 = 0 then c.controls_state
      else if c.started && (c.sm.update poll).2.controlsState.updated then
        (c.sm.update poll).2.controlsState.msg
      else c.controls_state
    deviceState :=
      if (c.sm.update poll).1 = 0 then c.deviceState
      else if (c.sm.update poll).2.deviceState.updated then
        (c.sm.update poll).2.deviceState.msg
      else c.deviceState
    started :=
      if (c.sm.update poll).1 = 0 then c.started
      else
        (if (c.sm.update poll).2.deviceState.updated then
          (c.sm.update poll).2.deviceState.msg
        else c.deviceState).started || c.driver_view }

/-- The status the first block of `update_status` selects from the controller
state. -/
def status_of_controls (cs : ControlsState) : UIStatus :=
  if cs.alertStatus = AlertStatus.USER_PROMPT then UIStatus.STATUS_WARNING
  else if cs.alertStatus = AlertStatus.CRITICAL then UIStatus.STATUS_ALERT
  else if cs.enabled then UIStatus.STATUS_ENGAGED
  else UIStatus.STATUS_DISENGAGED

/-- Function `update_status` on a `Core`, field by field. -/
def Core.update_status (c : Core) : Core :=
  { c with
    status :=
      if c.started ≠ c.started_prev then
        (if c.started then UIStatus.STATUS_DISENGAGED else UIStatus.STATUS_OFFROAD)
      else if c.started && c.sm.controlsState.updated then status_of_controls c.controls_state
      else c.status
    started_frame :=
      if c.started ≠ c.started_prev ∧ c.started = true then c.sm.frame else c.started_frame
    alert_size :=
      if c.started ≠ c.started_prev ∧ c.started = true then AlertSize.NONE else c.alert_size
    sidebar_collapsed :=
      if c.started ≠ c.started_prev then c.started else c.sidebar_collapsed
    vipc_client :=
      if c.started ≠ c.started_prev ∧ c.started = true then
        (if c.driver_view then VipcSel.front else VipcSel.rear)
      else c.vipc_client
    sound :=
      if c.started ≠ c.started_prev ∧ c.started = false then c.sound ++ [SoundCall.stop]
      else c.sound
    vipc_client_rear :=
      if c.started ≠ c.started_prev ∧ c.started = false ∧ c.vipc_client = VipcSel.rear then
        { connected := false }
      else c.vipc_client_rear
    vipc_client_front :=
      if c.started ≠ c.started_prev ∧ c.started = false ∧ c.vipc_client = VipcSel.front then
        { connected := false }
      else c.vipc_client_front
    started_prev := c.started }

/-- The calls the first block of `update_alert` makes on the audio device. -/
def alert_sound_calls (c : Core) : List SoundCall :=
  if c.sm.controlsState.updated = true ∧ c.alert_type ≠ c.controls_state.alertType then
    (if c.controls_state.alertSound = AudibleAlert.NONE then [SoundCall.stop]
     else [SoundCall.play c.controls_state.alertSound])
  else []

/-- The first block of `update_alert` on a `Core`, field by field. -/
def Core.update_alert_controls (c : Core) : Core :=
  { c with
    sound := c.sound ++ alert_sound_calls c
    alert_text1 :=
      if c.sm.controlsState.updated then c.controls_state.alertText1 else c.alert_text1
    alert_text2 :=
      if c.sm.controlsState.updated then c.controls_state.alertText2 else c.alert_text2
    alert_size :=
      if c.sm.controlsState.updated then c.controls_state.alertSize else c.alert_size
    alert_type :=
      if c.sm.controlsState.updated then c.controls_state.alertType else c.alert_type
    alert_blinking_rate :=
      if c.sm.controlsState.updated then c.controls_state.alertBlinkingRate
      else c.alert_blinking_rate }

/-- The controls-timeout block of `update_alert` on a `Core`, field by field. -/
def Core.update_alert_timeout (K : Consts) (c : Core) : Core :=
  { c with
    sound :=
      if c.lagging K = true ∧ c.alert_text2 ≠ "Controls Unresponsive" then
        c.sound ++ [SoundCall.play AudibleAlert.CHIME_WARNING_REPEAT]
      else c.sound
    alert_text1 :=
      if c.lagging K then "TAKE CONTROL IMMEDIATELY"
      else if c.waiting K then "openpilot Unavailable"
      else c.alert_text1
    alert_text2 :=
      if c.lagging K then "Controls Unresponsive"
      else if c.waiting K then "Waiting for controls to start"
      else c.alert_text2
    alert_size :=
      if c.lagging K then AlertSize.FULL
      else if c.waiting K then AlertSize.MID
      else c.alert_size
    status := if c.lagging K then UIStatus.STATUS_ALERT else c.status }

/-- Function `update_vision` on a `Core`, field by field. -/
def Core.update_vision (connect_ok : Bool) (c : Core) : Core :=
  { c with
    vipc_client_rear :=
      if c.vipc.connected = false ∧ c.started = true ∧ connect_ok = true ∧
          c.vipc_client = VipcSel.rear then { connected := true }
      else c.vipc_client_rear
    vipc_client_front :=
      if c.vipc.connected = false ∧ c.started = true ∧ connect_ok = true ∧
          c.vipc_client = VipcSel.front then { connected := true }
      else c.vipc_client_front }

/-- One tick on a `Core`. -/
def Core.tick (K : Consts) (inp : TickInput) (c : Core) : Core :=
  Core.update_vision inp.connect_ok
    (Core.update_alert_timeout K
      (Core.update_alert_controls
        (Core.update_status
          (Core.update_sockets inp.poll
            (Core.update_params K inp.params.IsOpenpilotViewEnabled
              { c with driver_view := inp.driver_view, sound := [] })))))

/-- A run on a `Core`. -/
def Core.run (K : Consts) (inputs : List TickInput) (c : Core) : Core :=
  inputs.foldl (fun st inp => Core.tick K inp st) c

/-- The invariant of the tick: `status` is Offroad exactly when the scene is not
started, the static `started_prev` holds the value of `started`, and a started
device implies a started scene. -/
def Core.inv (c : Core) : Prop :=
  (c.status = UIStatus.STATUS_OFFROAD ↔ c.started = false) ∧
  c.started_prev = c.started ∧
  (c.deviceState.started = true → c.started = true)

/-- The state in which `update_alert` is entered during the tick. -/
def tick_status (K : Consts) (inp : TickInput) (s : UIState) : UIState :=
  ui_update_status K inp
    { s with scene := { s.scene with driver_view := inp.driver_view }, sound := [] }

/-- A tick input in which the controlsState topic does not update and the
device, if its topic updates, reports started. -/
def quiet (inp : TickInput) : Prop :=
  inp.poll.controlsState = none ∧ ∀ d, inp.poll.deviceState = some d → d.started = true

/-- The input of a tick in which nothing arrives on the bus. -/
def idle_input : TickInput :=
  { poll :=
      { controlsState := none, carState := none, radarState := none, liveCalibration := none,
        modelV2 := none, deviceState := none, pandaState := none, others := 0 }
    driver_view := false
    params :=
      { IsMetric := false, IsOpenpilotViewEnabled := false, OpkrUIBrightness := 0,
        OpkrUIVolumeBoost := 0, LateralControlMethod := 0, OpkrDrivingRecord := false,
        EndToEndToggle := false, LastAthenaPingTime := none }
    nanos_since_boot := 0
    connect_ok := false
    recv := none }

/-- The input of a tick in which the device reports started and a controller
state arrives whose second alert line is `text2` and whose alert status is
`st`, with no sound. -/
def start_input (text2 : String) (st : AlertStatus) : TickInput :=
  { idle_input with
    poll := { idle_input.poll with
      deviceState := some { started := true }
      controlsState := some
        { enabled := false, alertStatus := st, alertSound := AudibleAlert.NONE,
          alertType := "", alertText1 := "", alertText2 := text2,
          alertSize := AlertSize.NONE, alertBlinkingRate := 0 } } }

/-- The input of a tick in which only the device state arrives. -/
def device_input (started : Bool) : TickInput :=
  { idle_input with
    poll := { idle_input.poll with deviceState := some { started := started } } }

/-- The input of a tick in which only a controller state arrives. -/
def controls_input (cs : ControlsState) : TickInput :=
  { idle_input with poll := { idle_input.poll with controlsState := some cs } }

/-- The state `update_sockets` leaves during a tick, on a `Core`. -/
def Core.polled (K : Consts) (inp : TickInput) (c : Core) : Core :=
  Core.update_sockets inp.poll
    (Core.update_params K inp.params.IsOpenpilotViewEnabled
      { c with driver_view := inp.driver_view, sound := [] })

/-- A controller state that reports a critical alert. -/
def critical_controls : ControlsState :=
  { enabled := true, alertStatus := AlertStatus.CRITICAL, alertSound := AudibleAlert.NONE,
    alertType := "", alertText1 := "", alertText2 := "",
    alertSize := AlertSize.NONE, alertBlinkingRate := 0 }

/-- A controller state that raises a new alert with the error chime. -/
def chime_controls : ControlsState :=
  { enabled := true, alertStatus := AlertStatus.NORMAL, alertSound := AudibleAlert.CHIME_ERROR,
    alertType := "steerSaturated/warning", alertText1 := "TAKE CONTROL", alertText2 := "",
    alertSize := AlertSize.MID, alertBlinkingRate := 0 }

/-- The state after the first tick of a run in which the device starts while a
controller state without alert arrives. -/
def start_state : UIState :=
  tick upstream_consts (start_input "" AlertStatus.NORMAL) (init_state upstream_consts)

/-- A controller state whose second alert line is the text the controls-timeout
block of `update_alert` compares with. -/
def unresponsive_controls : ControlsState :=
  { enabled := true, alertStatus := AlertStatus.NORMAL, alertSound := AudibleAlert.NONE,
    alertType := "controlsUnresponsive/permanent", alertText1 := "TAKE CONTROL IMMEDIATELY",
    alertText2 := "Controls Unresponsive", alertSize := AlertSize.FULL,
    alertBlinkingRate := 0 }

/-- The state after two ticks: the device starts, then the controller state
`unresponsive_controls` arrives. -/
def lagging_start_state : UIState :=
  run upstream_consts [device_input true, controls_input unresponsive_controls]
    (init_state upstream_consts)

/-- The state `start_state` at frame 300, with no controller state since the
start. -/
def stale_state : UIState :=
  { start_state with sm := { start_state.sm with frame := 300 } }

/-! ## Projection and calibration: names used by the statements -/

/-- The value of `KEp` at line 20 of `calib_frame_to_full_frame`: the input
point after the calibration rotation and the intrinsic matrix; its third
component is the divisor of the perspective divide. -/
def calib_KEp (K : Consts) (s : UIState) (in_x in_y in_z : ℚ) : vec3 :=
  matvecmul3 (if s.wide_camera then K.ecam_intrinsic_matrix else K.fcam_intrinsic_matrix)
    (matvecmul3 s.scene.view_from_calib { v0 := in_x, v1 := in_y, v2 := in_z })

/-- The test of line 27 on a vertex: inside the framebuffer widened by the
margin of 500 on every side. -/
def within_margin (s : UIState) (out : vertex_data) : Prop :=
  out.x ≥ -500 ∧ out.x ≤ s.fb_w + 500 ∧ out.y ≥ -500 ∧ out.y ≤ s.fb_h + 500

/-- The axis permutation `view_from_device` of lines 235-237. -/
def axis_permutation : mat3 :=
  { v0 := 0, v1 := 1, v2 := 0
    v3 := 0, v4 := 0, v5 := 1
    v6 := 1, v7 := 0, v8 := 0 }

/-- The identity rotation. -/
def identity_rotation : mat3 :=
  { v0 := 1, v1 := 0, v2 := 0
    v3 := 0, v4 := 1, v5 := 0
    v6 := 0, v7 := 0, v8 := 1 }

/-- Modelled from the spec: `euler2rot` (`common/transformations`) is not under
`src/`; it turns a roll/pitch/yaw triple into the rotation `device_from_calib`.
The specification fixes its value at one point: for roll = pitch = yaw = 0 the
handler must yield the axis permutation itself, so the rotation at zero angles
is the identity. -/
def euler2rot_zero_is_identity (K : Consts) : Prop :=
  K.euler2rot 0 0 0 = identity_rotation

/-- A state with zero calibration applied, the identity as viewport transform
and a framebuffer of 2160 by 1080. -/
def sample_view_state : UIState :=
  { init_state upstream_consts with
    car_space_transform := [1, 0, 0, 1, 0, 0]
    fb_w := 2160
    fb_h := 1080
    scene := { (init_state upstream_consts).scene with view_from_calib := axis_permutation } }

/-- The start-up state after a poll that delivered a calibration with
roll = pitch = yaw = 0. -/
def zero_calibration_state : UIState :=
  { init_state upstream_consts with
    sm := { SubMaster.init with
      frame := 1
      liveCalibration := { updated := true, rcv_frame := 1, msg := { rpyCalib := [0, 0, 0] } } } }

/-- The state after the first tick of a run in which the device starts and no
controller state has ever arrived. -/
def device_start_state : UIState :=
  tick upstream_consts (device_input true) (init_state upstream_consts)

/-! ## Reads and stores checked against the array bounds

The functions of lines 98-131 once more, with every subscript checked: a read
of a list outside its length, or a store through `v` outside `pvd->v`, makes
the result `none`. -/

/-- The `for` loop of `get_path_length_idx`, lines 101-103, with the read
`line_x[i]` checked against the length of the list. -/
def get_path_length_idx_loop_checked (line_x : List ℚ) (path_height : ℚ) :
    Nat → Nat → Nat → Option Nat
  | 0, _, max_idx => some max_idx
  | rem + 1, i, max_idx =>
    match line_x[i]? with
    | none => none
    | some x =>
      if x < path_height then
        get_path_length_idx_loop_checked line_x path_height rem (i + 1) i
      else some max_idx

/-- Function `get_path_length_idx`, lines 98-105, with checked reads. -/
def get_path_length_idx_checked (TRAJECTORY_SIZE : Nat) (line : XYZTData) (path_height : ℚ) :
    Option Nat :=
  let line_x := line.x
  get_path_length_idx_loop_checked line_x path_height TRAJECTORY_SIZE 0 0

/-- The read `(*line).getZ()[get_path_length_idx(*line, lead_data.getDRel())]`
of line 112 of `update_leads`, with checked reads. -/
def update_leads_z_checked (K : Consts) (line : Option XYZTData) (lead_data : LeadData) :
    Option ℚ :=
  match line with
  | some l =>
    match get_path_length_idx_checked K.TRAJECTORY_SIZE l lead_data.dRel with
    | some i => l.z[i]?
    | none => none
  | none => some 0

/-- The statement `v += calib_frame_to_full_frame(s, in_x, in_y, in_z, v)` with
the store through `v` checked against the length of `pvd->v`. -/
def update_line_data_store_checked (K : Consts) (s : UIState) (c : LineCursor)
    (in_x in_y in_z : ℚ) : Option LineCursor :=
  if c.p < c.v.length then some (update_line_data_store K s c in_x in_y in_z) else none

/-- The first `for` loop of `update_line_data`, lines 123-125, with checked
reads and stores. -/
def update_line_data_up_checked (K : Consts) (s : UIState) (line : XYZTData) (y_off z_off : ℚ) :
    Nat → Nat → LineCursor → Option LineCursor
  | 0, _, c => some c
  | rem + 1, i, c =>
    match line.x[i]?, line.y[i]?, line.z[i]? with
    | some x, some y, some z =>
      match update_line_data_store_checked K s c x (y - y_off) (z + z_off) with
      | some c1 => update_line_data_up_checked K s line y_off z_off rem (i + 1) c1
      | none => none
    | _, _, _ => none

/-- The second `for` loop of `update_line_data`, lines 126-128, with checked
reads and stores. -/
def update_line_data_down_checked (K : Consts) (s : UIState) (line : XYZTData)
    (y_off z_off : ℚ) : Nat → LineCursor → Option LineCursor
  | 0, c => some c
  | i + 1, c =>
    match line.x[i]?, line.y[i]?, line.z[i]? with
    | some x, some y, some z =>
      match update_line_data_store_checked K s c x (y + y_off) (z + z_off) with
      | some c1 => update_line_data_down_checked K s line y_off z_off i c1
      | none => none
    | _, _, _ => none

/-- Function `update_line_data`, lines 119-129, with checked reads and
stores. -/
def update_line_data_checked (K : Consts) (s : UIState) (line : XYZTData) (y_off z_off : ℚ)
    (pvd : line_vertices_data) (max_idx : Nat) : Option line_vertices_data :=
  match update_line_data_up_checked K s line y_off z_off (max_idx + 1) 0
      { v := pvd.v, p := 0, in_bounds := true } with
  | some c0 =>
    match update_line_data_down_checked K s line y_off z_off (max_idx + 1) c0 with
    | some c => some { v := c.v, cnt := c.p }
    | none => none
  | none => none

/-- A path of 33 samples straight ahead at road height, from 1 to 9, a quarter
apart: every sample is nearer than `MIN_DRAW_DISTANCE`. -/
def near_line : XYZTData :=
  { x := (List.range 33).map (fun (k : Nat) => 1 + (k : ℚ) / 4)
    y := List.replicate 33 0
    z := List.replicate 33 0 }

/-- A model message whose path is `near_line` and that carries no lane lines and
no road edges. -/
def near_model : ModelDataV2 :=
  { position := near_line, laneLines := [], laneLineProbs := [], roadEdges := [],
    roadEdgeStds := [] }

/-- The start-up state with the frame counter of the bus at `n`. -/
def frame_state (n : Nat) : UIState :=
  { init_state upstream_consts with sm := { SubMaster.init with frame := n } }

/-- A parameter store in which `LastAthenaPingTime` has the value `ping`. -/
def ping_params (ping : Option ℚ) : Params :=
  { idle_input.params with LastAthenaPingTime := ping }

/-- The state `update_sockets` leaves during a tick. -/
def tick_sockets (K : Consts) (inp : TickInput) (s : UIState) : UIState :=
  update_sockets K inp.poll
    (update_params K inp.params inp.nanos_since_boot
      { s with scene := { s.scene with driver_view := inp.driver_view }, sound := [] })

/-- The input of a tick in which only a pandaState message arrives, of type
`t` and with the ignition line on. -/
def panda_input (t : PandaType) : TickInput :=
  { idle_input with
    poll := { idle_input.poll with
      pandaState := some { pandaType := t, ignitionLine := true, ignitionCan := false } } }

/-- The state after the first tick of a run in which a pandaState message of
type UNO arrives. -/
def panda_start_state : UIState :=
  tick upstream_consts (panda_input PandaType.UNO) (init_state upstream_consts)

/-- The rotation about the vertical axis by the angle whose cosine is `4 / 5`
and whose sine is `3 / 5`. -/
def yaw_rotation : mat3 :=
  { v0 := 4 / 5, v1 := -3 / 5, v2 := 0
    v3 := 3 / 5, v4 := 4 / 5, v5 := 0
    v6 := 0, v7 := 0, v8 := 1 }

/-- The constants `upstream_consts` with a rotation for `euler2rot` that tells a
zero yaw from a non-zero one: the identity at yaw 0, `yaw_rotation` (exact for
the yaw `arctan (3 / 4)`) at any other yaw. -/
def yaw_consts : Consts :=
  { upstream_consts with
    euler2rot := fun _ _ yaw => if yaw = 0 then identity_rotation else yaw_rotation }

/-- The input of a tick in which a radarState message with lead one tracked at
range 10 straight ahead and a liveCalibration message with a non-zero yaw
arrive together. -/
def lead_and_calibration_input : TickInput :=
  { idle_input with
    poll := { idle_input.poll with
      radarState := some
        { leadOne := { status := true, dRel := 10, yRel := 0 }
          leadTwo := { status := false, dRel := 0, yRel := 0 } }
      liveCalibration := some { rpyCalib := [0, 0, 1287 / 2000] } } }

/-- The centre of the framebuffer of `fb_w` by `fb_h`, the point the
specification calls the viewport centre. -/
def viewport_centre (s : UIState) : vertex_data :=
  { x := s.fb_w / 2, y := s.fb_h / 2 }

/-- The edge test of line 192: whether the left or the right blinker of the
payload differs from the stored one. -/
def blinker_edge (scene : UIScene) (data : CarState) : Bool :=
  scene.leftBlinker != data.leftBlinker || scene.rightBlinker != data.rightBlinker

/-- The start-up state after a poll that delivered a carState message with the
left blinker on. -/
def left_blinker_state : UIState :=
  { init_state upstream_consts with
    sm := { SubMaster.init with
      frame := 1
      carState :=
        { updated := true, rcv_frame := 1,
          msg := { (default : CarState) with leftBlinker := true } } } }

/-! ## The ribbon as the specification describes it -/

/-- The candidate points of a ribbon in the order the specification lists them:
`(x[i], y[i] - y_off, z[i] + z_off)` for `i = 0 .. max_idx`, then
`(x[i], y[i] + y_off, z[i] + z_off)` for `i = max_idx` down to `0`. -/
def ribbon_candidates (line : XYZTData) (y_off z_off : ℚ) (max_idx : Nat) : List (ℚ × ℚ × ℚ) :=
  (List.range (max_idx + 1)).map
      (fun i => (line.x.getD i 0, line.y.getD i 0 - y_off, line.z.getD i 0 + z_off)) ++
  (List.range (max_idx + 1)).reverse.map
      (fun i => (line.x.getD i 0, line.y.getD i 0 + y_off, line.z.getD i 0 + z_off))

/-- The projections of the candidates that `calib_frame_to_full_frame` reports
visible, in the order of the candidates. -/
def visible_projections (K : Consts) (s : UIState) (cands : List (ℚ × ℚ × ℚ)) :
    List vertex_data :=
  ((cands.map (fun c => calib_frame_to_full_frame K s c.1 c.2.1 c.2.2)).filter
    (fun r => r.2)).map (fun r => r.1)

/-- The store of `update_line_data` applied to a list of points in turn. -/
def store_all (K : Consts) (s : UIState) : List (ℚ × ℚ × ℚ) → LineCursor → LineCursor
  | [], c => c
  | pt :: pts, c => store_all K s pts (update_line_data_store K s c pt.1 pt.2.1 pt.2.2)

/-! ## Theorems -/

/-! ### Path-length truncation -/

/-- Any index the loop returns is either the `max_idx` it started from or an
index it visited whose sample is below the threshold, and every sample between
the start and the result is below the threshold. -/
theorem get_path_length_idx_loop_spec (line_x : List ℚ) (T : ℚ) :
    ∀ (rem i m : Nat),
      (get_path_length_idx_loop line_x T rem i m = m ∧ (rem = 0 ∨ ¬ line_x.getD i 0 < T)) ∨
      (i ≤ get_path_length_idx_loop line_x T rem i m ∧
        get_path_length_idx_loop line_x T rem i m < i + rem ∧
        (∀ j, i ≤ j → j ≤ get_path_length_idx_loop line_x T rem i m → line_x.getD j 0 < T) ∧
        (get_path_length_idx_loop line_x T rem i m + 1 = i + rem ∨
          ¬ line_x.getD (get_path_length_idx_loop line_x T rem i m + 1) 0 < T)) := by
  intro rem
  induction rem with
  | zero => intro i m; simp [get_path_length_idx_loop]
  | succ k ih =>
    intro i m
    simp only [get_path_length_idx_loop]
    by_cases h : line_x.getD i 0 < T
    · rw [if_pos h]
      right
      rcases ih (i + 1) i with ⟨hr, hstop⟩ | ⟨h1, h2, h3, h4⟩
      · rw [hr]
        refine ⟨le_refl _, by omega, ?_, ?_⟩
        · intro j hj1 hj2
          have : j = i := le_antisymm hj2 hj1
          rw [this]; exact h
        · rcases hstop with h0 | h0
          · left; omega
          · right; exact h0
      · refine ⟨by omega, by omega, ?_, ?_⟩
        · intro j hj1 hj2
          rcases Nat.eq_or_lt_of_le hj1 with e | l
          · rw [← e]; exact h
          · exact h3 j l hj2
        · rcases h4 with h0 | h0
          · left; omega
          · right; exact h0
    · rw [if_neg h]
      left
      exact ⟨rfl, Or.inr h⟩

/-- The index `get_path_length_idx` returns is below `TRAJECTORY_SIZE`, whatever
the samples and the threshold are. -/
theorem get_path_length_idx_lt (N : Nat) (line : XYZTData) (T : ℚ) (hN : 0 < N) :
    get_path_length_idx N line T < N := by
  have key := get_path_length_idx_loop_spec line.x T N 0 0
  simp only [get_path_length_idx]
  rcases key with ⟨hr, _⟩ | ⟨_, h2, _, _⟩ <;> omega

/-- C1. For a sample array of length `TRAJECTORY_SIZE` that is monotonically
increasing, `get_path_length_idx` returns the largest index whose sample is
strictly below the threshold, and `0` when no sample is below it. -/
theorem get_path_length_idx_largest (N : Nat) (line : XYZTData) (T : ℚ)
    (hlen : line.x.length = N)
    (hmono : ∀ i j, i ≤ j → j < N → line.x.getD i 0 ≤ line.x.getD j 0) :
    ((∃ i, i < N ∧ line.x.getD i 0 < T) →
        get_path_length_idx N line T < N ∧
        line.x.getD (get_path_length_idx N line T) 0 < T ∧
        ∀ j, j < N → line.x.getD j 0 < T → j ≤ get_path_length_idx N line T) ∧
    ((¬ ∃ i, i < N ∧ line.x.getD i 0 < T) → get_path_length_idx N line T = 0) := by
  have key := get_path_length_idx_loop_spec line.x T N 0 0
  simp only [get_path_length_idx] at *
  constructor
  · rintro ⟨i, hi, hlt⟩
    have h0 : line.x.getD 0 0 < T := lt_of_le_of_lt (hmono 0 i (Nat.zero_le _) hi) hlt
    rcases key with ⟨_, hstop⟩ | ⟨_, h2, h3, h4⟩
    · rcases hstop with h | h
      · omega
      · exact absurd h0 h
    · refine ⟨by omega, h3 _ (Nat.zero_le _) (le_refl _), ?_⟩
      intro j hj hjT
      by_contra hcon
      have hlt2 : get_path_length_idx_loop line.x T N 0 0 + 1 ≤ j := by omega
      rcases h4 with h | h
      · omega
      · exact h (lt_of_le_of_lt (hmono _ j hlt2 hj) hjT)
  · intro hnone
    rcases key with ⟨hr, _⟩ | ⟨_, h2, h3, _⟩
    · exact hr
    · exact absurd ⟨_, by omega, h3 _ (Nat.zero_le _) (le_refl _)⟩ hnone

/-- The sample at index `i` of `ramp n` is `i`. -/
theorem getD_ramp (n i : Nat) (hi : i < n) : (ramp n).getD i 0 = (i : ℚ) := by
  unfold ramp
  rw [List.getD_eq_getElem?_getD, List.getElem?_map, List.getElem?_range hi]
  rfl

/-- The samples of `sample_line` increase. -/
theorem sample_line_mono (i j : Nat) (hij : i ≤ j) (hj : j < 33) :
    sample_line.x.getD i 0 ≤ sample_line.x.getD j 0 := by
  show (ramp 33).getD i 0 ≤ (ramp 33).getD j 0
  rw [getD_ramp 33 i (by omega), getD_ramp 33 j hj]
  exact_mod_cast hij

/-- C1 at `sample_line` with the threshold `5 / 2`. -/
theorem get_path_length_idx_largest_witness :
    sample_line.x.length = 33 ∧
    (∀ i j, i ≤ j → j < 33 → sample_line.x.getD i 0 ≤ sample_line.x.getD j 0) ∧
    (((∃ i, i < 33 ∧ sample_line.x.getD i 0 < 5 / 2) →
        get_path_length_idx 33 sample_line (5 / 2) < 33 ∧
        sample_line.x.getD (get_path_length_idx 33 sample_line (5 / 2)) 0 < 5 / 2 ∧
        ∀ j, j < 33 → sample_line.x.getD j 0 < 5 / 2 →
          j ≤ get_path_length_idx 33 sample_line (5 / 2)) ∧
      ((¬ ∃ i, i < 33 ∧ sample_line.x.getD i 0 < 5 / 2) →
        get_path_length_idx 33 sample_line (5 / 2) = 0)) :=
  ⟨by simp [sample_line, ramp], sample_line_mono,
    get_path_length_idx_largest 33 sample_line (5 / 2) (by simp [sample_line, ramp])
      sample_line_mono⟩

/-! ### Polyline construction -/

/-- Overwriting the entry under the pointer does not change the entries behind it. -/
theorem take_set_self {α : Type} (l : List α) (n : Nat) (a : α) :
    (l.set n a).take n = l.take n := by
  rw [List.set_take]
  exact List.set_eq_of_length_le (by simp)


theorem store_all_append (K : Consts) (s : UIState) (as bs : List (ℚ × ℚ × ℚ)) (c : LineCursor) :
    store_all K s (as ++ bs) c = store_all K s bs (store_all K s as c) := by
  induction as generalizing c with
  | nil => rfl
  | cons a as ih => simp [store_all, ih]

/-- The first loop of `update_line_data` stores the points of the indices
`i, i + 1, ..`, offset to one side. -/
theorem update_line_data_up_eq (K : Consts) (s : UIState) (line : XYZTData) (y_off z_off : ℚ) :
    ∀ (rem i : Nat) (c : LineCursor),
      update_line_data_up K s line y_off z_off rem i c =
        store_all K s ((List.range' i rem).map
          (fun i => (line.x.getD i 0, line.y.getD i 0 - y_off, line.z.getD i 0 + z_off))) c := by
  intro rem
  induction rem with
  | zero => intro i c; rfl
  | succ k ih =>
    intro i c
    simp [update_line_data_up, List.range'_succ, store_all, ih]

/-- The second loop of `update_line_data` stores the points of the indices
`k - 1` down to `0`, offset to the other side. -/
theorem update_line_data_down_eq (K : Consts) (s : UIState) (line : XYZTData) (y_off z_off : ℚ) :
    ∀ (k : Nat) (c : LineCursor),
      update_line_data_down K s line y_off z_off k c =
        store_all K s ((List.range k).reverse.map
          (fun i => (line.x.getD i 0, line.y.getD i 0 + y_off, line.z.getD i 0 + z_off))) c := by
  intro k
  induction k with
  | zero => intro c; rfl
  | succ k ih =>
    intro c
    simp [update_line_data_down, List.range_succ, store_all, ih]

/-- The pointer of `update_line_data` is the result of storing the candidates
of the ribbon in order. -/
theorem update_line_data_cursor_eq (K : Consts) (s : UIState) (line : XYZTData)
    (y_off z_off : ℚ) (pvd : line_vertices_data) (max_idx : Nat) :
    update_line_data_cursor K s line y_off z_off pvd max_idx =
      store_all K s (ribbon_candidates line y_off z_off max_idx)
        { v := pvd.v, p := 0, in_bounds := true } := by
  simp [update_line_data_cursor, ribbon_candidates, store_all_append,
    update_line_data_up_eq, update_line_data_down_eq, List.range_eq_range']

/-- The pointer advances by at most one per stored point. -/
theorem store_all_p_le (K : Consts) (s : UIState) :
    ∀ (cands : List (ℚ × ℚ × ℚ)) (c : LineCursor),
      (store_all K s cands c).p ≤ c.p + cands.length := by
  intro cands
  induction cands with
  | nil => intro c; simp [store_all]
  | cons a as ih =>
    intro c
    have h := ih (update_line_data_store K s c a.1 a.2.1 a.2.2)
    have hp : (update_line_data_store K s c a.1 a.2.1 a.2.2).p ≤ c.p + 1 := by
      simp only [update_line_data_store]
      split <;> omega
    simp only [store_all, List.length_cons]
    omega

/-- A store inside the array whose projection is visible appends the
projection to the vertices behind the pointer. -/
theorem update_line_data_store_visible (K : Consts) (s : UIState) (c : LineCursor)
    (a : ℚ × ℚ × ℚ) (hp : c.p < c.v.length)
    (hv : (calib_frame_to_full_frame K s a.1 a.2.1 a.2.2).2 = true) :
    (update_line_data_store K s c a.1 a.2.1 a.2.2).p = c.p + 1 ∧
    (update_line_data_store K s c a.1 a.2.1 a.2.2).v.take (c.p + 1) =
      c.v.take c.p ++ [(calib_frame_to_full_frame K s a.1 a.2.1 a.2.2).1] ∧
    (update_line_data_store K s c a.1 a.2.1 a.2.2).v.length = c.v.length ∧
    (update_line_data_store K s c a.1 a.2.1 a.2.2).in_bounds = c.in_bounds := by
  refine ⟨?_, ?_, ?_, ?_⟩
  · simp [update_line_data_store, hv]
  · simp only [update_line_data_store]
    rw [List.take_succ, take_set_self, List.getElem?_set_self hp]
    rfl
  · simp [update_line_data_store]
  · simp [update_line_data_store, hp]

/-- A store inside the array whose projection is not visible leaves the
pointer and the vertices behind it as they were. -/
theorem update_line_data_store_hidden (K : Consts) (s : UIState) (c : LineCursor)
    (a : ℚ × ℚ × ℚ) (hp : c.p < c.v.length)
    (hv : (calib_frame_to_full_frame K s a.1 a.2.1 a.2.2).2 = false) :
    (update_line_data_store K s c a.1 a.2.1 a.2.2).p = c.p ∧
    (update_line_data_store K s c a.1 a.2.1 a.2.2).v.take c.p = c.v.take c.p ∧
    (update_line_data_store K s c a.1 a.2.1 a.2.2).v.length = c.v.length ∧
    (update_line_data_store K s c a.1 a.2.1 a.2.2).in_bounds = c.in_bounds := by
  refine ⟨?_, ?_, ?_, ?_⟩
  · simp [update_line_data_store, hv]
  · simp only [update_line_data_store]
    exact take_set_self _ _ _
  · simp [update_line_data_store]
  · simp [update_line_data_store, hp]

/-- Storing a list of points that fits in the array behind the pointer leaves
the visible projections, in order, behind the pointer, and every store is
inside the array. -/
theorem store_all_spec (K : Consts) (s : UIState) :
    ∀ (cands : List (ℚ × ℚ × ℚ)) (c : LineCursor),
      c.p + cands.length ≤ c.v.length →
      (store_all K s cands c).p = c.p + (visible_projections K s cands).length ∧
      (store_all K s cands c).v.take (store_all K s cands c).p =
        c.v.take c.p ++ visible_projections K s cands ∧
      (store_all K s cands c).v.length = c.v.length ∧
      (store_all K s cands c).in_bounds = c.in_bounds := by
  intro cands
  induction cands with
  | nil => intro c _; simp [store_all, visible_projections]
  | cons a as ih =>
    intro c hc
    simp only [List.length_cons] at hc
    have hp : c.p < c.v.length := by omega
    by_cases hv : (calib_frame_to_full_frame K s a.1 a.2.1 a.2.2).2 = true
    · obtain ⟨e1, e2, e3, e4⟩ := update_line_data_store_visible K s c a hp hv
      obtain ⟨h1, h2, h3, h4⟩ := ih (update_line_data_store K s c a.1 a.2.1 a.2.2)
        (by rw [e1, e3]; omega)
      have hvis : visible_projections K s (a :: as) =
          (calib_frame_to_full_frame K s a.1 a.2.1 a.2.2).1 :: visible_projections K s as := by
        simp [visible_projections, hv]
      simp only [store_all]
      refine ⟨?_, ?_, ?_, ?_⟩
      · rw [h1, e1, hvis, List.length_cons]; omega
      · rw [h2, e1, e2, hvis]; simp
      · rw [h3, e3]
      · rw [h4, e4]
    · have hv' : (calib_frame_to_full_frame K s a.1 a.2.1 a.2.2).2 = false := by
        simpa using hv
      obtain ⟨e1, e2, e3, e4⟩ := update_line_data_store_hidden K s c a hp hv'
      obtain ⟨h1, h2, h3, h4⟩ := ih (update_line_data_store K s c a.1 a.2.1 a.2.2)
        (by rw [e1, e3]; omega)
      have hvis : visible_projections K s (a :: as) = visible_projections K s as := by
        simp [visible_projections, hv']
      simp only [store_all]
      refine ⟨?_, ?_, ?_, ?_⟩
      · rw [h1, e1, hvis]
      · rw [h2, e1, e2, hvis]
      · rw [h3, e3]
      · rw [h4, e4]

theorem ribbon_candidates_length (line : XYZTData) (y_off z_off : ℚ) (max_idx : Nat) :
    (ribbon_candidates line y_off z_off max_idx).length = 2 * (max_idx + 1) := by
  simp [ribbon_candidates]; omega

/-- C8. For `max_idx < TRAJECTORY_SIZE` and an array `pvd->v` of capacity
`2 * TRAJECTORY_SIZE`, after `update_line_data` the count `pvd->cnt` is the
number of candidates of the ribbon that `calib_frame_to_full_frame` reports
visible, and the first `pvd->cnt` entries of `pvd->v` are the projections of
exactly those candidates, in the order of the candidate list (one side for
`i = 0 .. max_idx`, then the other side for `i = max_idx` down to `0`). -/
theorem update_line_data_ribbon (K : Consts) (s : UIState) (line : XYZTData)
    (y_off z_off : ℚ) (pvd : line_vertices_data) (max_idx : Nat)
    (hlen : line.x.length = K.TRAJECTORY_SIZE ∧ line.y.length = K.TRAJECTORY_SIZE ∧
      line.z.length = K.TRAJECTORY_SIZE)
    (hmax : max_idx < K.TRAJECTORY_SIZE)
    (hcap : pvd.v.length = 2 * K.TRAJECTORY_SIZE) :
    (update_line_data K s line y_off z_off pvd max_idx).cnt =
      (visible_projections K s (ribbon_candidates line y_off z_off max_idx)).length ∧
    (update_line_data K s line y_off z_off pvd max_idx).v.take
        (update_line_data K s line y_off z_off pvd max_idx).cnt =
      visible_projections K s (ribbon_candidates line y_off z_off max_idx) := by
  have h := store_all_spec K s (ribbon_candidates line y_off z_off max_idx)
    { v := pvd.v, p := 0, in_bounds := true }
    (by simp only [ribbon_candidates_length]; omega)
  obtain ⟨h1, h2, _, _⟩ := h
  simp only [update_line_data, update_line_data_cursor_eq]
  refine ⟨by rw [h1]; simp, by rw [h2]; simp⟩

/-- C8 at `sample_line`, in the start-up state, with all 33 samples drawn. -/
theorem update_line_data_ribbon_witness :
    (update_line_data upstream_consts (init_state upstream_consts) sample_line (1 / 40) 0
        (line_vertices_data.zero upstream_consts) 32).cnt =
      (visible_projections upstream_consts (init_state upstream_consts)
        (ribbon_candidates sample_line (1 / 40) 0 32)).length ∧
    (update_line_data upstream_consts (init_state upstream_consts) sample_line (1 / 40) 0
        (line_vertices_data.zero upstream_consts) 32).v.take
      (update_line_data upstream_consts (init_state upstream_consts) sample_line (1 / 40) 0
        (line_vertices_data.zero upstream_consts) 32).cnt =
      visible_projections upstream_consts (init_state upstream_consts)
        (ribbon_candidates sample_line (1 / 40) 0 32) :=
  update_line_data_ribbon upstream_consts (init_state upstream_consts) sample_line (1 / 40) 0
    (line_vertices_data.zero upstream_consts) 32
    (by simp [sample_line, ramp, upstream_consts])
    (by simp [upstream_consts])
    (by simp [line_vertices_data.zero, upstream_consts])

/-! ### Vertex counts of `update_model` -/

/-- The count `update_line_data` leaves is at most twice the number of samples
up to and including `max_idx`. -/
theorem update_line_data_cnt_le (K : Consts) (s : UIState) (line : XYZTData)
    (y_off z_off : ℚ) (pvd : line_vertices_data) (max_idx : Nat) :
    (update_line_data K s line y_off z_off pvd max_idx).cnt ≤ 2 * (max_idx + 1) := by
  have h := store_all_p_le K s (ribbon_candidates line y_off z_off max_idx)
    { v := pvd.v, p := 0, in_bounds := true }
  rw [ribbon_candidates_length] at h
  simp only [update_line_data, update_line_data_cursor_eq]
  simp only [Nat.zero_add] at h
  exact h

/-- The lane-line loop leaves a bounded count in every entry it has passed. -/
theorem update_model_lane_lines_cnt (K : Consts) (model : ModelDataV2) (m : Nat) :
    ∀ (rem i : Nat) (s : UIState),
      (∀ j, j < i → (s.scene.lane_line_vertices j).cnt ≤ 2 * (m + 1)) →
      ∀ j, j < i + rem →
        ((update_model_lane_lines K model m rem i s).scene.lane_line_vertices j).cnt
          ≤ 2 * (m + 1) := by
  intro rem
  induction rem with
  | zero => intro i s h j hj; exact h j (by omega)
  | succ k ih =>
    intro i s h j hj
    simp only [update_model_lane_lines]
    apply ih (i + 1) _ _ j (by omega)
    intro j' hj'
    by_cases e : j' = i
    · subst e
      simp only [Function.update_same]
      exact update_line_data_cnt_le _ _ _ _ _ _ _
    · simp only [Function.update_noteq e]
      exact h j' (by omega)

/-- The road-edge loop leaves a bounded count in every entry it has passed. -/
theorem update_model_road_edges_cnt (K : Consts) (model : ModelDataV2) (m : Nat) :
    ∀ (rem i : Nat) (s : UIState),
      (∀ j, j < i → (s.scene.road_edge_vertices j).cnt ≤ 2 * (m + 1)) →
      ∀ j, j < i + rem →
        ((update_model_road_edges K model m rem i s).scene.road_edge_vertices j).cnt
          ≤ 2 * (m + 1) := by
  intro rem
  induction rem with
  | zero => intro i s h j hj; exact h j (by omega)
  | succ k ih =>
    intro i s h j hj
    simp only [update_model_road_edges]
    apply ih (i + 1) _ _ j (by omega)
    intro j' hj'
    by_cases e : j' = i
    · subst e
      simp only [Function.update_same]
      exact update_line_data_cnt_le _ _ _ _ _ _ _
    · simp only [Function.update_noteq e]
      exact h j' (by omega)

/-- The lane-line loop does not touch the lead data. -/
theorem update_model_lane_lines_lead_data (K : Consts) (model : ModelDataV2) (m : Nat) :
    ∀ (rem i : Nat) (s : UIState),
      (update_model_lane_lines K model m rem i s).scene.lead_data = s.scene.lead_data := by
  intro rem
  induction rem with
  | zero => intro i s; rfl
  | succ k ih => intro i s; simp only [update_model_lane_lines]; rw [ih]

/-- The road-edge loop touches neither the lead data nor the lane lines. -/
theorem update_model_road_edges_frame (K : Consts) (model : ModelDataV2) (m : Nat) :
    ∀ (rem i : Nat) (s : UIState),
      (update_model_road_edges K model m rem i s).scene.lead_data = s.scene.lead_data ∧
      (update_model_road_edges K model m rem i s).scene.lane_line_vertices =
        s.scene.lane_line_vertices := by
  intro rem
  induction rem with
  | zero => intro i s; exact ⟨rfl, rfl⟩
  | succ k ih =>
    intro i s
    simp only [update_model_road_edges]
    obtain ⟨h1, h2⟩ := ih (i + 1)
      { s with scene := { s.scene with
          road_edge_stds := Function.update s.scene.road_edge_stds i
            (model.roadEdgeStds.getD i 0),
          road_edge_vertices := Function.update s.scene.road_edge_vertices i
            (update_line_data K
              { s with scene := { s.scene with
                  road_edge_stds := Function.update s.scene.road_edge_stds i
                    (model.roadEdgeStds.getD i 0) } }
              (model.roadEdges.getD i default) 0.025 0 (s.scene.road_edge_vertices i) m) } }
    exact ⟨h1, h2⟩

/-- C9. Every polyline `update_model` writes (the four lane lines, the two
road edges and the path) has a vertex count of at most `2 * (max_idx + 1)`,
where `max_idx` is the index `get_path_length_idx` returned for that polyline,
and so of at most `2 * TRAJECTORY_SIZE`, the capacity of the vertex array. -/
theorem update_model_cnt_le (K : Consts) (s : UIState) (model : ModelDataV2)
    (hN : 0 < K.TRAJECTORY_SIZE) :
    (∀ i, i < 4 →
      ((update_model K s model).scene.lane_line_vertices i).cnt
          ≤ 2 * (update_model_lane_idx K model + 1) ∧
      ((update_model K s model).scene.lane_line_vertices i).cnt ≤ 2 * K.TRAJECTORY_SIZE) ∧
    (∀ i, i < 2 →
      ((update_model K s model).scene.road_edge_vertices i).cnt
          ≤ 2 * (update_model_lane_idx K model + 1) ∧
      ((update_model K s model).scene.road_edge_vertices i).cnt ≤ 2 * K.TRAJECTORY_SIZE) ∧
    ((update_model K s model).scene.track_vertices.cnt
          ≤ 2 * (update_model_path_idx K s model + 1) ∧
      (update_model K s model).scene.track_vertices.cnt ≤ 2 * K.TRAJECTORY_SIZE) := by
  have hl : update_model_lane_idx K model < K.TRAJECTORY_SIZE :=
    get_path_length_idx_lt _ _ _ hN
  have hp : update_model_path_idx K s model < K.TRAJECTORY_SIZE :=
    get_path_length_idx_lt _ _ _ hN
  have hlane := update_model_lane_lines_cnt K model (update_model_lane_idx K model) 4 0 s
    (fun j hj => absurd hj (Nat.not_lt_zero j))
  have hroad := update_model_road_edges_cnt K model (update_model_lane_idx K model) 2 0
    (update_model_lane_lines K model (update_model_lane_idx K model) 4 0 s)
    (fun j hj => absurd hj (Nat.not_lt_zero j))
  have hfr := update_model_road_edges_frame K model (update_model_lane_idx K model) 2 0
    (update_model_lane_lines K model (update_model_lane_idx K model) 4 0 s)
  have hld := update_model_lane_lines_lead_data K model (update_model_lane_idx K model) 4 0 s
  have hidx : update_model_path_idx K
      (update_model_road_edges K model (update_model_lane_idx K model) 2 0
        (update_model_lane_lines K model (update_model_lane_idx K model) 4 0 s)) model =
      update_model_path_idx K s model := by
    simp only [update_model_path_idx, update_model_path_distance, hfr.1, hld]
  refine ⟨?_, ?_, ?_⟩
  · intro i hi
    have h1 : ((update_model K s model).scene.lane_line_vertices i).cnt
        ≤ 2 * (update_model_lane_idx K model + 1) := by
      simp only [update_model, hfr.2]
      exact hlane i (by omega)
    exact ⟨h1, by omega⟩
  · intro i hi
    have h1 : ((update_model K s model).scene.road_edge_vertices i).cnt
        ≤ 2 * (update_model_lane_idx K model + 1) := by
      simp only [update_model]
      exact hroad i (by omega)
    exact ⟨h1, by omega⟩
  · have h1 : (update_model K s model).scene.track_vertices.cnt
        ≤ 2 * (update_model_path_idx K s model + 1) := by
      simp only [update_model, hidx]
      exact update_line_data_cnt_le _ _ _ _ _ _ _
    exact ⟨h1, by omega⟩

/-- C9 at `sample_model` in the start-up state. -/
theorem update_model_cnt_le_witness :
    0 < upstream_consts.TRAJECTORY_SIZE ∧
    (∀ i, i < 4 →
      ((update_model upstream_consts (init_state upstream_consts) sample_model).scene.lane_line_vertices
          i).cnt ≤ 2 * (update_model_lane_idx upstream_consts sample_model + 1) ∧
      ((update_model upstream_consts (init_state upstream_consts) sample_model).scene.lane_line_vertices
          i).cnt ≤ 2 * upstream_consts.TRAJECTORY_SIZE) :=
  ⟨by simp [upstream_consts],
    (update_model_cnt_le upstream_consts (init_state upstream_consts) sample_model
      (by simp [upstream_consts])).1⟩

/-! ### Draw threshold of the path -/

/-- For `lo ≤ hi`, `std::clamp(v, lo, hi)` is `min(hi, max(lo, v))`. -/
theorem clamp_eq_min_max (v lo hi : ℚ) (h : lo ≤ hi) : clamp v lo hi = min hi (max lo v) := by
  unfold clamp
  by_cases h1 : v < lo
  · rw [if_pos h1, max_eq_left (le_of_lt h1), min_eq_right h]
  · rw [if_neg h1, max_eq_right (not_lt.mp h1)]
    by_cases h2 : hi < v
    · rw [if_pos h2, min_eq_left (le_of_lt h2)]
    · rw [if_neg h2, min_eq_right (not_lt.mp h2)]

/-- For `lo ≤ hi`, `std::clamp(v, lo, hi)` lies between `lo` and `hi`. -/
theorem clamp_bounds (v lo hi : ℚ) (h : lo ≤ hi) : lo ≤ clamp v lo hi ∧ clamp v lo hi ≤ hi := by
  rw [clamp_eq_min_max v lo hi h]
  exact ⟨le_min h (le_max_left _ _), min_le_left _ _⟩

/-- C10 (amended). With `0 ≤ MIN_DRAW_DISTANCE ≤ MAX_DRAW_DISTANCE` and
`C = clamp(position.x[TRAJECTORY_SIZE - 1], MIN_DRAW_DISTANCE, MAX_DRAW_DISTANCE)`,
the threshold `update_model` passes to `get_path_length_idx` for the path is
`C` when lead 0 is not tracked, and `min(C, max(0, L))` when lead 0 is tracked
at range `d`, where `L` is DOUBLE the range minus the smaller of 35% of double
the range and 10; in every case `0 ≤ threshold ≤ C`. -/
theorem update_model_path_threshold (K : Consts) (s : UIState) (model : ModelDataV2)
    (hmin : 0 ≤ K.MIN_DRAW_DISTANCE) (hle : K.MIN_DRAW_DISTANCE ≤ K.MAX_DRAW_DISTANCE) :
    update_model_path_idx K s model =
      get_path_length_idx K.TRAJECTORY_SIZE model.position
        (update_model_path_distance s.scene (update_model_max_distance K model)) ∧
    update_model_max_distance K model =
      clamp (model.position.x.getD (K.TRAJECTORY_SIZE - 1) 0)
        K.MIN_DRAW_DISTANCE K.MAX_DRAW_DISTANCE ∧
    ((s.scene.lead_data 0).status = false →
      update_model_path_distance s.scene (update_model_max_distance K model) =
        update_model_max_distance K model) ∧
    ((s.scene.lead_data 0).status = true →
      update_model_path_distance s.scene (update_model_max_distance K model) =
        min (update_model_max_distance K model)
          (max 0 (2 * (s.scene.lead_data 0).dRel -
            min (0.35 * (2 * (s.scene.lead_data 0).dRel)) 10))) ∧
    0 ≤ update_model_path_distance s.scene (update_model_max_distance K model) ∧
    update_model_path_distance s.scene (update_model_max_distance K model) ≤
      update_model_max_distance K model := by
  have hC : 0 ≤ update_model_max_distance K model :=
    le_trans hmin (clamp_bounds _ _ _ hle).1
  refine ⟨rfl, rfl, ?_, ?_, ?_, ?_⟩
  · intro h
    simp [update_model_path_distance, h]
  · intro h
    simp only [update_model_path_distance, h, if_true]
    rw [clamp_eq_min_max _ _ _ hC, mul_comm (s.scene.lead_data 0).dRel 2,
      mul_comm (2 * (s.scene.lead_data 0).dRel) 0.35]
  · by_cases h : (s.scene.lead_data 0).status = true
    · simp only [update_model_path_distance, h, if_true]
      exact (clamp_bounds _ _ _ hC).1
    · simp only [update_model_path_distance, h]
      exact hC
  · by_cases h : (s.scene.lead_data 0).status = true
    · simp only [update_model_path_distance, h, if_true]
      exact (clamp_bounds _ _ _ hC).2
    · simp [update_model_path_distance, h]

/-- C10 (amended) at `sample_model` with lead 0 tracked at a range of 10. -/
theorem update_model_path_threshold_witness :
    0 ≤ upstream_consts.MIN_DRAW_DISTANCE ∧
    upstream_consts.MIN_DRAW_DISTANCE ≤ upstream_consts.MAX_DRAW_DISTANCE ∧
    0 ≤ update_model_path_distance sample_lead_state.scene
      (update_model_max_distance upstream_consts sample_model) ∧
    update_model_path_distance sample_lead_state.scene
      (update_model_max_distance upstream_consts sample_model) ≤
      update_model_max_distance upstream_consts sample_model :=
  ⟨by norm_num [upstream_consts], by norm_num [upstream_consts],
    (update_model_path_threshold upstream_consts sample_lead_state sample_model
      (by norm_num [upstream_consts]) (by norm_num [upstream_consts])).2.2.2.2⟩

/-- The draw distance of `sample_model` is 32, the last sample of its path. -/
theorem sample_model_max_distance :
    update_model_max_distance upstream_consts sample_model = 32 := by
  have h : sample_model.position.x.getD (upstream_consts.TRAJECTORY_SIZE - 1) 0 = 32 := by
    show (ramp 33).getD 32 0 = 32
    rw [getD_ramp 33 32 (by omega)]
    norm_num
  rw [update_model_max_distance, h]
  norm_num [clamp, upstream_consts]

/-- C10 as stated fails: with lead 0 tracked at range 10 and a draw distance of
32, the threshold of the path is 13 (double the range, 20, minus 7), while
`min(C, max(0, L))` with `L` the range minus the smaller of 35% of double the
range and 10 is 3. -/
theorem update_model_path_threshold_counterexample :
    (sample_lead_state.scene.lead_data 0).status = true ∧
    update_model_path_distance sample_lead_state.scene
      (update_model_max_distance upstream_consts sample_model) = 13 ∧
    min (update_model_max_distance upstream_consts sample_model)
      (max 0 ((sample_lead_state.scene.lead_data 0).dRel -
        min (0.35 * (2 * (sample_lead_state.scene.lead_data 0).dRel)) 10)) = 3 ∧
    update_model_path_distance sample_lead_state.scene
      (update_model_max_distance upstream_consts sample_model) ≠
    min (update_model_max_distance upstream_consts sample_model)
      (max 0 ((sample_lead_state.scene.lead_data 0).dRel -
        min (0.35 * (2 * (sample_lead_state.scene.lead_data 0).dRel)) 10)) := by
  rw [sample_model_max_distance]
  have h1 : update_model_path_distance sample_lead_state.scene 32 = 13 := by
    norm_num [update_model_path_distance, sample_lead_state, clamp]
  have h2 : min (32 : ℚ) (max 0 ((sample_lead_state.scene.lead_data 0).dRel -
      min (0.35 * (2 * (sample_lead_state.scene.lead_data 0).dRel)) 10)) = 3 := by
    norm_num [sample_lead_state]
  refine ⟨rfl, h1, h2, ?_⟩
  rw [h1, h2]
  norm_num

/-! ### What the handlers of `update_sockets` leave alone -/

/-- The lane-line loop writes `lane_line_probs` and `lane_line_vertices` only. -/
theorem update_model_lane_lines_shape (K : Consts) (model : ModelDataV2) (m : Nat) :
    ∀ (rem i : Nat) (s : UIState), ∃ a b,
      update_model_lane_lines K model m rem i s =
        { s with scene := { s.scene with lane_line_probs := a, lane_line_vertices := b } } := by
  intro rem
  induction rem with
  | zero => intro i s; exact ⟨_, _, rfl⟩
  | succ k ih =>
    intro i s
    simp only [update_model_lane_lines]
    obtain ⟨a, b, h⟩ := ih (i + 1)
      { s with scene := { s.scene with
          lane_line_probs := Function.update s.scene.lane_line_probs i
            (model.laneLineProbs.getD i 0),
          lane_line_vertices := Function.update s.scene.lane_line_vertices i
            (update_line_data K
              { s with scene := { s.scene with
                  lane_line_probs := Function.update s.scene.lane_line_probs i
                    (model.laneLineProbs.getD i 0) } }
              (model.laneLines.getD i default)
              (0.025 * Function.update s.scene.lane_line_probs i
                (model.laneLineProbs.getD i 0) i) 0 (s.scene.lane_line_vertices i) m) } }
    exact ⟨a, b, h⟩

/-- The road-edge loop writes `road_edge_stds` and `road_edge_vertices` only. -/
theorem update_model_road_edges_shape (K : Consts) (model : ModelDataV2) (m : Nat) :
    ∀ (rem i : Nat) (s : UIState), ∃ a b,
      update_model_road_edges K model m rem i s =
        { s with scene := { s.scene with road_edge_stds := a, road_edge_vertices := b } } := by
  intro rem
  induction rem with
  | zero => intro i s; exact ⟨_, _, rfl⟩
  | succ k ih =>
    intro i s
    simp only [update_model_road_edges]
    obtain ⟨a, b, h⟩ := ih (i + 1)
      { s with scene := { s.scene with
          road_edge_stds := Function.update s.scene.road_edge_stds i
            (model.roadEdgeStds.getD i 0),
          road_edge_vertices := Function.update s.scene.road_edge_vertices i
            (update_line_data K
              { s with scene := { s.scene with
                  road_edge_stds := Function.update s.scene.road_edge_stds i
                    (model.roadEdgeStds.getD i 0) } }
              (model.roadEdges.getD i default) 0.025 0 (s.scene.road_edge_vertices i) m) } }
    exact ⟨a, b, h⟩

/-- Function `update_model` writes the polylines and their confidences only. -/
theorem update_model_shape (K : Consts) (s : UIState) (model : ModelDataV2) :
    ∃ a b c d e,
      update_model K s model =
        { s with scene := { s.scene with
            lane_line_probs := a, lane_line_vertices := b,
            road_edge_stds := c, road_edge_vertices := d, track_vertices := e } } := by
  obtain ⟨a, b, h1⟩ := update_model_lane_lines_shape K model (update_model_lane_idx K model) 4 0 s
  obtain ⟨c, d, h2⟩ := update_model_road_edges_shape K model (update_model_lane_idx K model) 2 0
    (update_model_lane_lines K model (update_model_lane_idx K model) 4 0 s)
  simp only [update_model]
  rw [h2, h1]
  exact ⟨_, _, _, _, _, rfl⟩

/-- Function `update_leads` writes `lead_vertices` and `lead_data` only. -/
theorem update_leads_shape (K : Consts) (s : UIState) (radar_state : RadarState)
    (line : Option XYZTData) :
    ∃ a b,
      update_leads K s radar_state line =
        { s with scene := { s.scene with lead_vertices := a, lead_data := b } } := by
  have body : ∀ (i : Nat) (t : UIState), ∃ a b,
      update_leads_body K radar_state line i t =
        { t with scene := { t.scene with lead_vertices := a, lead_data := b } } := by
    intro i t
    unfold update_leads_body
    generalize (if i = 0 then radar_state.leadOne else radar_state.leadTwo) = ld
    cases hst : ld.status
    · simp only [hst, Bool.false_eq_true, if_false]
      exact ⟨_, _, rfl⟩
    · simp only [hst, if_true]
      exact ⟨_, _, rfl⟩
  obtain ⟨a, b, h1⟩ := body 0 s
  obtain ⟨c, d, h2⟩ := body 1 (update_leads_body K radar_state line 0 s)
  simp only [update_leads]
  rw [h2, h1]
  exact ⟨_, _, rfl⟩

theorem update_sockets_carState_core (s : UIState) :
    core (update_sockets_carState s) = core s := by
  unfold update_sockets_carState
  split
  · simp only [update_sockets_carState_scene]
    split_ifs <;> rfl
  · rfl

theorem update_sockets_radarState_core (K : Consts) (s : UIState) :
    core (update_sockets_radarState K s) = core s := by
  unfold update_sockets_radarState
  split
  · obtain ⟨a, b, h⟩ := update_leads_shape K s s.sm.radarState.msg
      (if s.sm.modelV2.rcv_frame > 0 then some s.sm.modelV2.msg.position else none)
    simp only []
    rw [h]
    rfl
  · rfl

theorem update_sockets_liveCalibration_core (K : Consts) (s : UIState) :
    core (update_sockets_liveCalibration K s) = core s := by
  unfold update_sockets_liveCalibration
  split <;> rfl

theorem update_sockets_modelV2_core (K : Consts) (s : UIState) :
    core (update_sockets_modelV2 K s) = core s := by
  unfold update_sockets_modelV2
  split
  · obtain ⟨a, b, c, d, e, h⟩ := update_model_shape K s s.sm.modelV2.msg
    rw [h]
    rfl
  · rfl

theorem update_sockets_pandaState_core (K : Consts) (s : UIState) :
    core (update_sockets_pandaState K s) = core s := by
  unfold update_sockets_pandaState
  split
  · rfl
  · split <;> rfl

theorem update_sockets_controlsState_core (s : UIState) :
    core (update_sockets_controlsState s) =
      { core s with
        controls_state :=
          if (core s).started && (core s).sm.controlsState.updated then
            (core s).sm.controlsState.msg
          else (core s).controls_state } := by
  unfold update_sockets_controlsState
  split <;> rename_i h <;> simp only [core, h] <;> rfl

theorem update_sockets_deviceState_core (s : UIState) :
    core (update_sockets_deviceState s) =
      { core s with
        deviceState :=
          if (core s).sm.deviceState.updated then (core s).sm.deviceState.msg
          else (core s).deviceState } := by
  unfold update_sockets_deviceState
  split <;> rename_i h <;> simp only [core, h] <;> rfl

theorem update_sockets_started_core (s : UIState) :
    core (update_sockets_started s) =
      { core s with started := (core s).deviceState.started || (core s).driver_view } := rfl

/-- What `update_sockets` does to the fields the status and alert logic works
on: the bus is polled; when nothing updated the rest is untouched; otherwise
the controller state is copied if the scene was started and the topic updated,
the device state is copied if its topic updated, and `started` is recomputed. -/
theorem update_sockets_core (K : Consts) (poll : Poll) (s : UIState) :
    core (update_sockets K poll s) =
      if (s.sm.update poll).1 = 0 then { core s with sm := (s.sm.update poll).2 }
      else
        { core s with
          sm := (s.sm.update poll).2
          controls_state :=
            if s.scene.started && (s.sm.update poll).2.controlsState.updated then
              (s.sm.update poll).2.controlsState.msg
            else s.scene.controls_state
          deviceState :=
            if (s.sm.update poll).2.deviceState.updated then
              (s.sm.update poll).2.deviceState.msg
            else s.scene.deviceState
          started :=
            (if (s.sm.update poll).2.deviceState.updated then
              (s.sm.update poll).2.deviceState.msg
            else s.scene.deviceState).started || s.scene.driver_view } := by
  by_cases h0 : (s.sm.update poll).1 = 0
  · simp only [update_sockets, h0, if_true]
    rfl
  · simp only [update_sockets, h0, if_false]
    rw [update_sockets_started_core, update_sockets_pandaState_core,
      update_sockets_deviceState_core, update_sockets_modelV2_core,
      update_sockets_liveCalibration_core, update_sockets_radarState_core,
      update_sockets_carState_core, update_sockets_controlsState_core]
    rfl

/-! ### The stages of the tick on the fields of `Core` -/

theorem core_update_params (K : Consts) (params : Params) (now : ℚ) (s : UIState) :
    core (update_params K params now s) =
      Core.update_params K params.IsOpenpilotViewEnabled (core s) := by
  unfold update_params Core.update_params
  by_cases h : s.sm.frame % (5 * K.UI_FREQ) = 0
  · simp only [h, core, if_true]
  · simp only [h, if_false]
    split
    · split <;> simp only [core, h, if_false]
    · simp only [core, h, if_false]

theorem core_update_sockets (K : Consts) (poll : Poll) (s : UIState) :
    core (update_sockets K poll s) = Core.update_sockets poll (core s) := by
  rw [update_sockets_core]
  unfold Core.update_sockets
  by_cases h : (s.sm.update poll).1 = 0 <;> simp only [h, core, if_true, if_false]

theorem core_update_status (s : UIState) :
    core (update_status s) = Core.update_status (core s) := by
  unfold update_status update_status_transition update_status_controls Core.update_status
    status_of_controls set_vipc
  cases h1 : s.scene.started <;> cases h2 : s.started_prev <;>
    cases h3 : s.sm.controlsState.updated <;> cases h4 : s.vipc_client <;>
    simp [core, h1, h2, h3, h4] <;> (repeat' split) <;> simp_all

theorem core_update_alert_controls (s : UIState) :
    core (update_alert_controls s) = Core.update_alert_controls (core s) := by
  unfold update_alert_controls Core.update_alert_controls alert_sound_calls
  cases h1 : s.sm.controlsState.updated
  · simp [core, h1]
  · by_cases h2 : s.scene.alert_type = s.scene.controls_state.alertType
    · simp [core, h1, h2]
    · by_cases h3 : s.scene.controls_state.alertSound = AudibleAlert.NONE
      · simp [core, h1, h2, h3]
      · simp [core, h1, h2, h3]

theorem core_update_alert_timeout (K : Consts) (s : UIState) :
    core (update_alert_timeout K s) = Core.update_alert_timeout K (core s) := by
  unfold update_alert_timeout Core.update_alert_timeout Core.lagging Core.waiting
  cases h1 : s.scene.deviceState.started
  · simp [core, h1]
  · by_cases h2 : u64_sub s.sm.frame s.scene.started_frame > 10 * K.UI_FREQ
    · by_cases h3 : s.sm.controlsState.rcv_frame < s.scene.started_frame
      · cases h4 : s.is_OpenpilotViewEnabled <;> simp [core, h1, h2, h3, h4]
      · by_cases h4 : u64_sub s.sm.frame s.sm.controlsState.rcv_frame > 5 * K.UI_FREQ
        · by_cases h5 : s.scene.alert_text2 = "Controls Unresponsive"
          · simp [core, h1, h2, h3, h4, h5]
          · simp [core, h1, h2, h3, h4, h5]
        · simp [core, h1, h2, h3, h4]
    · simp [core, h1, h2]

theorem core_update_alert (K : Consts) (s : UIState) :
    core (update_alert K s) =
      Core.update_alert_timeout K (Core.update_alert_controls (core s)) := by
  unfold update_alert
  rw [core_update_alert_timeout, core_update_alert_controls]

theorem core_vipc (s : UIState) : (core s).vipc = vipc s := by
  unfold Core.vipc vipc
  cases h : s.vipc_client <;> simp [core, h]

theorem core_update_vision (connect_ok : Bool) (recv : Option Nat) (s : UIState) :
    core (update_vision connect_ok recv s) = Core.update_vision connect_ok (core s) := by
  unfold update_vision Core.update_vision
  rw [core_vipc]
  cases h1 : (vipc s).connected <;> cases h2 : s.scene.started <;> cases h3 : connect_ok <;>
    cases h4 : s.vipc_client <;> cases recv <;>
    simp [core, h1, h2, h3, h4, ui_init_vision, set_vipc, vipc] <;>
    (repeat' split) <;> simp_all [vipc]

theorem core_tick (K : Consts) (inp : TickInput) (s : UIState) :
    core (tick K inp s) = Core.tick K inp (core s) := by
  unfold tick ui_update ui_update_status Core.tick
  rw [core_update_vision, core_update_alert, core_update_status, core_update_sockets,
    core_update_params]
  rfl

theorem core_run (K : Consts) (inputs : List TickInput) :
    ∀ s : UIState, core (run K inputs s) = Core.run K inputs (core s) := by
  induction inputs with
  | nil => intro s; rfl
  | cons inp rest ih =>
    intro s
    simp only [run, Core.run, List.foldl_cons]
    have := ih (tick K inp s)
    simp only [run, Core.run] at this
    rw [this, core_tick]

/-! ### The status invariant -/

theorem Core.lagging_started (K : Consts) (c : Core) (h : c.lagging K = true) :
    c.deviceState.started = true := by
  unfold Core.lagging at h
  simp only [Bool.and_eq_true] at h
  exact h.1.1.1

theorem status_of_controls_ne_offroad (cs : ControlsState) :
    status_of_controls cs ≠ UIStatus.STATUS_OFFROAD := by
  unfold status_of_controls
  split
  · simp
  · split
    · simp
    · split <;> simp

/-- The stages after `update_sockets`, applied to the state `u` it leaves. -/
theorem Core.tick_eq (K : Consts) (inp : TickInput) (c : Core) :
    Core.tick K inp c =
      Core.update_vision inp.connect_ok
        (Core.update_alert_timeout K
          (Core.update_alert_controls
            (Core.update_status
              (Core.update_sockets inp.poll
                (Core.update_params K inp.params.IsOpenpilotViewEnabled
                  { c with driver_view := inp.driver_view, sound := [] }))))) := rfl

/-- Function `update_status` re-establishes "Offroad exactly when not started" from the
same relation between the status and `started_prev`. -/
theorem Core.update_status_offroad (u : Core)
    (h : u.status = UIStatus.STATUS_OFFROAD ↔ u.started_prev = false) :
    ((Core.update_status u).status = UIStatus.STATUS_OFFROAD ↔ u.started = false) := by
  simp only [Core.update_status]
  cases hs : u.started <;> cases hp : u.started_prev <;> simp [hp] at h ⊢
  · exact h
  · split
    · exact status_of_controls_ne_offroad _
    · exact h

/-- After `update_sockets` a started device implies a started scene. -/
theorem Core.update_sockets_started (poll : Poll) (p : Core)
    (h : p.deviceState.started = true → p.started = true) :
    (Core.update_sockets poll p).deviceState.started = true →
      (Core.update_sockets poll p).started = true := by
  simp only [Core.update_sockets]
  split
  · exact h
  · intro hd; simp [hd]

/-- One tick preserves the invariant. -/
theorem Core.tick_inv (K : Consts) (inp : TickInput) (c : Core) (h : c.inv) :
    (Core.tick K inp c).inv := by
  obtain ⟨h1, h2, h3⟩ := h
  rw [Core.tick_eq]
  have hds := Core.update_sockets_started inp.poll
    (Core.update_params K inp.params.IsOpenpilotViewEnabled
      { c with driver_view := inp.driver_view, sound := [] }) h3
  have hst := Core.update_status_offroad
    (Core.update_sockets inp.poll
      (Core.update_params K inp.params.IsOpenpilotViewEnabled
        { c with driver_view := inp.driver_view, sound := [] }))
    (by rw [show (Core.update_sockets inp.poll
          (Core.update_params K inp.params.IsOpenpilotViewEnabled
            { c with driver_view := inp.driver_view, sound := [] })).started_prev =
          c.started_prev from rfl, h2]; exact h1)
  generalize Core.update_sockets inp.poll
    (Core.update_params K inp.params.IsOpenpilotViewEnabled
      { c with driver_view := inp.driver_view, sound := [] }) = u at hds hst ⊢
  refine ⟨?_, rfl, hds⟩
  show ((if (Core.update_alert_controls (Core.update_status u)).lagging K then
      UIStatus.STATUS_ALERT else (Core.update_status u).status) = UIStatus.STATUS_OFFROAD ↔
    u.started = false)
  split
  · rename_i hl
    have := hds (Core.lagging_started K (Core.update_alert_controls (Core.update_status u)) hl)
    simp [this]
  · exact hst

theorem Core.run_inv_core (K : Consts) (inputs : List TickInput) :
    ∀ c : Core, c.inv → (Core.run K inputs c).inv := by
  induction inputs with
  | nil => intro c h; exact h
  | cons inp rest ih =>
    intro c h
    exact ih _ (Core.tick_inv K inp c h)

theorem init_state_inv (K : Consts) : (core (init_state K)).inv := by
  refine ⟨?_, rfl, ?_⟩
  · exact ⟨fun _ => rfl, fun _ => rfl⟩
  · intro h
    exact absurd h (Bool.false_ne_true)

/-- Every state a run reaches from start-up satisfies the invariant. -/
theorem run_inv (K : Consts) (inputs : List TickInput) :
    (core (run K inputs (init_state K))).inv := by
  rw [core_run]
  exact Core.run_inv_core K inputs _ (init_state_inv K)

/-- C2. Starting from the state `ui_init` sets up (not started, Offroad,
`started_prev` false), after every sequence of ticks, whatever the bus
delivers, the status is `STATUS_OFFROAD` if and only if `scene.started` is
false. -/
theorem status_offroad_iff_not_started (K : Consts) (inputs : List TickInput) :
    (run K inputs (init_state K)).status = UIStatus.STATUS_OFFROAD ↔
      (run K inputs (init_state K)).scene.started = false :=
  (run_inv K inputs).1

/-! ### Ticks without controller state -/

theorem u64_sub_of_le (a b : Nat) (hb : b ≤ a) (ha : a < UINT64_MOD) : u64_sub a b = a - b := by
  unfold u64_sub UINT64_MOD at *
  omega

theorem u64_sub_self (a : Nat) : u64_sub a a = 0 := by
  unfold u64_sub UINT64_MOD
  omega

/-- The stages after `update_sockets` in a started state whose controlsState
topic did not update. -/
theorem Core.quiet_stages (K : Consts) (connect_ok : Bool) (u : Core)
    (hs : u.started = true) (hp : u.started_prev = true) (hd : u.deviceState.started = true)
    (hupd : u.sm.controlsState.updated = false) :
    let t := Core.update_vision connect_ok
      (Core.update_alert_timeout K (Core.update_alert_controls (Core.update_status u)))
    t.started = true ∧ t.started_prev = true ∧ t.deviceState.started = true ∧
    t.sm = u.sm ∧ t.started_frame = u.started_frame ∧
    t.status =
      (if (decide (u64_sub u.sm.frame u.started_frame > 10 * K.UI_FREQ) &&
            !decide (u.sm.controlsState.rcv_frame < u.started_frame) &&
            decide (u64_sub u.sm.frame u.sm.controlsState.rcv_frame > 5 * K.UI_FREQ)) = true
        then UIStatus.STATUS_ALERT else u.status) ∧
    (¬ u.sm.controlsState.rcv_frame < u.started_frame →
      t.alert_text2 =
        (if (decide (u64_sub u.sm.frame u.started_frame > 10 * K.UI_FREQ) &&
              decide (u64_sub u.sm.frame u.sm.controlsState.rcv_frame > 5 * K.UI_FREQ)) = true
          then "Controls Unresponsive" else u.alert_text2) ∧
      t.sound =
        (if (decide (u64_sub u.sm.frame u.started_frame > 10 * K.UI_FREQ) &&
              decide (u64_sub u.sm.frame u.sm.controlsState.rcv_frame > 5 * K.UI_FREQ)) = true
            ∧ u.alert_text2 ≠ "Controls Unresponsive"
          then u.sound ++ [SoundCall.play AudibleAlert.CHIME_WARNING_REPEAT] else u.sound)) := by
  intro t
  have w_status : (Core.update_alert_controls (Core.update_status u)).status = u.status := by
    simp [Core.update_alert_controls, Core.update_status, hs, hp, hupd]
  have w_sound : (Core.update_alert_controls (Core.update_status u)).sound = u.sound := by
    simp [Core.update_alert_controls, Core.update_status, alert_sound_calls, hs, hp, hupd]
  have w_text2 : (Core.update_alert_controls (Core.update_status u)).alert_text2 =
      u.alert_text2 := by
    simp [Core.update_alert_controls, Core.update_status, hupd]
  have w_sf : (Core.update_alert_controls (Core.update_status u)).started_frame =
      u.started_frame := by
    simp [Core.update_alert_controls, Core.update_status, hs, hp]
  have w_lag : (Core.update_alert_controls (Core.update_status u)).lagging K =
      (decide (u64_sub u.sm.frame u.started_frame > 10 * K.UI_FREQ) &&
        !decide (u.sm.controlsState.rcv_frame < u.started_frame) &&
        decide (u64_sub u.sm.frame u.sm.controlsState.rcv_frame > 5 * K.UI_FREQ)) := by
    unfold Core.lagging
    rw [w_sf]
    show (u.deviceState.started && _ && _ && _) = _
    rw [hd]
    simp only [Bool.true_and]
    rfl
  have t_status : t.status =
      if (Core.update_alert_controls (Core.update_status u)).lagging K then
        UIStatus.STATUS_ALERT
      else (Core.update_alert_controls (Core.update_status u)).status := rfl
  have t_text2 : t.alert_text2 =
      if (Core.update_alert_controls (Core.update_status u)).lagging K then
        "Controls Unresponsive"
      else if (Core.update_alert_controls (Core.update_status u)).waiting K then
        "Waiting for controls to start"
      else (Core.update_alert_controls (Core.update_status u)).alert_text2 := rfl
  have t_sound : t.sound =
      if (Core.update_alert_controls (Core.update_status u)).lagging K = true ∧
          (Core.update_alert_controls (Core.update_status u)).alert_text2 ≠
            "Controls Unresponsive" then
        (Core.update_alert_controls (Core.update_status u)).sound ++
          [SoundCall.play AudibleAlert.CHIME_WARNING_REPEAT]
      else (Core.update_alert_controls (Core.update_status u)).sound := rfl
  refine ⟨hs, hs, hd, rfl, ?_, ?_, ?_⟩
  · exact w_sf
  · rw [t_status, w_lag, w_status]
  · intro hge
    have w_wait : (Core.update_alert_controls (Core.update_status u)).waiting K = false := by
      unfold Core.waiting
      rw [w_sf]
      show (_ && _ && decide (u.sm.controlsState.rcv_frame < u.started_frame) && _) = false
      simp [hge]
    have hdec : decide (u.sm.controlsState.rcv_frame < u.started_frame) = false := by
      simp [hge]
    rw [t_text2, t_sound, w_lag, w_wait, w_text2, w_sound, hdec]
    simp

/-- A quiet tick in a started state: the frame advances, the start frame and
the receive frame of controlsState stay, the state stays started, and the
status, the second alert line and the sound calls are decided by the
controls-lagging test alone. -/
theorem Core.quiet_tick_core (K : Consts) (inp : TickInput) (c : Core) (hq : quiet inp)
    (hs : c.started = true) (hp : c.started_prev = true) (hd : c.deviceState.started = true) :
    (Core.tick K inp c).started = true ∧
    (Core.tick K inp c).started_prev = true ∧
    (Core.tick K inp c).deviceState.started = true ∧
    (Core.tick K inp c).sm.frame = c.sm.frame + 1 ∧
    (Core.tick K inp c).started_frame = c.started_frame ∧
    (Core.tick K inp c).sm.controlsState.rcv_frame = c.sm.controlsState.rcv_frame ∧
    (Core.tick K inp c).status =
      (if (decide (u64_sub (c.sm.frame + 1) c.started_frame > 10 * K.UI_FREQ) &&
            !decide (c.sm.controlsState.rcv_frame < c.started_frame) &&
            decide (u64_sub (c.sm.frame + 1) c.sm.controlsState.rcv_frame > 5 * K.UI_FREQ)) = true
        then UIStatus.STATUS_ALERT else c.status) ∧
    (¬ c.sm.controlsState.rcv_frame < c.started_frame →
      (Core.tick K inp c).alert_text2 =
        (if (decide (u64_sub (c.sm.frame + 1) c.started_frame > 10 * K.UI_FREQ) &&
              decide (u64_sub (c.sm.frame + 1) c.sm.controlsState.rcv_frame > 5 * K.UI_FREQ)) = true
          then "Controls Unresponsive" else c.alert_text2) ∧
      (Core.tick K inp c).sound =
        (if (decide (u64_sub (c.sm.frame + 1) c.started_frame > 10 * K.UI_FREQ) &&
              decide (u64_sub (c.sm.frame + 1) c.sm.controlsState.rcv_frame > 5 * K.UI_FREQ)) = true
            ∧ c.alert_text2 ≠ "Controls Unresponsive"
          then [SoundCall.play AudibleAlert.CHIME_WARNING_REPEAT] else [])) := by
  obtain ⟨hq1, hq2⟩ := hq
  have hds : (if (c.sm.update inp.poll).2.deviceState.updated = true then
      (c.sm.update inp.poll).2.deviceState.msg else c.deviceState).started = true := by
    simp only [SubMaster.update, Topic.receive]
    cases hdev : inp.poll.deviceState with
    | none => simpa using hd
    | some d => simpa using hq2 d hdev
  have hupd : (c.sm.update inp.poll).2.controlsState.updated = false := by
    simp [SubMaster.update, Topic.receive, hq1]
  have hrcv : (c.sm.update inp.poll).2.controlsState.rcv_frame = c.sm.controlsState.rcv_frame := by
    simp [SubMaster.update, Topic.receive, hq1]
  have hfr : (c.sm.update inp.poll).2.frame = c.sm.frame + 1 := rfl
  have u_started : (Core.update_sockets inp.poll
      (Core.update_params K inp.params.IsOpenpilotViewEnabled
        { c with driver_view := inp.driver_view, sound := [] })).started = true := by
    simp only [Core.update_sockets, Core.update_params]
    split
    · exact hs
    · rw [hds]; rfl
  have u_ds : (Core.update_sockets inp.poll
      (Core.update_params K inp.params.IsOpenpilotViewEnabled
        { c with driver_view := inp.driver_view, sound := [] })).deviceState.started = true := by
    simp only [Core.update_sockets, Core.update_params]
    split
    · exact hd
    · exact hds
  have h := Core.quiet_stages K inp.connect_ok
    (Core.update_sockets inp.poll
      (Core.update_params K inp.params.IsOpenpilotViewEnabled
        { c with driver_view := inp.driver_view, sound := [] }))
    u_started hp u_ds hupd
  rw [Core.tick_eq]
  obtain ⟨g1, g2, g3, g4, g5, g6, g7⟩ := h
  refine ⟨g1, g2, g3, ?_, g5, ?_, ?_, ?_⟩
  · rw [g4]; rfl
  · rw [g4]; exact hrcv
  · rw [g6]
    simp only [Core.update_sockets, Core.update_params, hrcv, hfr]
  · intro hge
    have g := g7 (by simpa only [Core.update_sockets, Core.update_params, hrcv] using hge)
    simp only [Core.update_sockets, Core.update_params, hrcv, hfr, List.nil_append] at g
    exact g

/-- A run of quiet ticks from a started state: the frame advances by the
length of the run; the status is `STATUS_ALERT` at the end exactly when the
last tick took the controls-lagging branch (otherwise it is the status the run
started with), and likewise the second alert line is "Controls Unresponsive". -/
theorem Core.quiet_run_core (K : Consts) :
    ∀ (inputs : List TickInput) (c : Core),
      (∀ inp, inp ∈ inputs → quiet inp) →
      c.started = true → c.started_prev = true → c.deviceState.started = true →
      c.started_frame ≤ c.sm.frame → c.sm.controlsState.rcv_frame ≤ c.sm.frame →
      c.sm.frame + inputs.length < UINT64_MOD →
      (Core.run K inputs c).started = true ∧
      (Core.run K inputs c).started_prev = true ∧
      (Core.run K inputs c).deviceState.started = true ∧
      (Core.run K inputs c).sm.frame = c.sm.frame + inputs.length ∧
      (Core.run K inputs c).started_frame = c.started_frame ∧
      (Core.run K inputs c).sm.controlsState.rcv_frame = c.sm.controlsState.rcv_frame ∧
      (Core.run K inputs c).status =
        (if 0 < inputs.length ∧ 10 * K.UI_FREQ < c.sm.frame + inputs.length - c.started_frame ∧
            c.started_frame ≤ c.sm.controlsState.rcv_frame ∧
            5 * K.UI_FREQ < c.sm.frame + inputs.length - c.sm.controlsState.rcv_frame
          then UIStatus.STATUS_ALERT else c.status) ∧
      (c.started_frame ≤ c.sm.controlsState.rcv_frame →
        (Core.run K inputs c).alert_text2 =
          (if 0 < inputs.length ∧ 10 * K.UI_FREQ < c.sm.frame + inputs.length - c.started_frame ∧
              5 * K.UI_FREQ < c.sm.frame + inputs.length - c.sm.controlsState.rcv_frame
            then "Controls Unresponsive" else c.alert_text2)) := by
  intro inputs
  induction inputs with
  | nil =>
    intro c _ hs hp hd _ _ _
    refine ⟨hs, hp, hd, rfl, rfl, rfl, ?_, ?_⟩
    · simp [Core.run]
    · intro _; simp [Core.run]
  | cons inp rest ih =>
    intro c hq hs hp hd hsf hrcv hlt
    simp only [List.length_cons] at hlt
    obtain ⟨q1, q2, q3, q4, q5, q6, q7, q8⟩ :=
      Core.quiet_tick_core K inp c (hq inp (List.mem_cons_self _ _)) hs hp hd
    have e1 : u64_sub (c.sm.frame + 1) c.started_frame = c.sm.frame + 1 - c.started_frame :=
      u64_sub_of_le _ _ (by omega) (by omega)
    have e2 : u64_sub (c.sm.frame + 1) c.sm.controlsState.rcv_frame =
        c.sm.frame + 1 - c.sm.controlsState.rcv_frame :=
      u64_sub_of_le _ _ (by omega) (by omega)
    rw [e1, e2] at q7 q8
    obtain ⟨r1, r2, r3, r4, r5, r6, r7, r8⟩ := ih (Core.tick K inp c)
      (fun i hi => hq i (List.mem_cons_of_mem _ hi)) q1 q2 q3
      (by rw [q5, q4]; omega) (by rw [q6, q4]; omega) (by rw [q4]; omega)
    have hrun : Core.run K (inp :: rest) c = Core.run K rest (Core.tick K inp c) := rfl
    rw [hrun]
    rw [q4, q5, q6] at r7 r8
    refine ⟨r1, r2, r3, ?_, ?_, ?_, ?_, ?_⟩
    · rw [r4, q4, List.length_cons]; omega
    · rw [r5, q5]
    · rw [r6, q6]
    · rw [r7, q7]
      simp only [List.length_cons, Nat.zero_lt_succ, true_and,
        Bool.and_eq_true, decide_eq_true_eq, Bool.not_eq_true', decide_eq_false_iff_not,
        not_lt, gt_iff_lt]
      by_cases hr : 0 < rest.length
      swap
      · have hz : rest.length = 0 := by omega
        simp only [hz, Nat.lt_irrefl, false_and, if_false, and_assoc, Nat.add_zero]
      · by_cases hL : 10 * K.UI_FREQ < c.sm.frame + 1 + rest.length - c.started_frame ∧
            c.started_frame ≤ c.sm.controlsState.rcv_frame ∧
            5 * K.UI_FREQ < c.sm.frame + 1 + rest.length - c.sm.controlsState.rcv_frame
        · rw [if_pos ⟨hr, hL⟩, if_pos (by obtain ⟨a, b, d⟩ := hL; exact ⟨by omega, b, by omega⟩)]
        · rw [if_neg (fun h => hL h.2)]
          have hL1 : ¬ ((10 * K.UI_FREQ < c.sm.frame + 1 - c.started_frame ∧
              c.started_frame ≤ c.sm.controlsState.rcv_frame) ∧
              5 * K.UI_FREQ < c.sm.frame + 1 - c.sm.controlsState.rcv_frame) := by
            rintro ⟨⟨a, b⟩, d⟩
            exact hL ⟨by omega, b, by omega⟩
          rw [if_neg hL1, if_neg (by
            rintro ⟨a, b, d⟩
            exact hL ⟨by omega, b, by omega⟩)]
    · intro hge
      have q8' := (q8 (Nat.not_lt.mpr hge)).1
      rw [r8 hge, q8']
      simp only [List.length_cons, Nat.zero_lt_succ, true_and,
        Bool.and_eq_true, decide_eq_true_eq, gt_iff_lt]
      by_cases hr : 0 < rest.length
      swap
      · have hz : rest.length = 0 := by omega
        simp only [hz, Nat.lt_irrefl, false_and, if_false, Nat.add_zero]
      · by_cases hL : 10 * K.UI_FREQ < c.sm.frame + 1 + rest.length - c.started_frame ∧
            5 * K.UI_FREQ < c.sm.frame + 1 + rest.length - c.sm.controlsState.rcv_frame
        · rw [if_pos ⟨hr, hL⟩, if_pos (by obtain ⟨a, d⟩ := hL; exact ⟨by omega, by omega⟩)]
        · rw [if_neg (fun h => hL h.2)]
          have hL1 : ¬ (10 * K.UI_FREQ < c.sm.frame + 1 - c.started_frame ∧
              5 * K.UI_FREQ < c.sm.frame + 1 - c.sm.controlsState.rcv_frame) := by
            rintro ⟨a, d⟩
            exact hL ⟨by omega, by omega⟩
          rw [if_neg hL1, if_neg (by
            rintro ⟨a, d⟩
            exact hL ⟨by omega, by omega⟩)]

/-! ### Status selection and the transition to Offroad -/

theorem core_tick_status (K : Consts) (inp : TickInput) (s : UIState) :
    core (tick_status K inp s) = Core.update_status (Core.polled K inp (core s)) := by
  unfold tick_status ui_update_status Core.polled
  rw [core_update_status, core_update_sockets, core_update_params]
  rfl

theorem Core.tick_polled (K : Consts) (inp : TickInput) (c : Core) :
    Core.tick K inp c =
      Core.update_vision inp.connect_ok
        (Core.update_alert_timeout K
          (Core.update_alert_controls (Core.update_status (Core.polled K inp c)))) := rfl

/-- A delivered controller state makes the poll non-empty and is what the
topic then holds, flagged updated and stamped with the new frame. -/
theorem SubMaster.update_controls (sm : SubMaster) (poll : Poll) (cs : ControlsState)
    (h : poll.controlsState = some cs) :
    (sm.update poll).1 ≠ 0 ∧ (sm.update poll).2.controlsState.updated = true ∧
    (sm.update poll).2.controlsState.msg = cs := by
  refine ⟨?_, ?_, ?_⟩
  · simp only [SubMaster.update, delivered, h, Option.isSome_some, if_true]
    omega
  · simp only [SubMaster.update, Topic.receive, h]
  · simp only [SubMaster.update, Topic.receive, h]

/-- After a poll, a topic that is flagged updated was received at the current
frame. -/
theorem SubMaster.update_rcv_frame (sm : SubMaster) (poll : Poll)
    (h : (sm.update poll).2.controlsState.updated = true) :
    (sm.update poll).2.controlsState.rcv_frame = (sm.update poll).2.frame := by
  simp only [SubMaster.update, Topic.receive] at h ⊢
  cases hc : poll.controlsState with
  | none => simp [hc] at h
  | some c => rfl

/-- C7 (amended). In a run from start-up, for every tick in which the
controlsState topic delivers `cs` and `scene.started` is true after
`update_sockets`: if `scene.started` was already true at the previous tick,
the status after `update_status` is `STATUS_WARNING` when `cs.alertStatus` is
USER_PROMPT, `STATUS_ALERT` when it is CRITICAL, else `STATUS_ENGAGED` when
`cs.enabled` and `STATUS_DISENGAGED` when not; if `scene.started` was false at
the previous tick (the tick is the transition to started), the status after
`update_status` is `STATUS_DISENGAGED`. -/
theorem update_status_selects (K : Consts) (inputs : List TickInput) (inp : TickInput)
    (cs : ControlsState) (hcs : inp.poll.controlsState = some cs)
    (hnow : (tick_status K inp (run K inputs (init_state K))).scene.started = true) :
    ((run K inputs (init_state K)).scene.started = true →
      (tick_status K inp (run K inputs (init_state K))).status =
        (if cs.alertStatus = AlertStatus.USER_PROMPT then UIStatus.STATUS_WARNING
         else if cs.alertStatus = AlertStatus.CRITICAL then UIStatus.STATUS_ALERT
         else if cs.enabled then UIStatus.STATUS_ENGAGED
         else UIStatus.STATUS_DISENGAGED)) ∧
    ((run K inputs (init_state K)).scene.started = false →
      (tick_status K inp (run K inputs (init_state K))).status =
        UIStatus.STATUS_DISENGAGED) := by
  obtain ⟨_, hprev, _⟩ := run_inv K inputs
  generalize run K inputs (init_state K) = s at *
  have hst : (tick_status K inp s).status = (core (tick_status K inp s)).status := rfl
  have hnow' : (core (tick_status K inp s)).started = true := hnow
  rw [hst]
  rw [core_tick_status] at hnow' ⊢
  obtain ⟨hn, hupd, hmsg⟩ := SubMaster.update_controls (core s).sm inp.poll cs hcs
  have hsp : (Core.polled K inp (core s)).started_prev = (core s).started := hprev
  have hus : (Core.polled K inp (core s)).started = true := hnow'
  have hu : (Core.polled K inp (core s)).sm.controlsState.updated = true := hupd
  constructor
  · intro h1
    have h1' : (core s).started = true := h1
    have hc : (Core.polled K inp (core s)).controls_state = cs := by
      simp only [Core.polled, Core.update_sockets, Core.update_params]
      rw [if_neg hn, h1', hupd, hmsg]
      rfl
    simp only [Core.update_status, hsp, hus, h1', hu, hc, status_of_controls]
    simp
  · intro h1
    have h1' : (core s).started = false := h1
    simp only [Core.update_status, hsp, hus, h1']
    simp

/-- C7 (amended) at the tick after the start in which a critical controller
state arrives. -/
theorem update_status_selects_witness :
    (controls_input critical_controls).poll.controlsState = some critical_controls ∧
    (tick_status upstream_consts (controls_input critical_controls)
      (run upstream_consts [device_input true] (init_state upstream_consts))).scene.started
        = true ∧
    ((run upstream_consts [device_input true] (init_state upstream_consts)).scene.started
        = true →
      (tick_status upstream_consts (controls_input critical_controls)
        (run upstream_consts [device_input true] (init_state upstream_consts))).status =
        (if critical_controls.alertStatus = AlertStatus.USER_PROMPT then UIStatus.STATUS_WARNING
         else if critical_controls.alertStatus = AlertStatus.CRITICAL then UIStatus.STATUS_ALERT
         else if critical_controls.enabled then UIStatus.STATUS_ENGAGED
         else UIStatus.STATUS_DISENGAGED)) :=
  ⟨rfl, rfl,
    (update_status_selects upstream_consts [device_input true]
      (controls_input critical_controls) critical_controls rfl rfl).1⟩

set_option maxRecDepth 100000 in
/-- C7 as stated fails at the tick of the transition to started: after a start,
a critical controller state and a stop, the device reports started again and a
critical controller state arrives in the same tick.  The scene is started, the
topic updated, both the message and the scene's copy of the controller state
are CRITICAL, and the status after `update_status` is `STATUS_DISENGAGED`, not
`STATUS_ALERT`. -/
theorem update_status_selects_counterexample :
    (tick_status upstream_consts
      { device_input true with
        poll := { (device_input true).poll with controlsState := some critical_controls } }
      (run upstream_consts
        [device_input true, controls_input critical_controls, device_input false]
        (init_state upstream_consts))).scene.started = true ∧
    (tick_status upstream_consts
      { device_input true with
        poll := { (device_input true).poll with controlsState := some critical_controls } }
      (run upstream_consts
        [device_input true, controls_input critical_controls, device_input false]
        (init_state upstream_consts))).sm.controlsState.updated = true ∧
    (tick_status upstream_consts
      { device_input true with
        poll := { (device_input true).poll with controlsState := some critical_controls } }
      (run upstream_consts
        [device_input true, controls_input critical_controls, device_input false]
        (init_state upstream_consts))).sm.controlsState.msg.alertStatus = AlertStatus.CRITICAL ∧
    (tick_status upstream_consts
      { device_input true with
        poll := { (device_input true).poll with controlsState := some critical_controls } }
      (run upstream_consts
        [device_input true, controls_input critical_controls, device_input false]
        (init_state upstream_consts))).scene.controls_state.alertStatus = AlertStatus.CRITICAL ∧
    (tick_status upstream_consts
      { device_input true with
        poll := { (device_input true).poll with controlsState := some critical_controls } }
      (run upstream_consts
        [device_input true, controls_input critical_controls, device_input false]
        (init_state upstream_consts))).status = UIStatus.STATUS_DISENGAGED := by
  refine ⟨rfl, rfl, rfl, rfl, rfl⟩

/-- One tick keeps the start frame at or before the current frame. -/
theorem Core.tick_started_frame_le (K : Consts) (inp : TickInput) (c : Core)
    (h : c.started_frame ≤ c.sm.frame) :
    (Core.tick K inp c).started_frame ≤ (Core.tick K inp c).sm.frame := by
  rw [Core.tick_polled]
  show (Core.update_status (Core.polled K inp c)).started_frame ≤ c.sm.frame + 1
  simp only [Core.update_status]
  split
  · exact le_refl _
  · exact Nat.le_succ_of_le h

theorem Core.run_started_frame_le_core (K : Consts) (inputs : List TickInput) :
    ∀ c : Core, c.started_frame ≤ c.sm.frame →
      (Core.run K inputs c).started_frame ≤ (Core.run K inputs c).sm.frame := by
  induction inputs with
  | nil => intro c h; exact h
  | cons inp rest ih =>
    intro c h
    exact ih _ (Core.tick_started_frame_le K inp c h)

/-- In every state a run reaches from start-up, `started_frame` is at or
before the current frame. -/
theorem run_started_frame_le (K : Consts) (inputs : List TickInput) :
    (run K inputs (init_state K)).scene.started_frame ≤ (run K inputs (init_state K)).sm.frame := by
  have h := Core.run_started_frame_le_core K inputs (core (init_state K)) (Nat.le_refl 0)
  rw [← core_run] at h
  exact h

/-- The tick in which a started scene stops, on a `Core`. -/
theorem Core.offroad_tick (K : Consts) (inp : TickInput) (c : Core)
    (hp : c.started_prev = true) (hs : c.started = true)
    (hnow : (Core.polled K inp c).started = false) :
    (Core.tick K inp c).status = UIStatus.STATUS_OFFROAD ∧
    (Core.tick K inp c).sidebar_collapsed = false ∧
    (Core.tick K inp c).vipc.connected = false ∧
    (Core.tick K inp c).sound =
      SoundCall.stop ::
        (match inp.poll.controlsState with
         | some cs =>
           if c.alert_type ≠ cs.alertType then
             (if cs.alertSound = AudibleAlert.NONE then [SoundCall.stop]
              else [SoundCall.play cs.alertSound])
           else []
         | none => []) := by
  have hn : (c.sm.update inp.poll).1 ≠ 0 := by
    intro h0
    simp only [Core.polled, Core.update_sockets, Core.update_params, h0, if_true] at hnow
    rw [hs] at hnow
    exact Bool.noConfusion hnow
  have hds : (Core.polled K inp c).deviceState.started = false := by
    simp only [Core.polled, Core.update_sockets, Core.update_params, if_neg hn] at hnow ⊢
    simp only [Bool.or_eq_false_iff] at hnow
    exact hnow.1
  have hup : (Core.polled K inp c).started_prev = true := hp
  have hsound : (Core.polled K inp c).sound = [] := rfl
  have hty : (Core.polled K inp c).alert_type = c.alert_type := rfl
  have hsel : (Core.polled K inp c).vipc_client = c.vipc_client := rfl
  -- after update_status
  have a_status : (Core.update_status (Core.polled K inp c)).status =
      UIStatus.STATUS_OFFROAD := by
    simp [Core.update_status, hnow, hup]
  have a_side : (Core.update_status (Core.polled K inp c)).sidebar_collapsed = false := by
    simp [Core.update_status, hnow, hup]
  have a_sound : (Core.update_status (Core.polled K inp c)).sound = [SoundCall.stop] := by
    simp [Core.update_status, hnow, hup, hsound]
  have a_sel : (Core.update_status (Core.polled K inp c)).vipc_client = c.vipc_client := by
    simp [Core.update_status, hnow, hup, hsel]
  have a_conn : (Core.update_status (Core.polled K inp c)).vipc.connected = false := by
    unfold Core.vipc
    rw [a_sel]
    cases hv : c.vipc_client <;> simp [Core.update_status, hnow, hup, hsel, hv]
  have a_calls : alert_sound_calls (Core.update_status (Core.polled K inp c)) =
      (match inp.poll.controlsState with
         | some cs =>
           if c.alert_type ≠ cs.alertType then
             (if cs.alertSound = AudibleAlert.NONE then [SoundCall.stop]
              else [SoundCall.play cs.alertSound])
           else []
         | none => []) := by
    cases hc : inp.poll.controlsState with
    | none =>
      have : (Core.update_status (Core.polled K inp c)).sm.controlsState.updated = false := by
        simp [Core.update_status, Core.polled, Core.update_sockets, Core.update_params,
          SubMaster.update, Topic.receive, hc]
      simp [alert_sound_calls, this]
    | some cs =>
      obtain ⟨_, hupd, hmsg⟩ := SubMaster.update_controls c.sm inp.poll cs hc
      have h1 : (Core.update_status (Core.polled K inp c)).sm.controlsState.updated = true :=
        hupd
      have h2 : (Core.update_status (Core.polled K inp c)).controls_state = cs := by
        show (Core.polled K inp c).controls_state = cs
        simp only [Core.polled, Core.update_sockets, Core.update_params, if_neg hn]
        rw [hs, hupd, hmsg]
        rfl
      have h3 : (Core.update_status (Core.polled K inp c)).alert_type = c.alert_type := rfl
      simp only [alert_sound_calls, h1, h2, h3, true_and]
  -- the controls-timeout block does nothing: the device is not started
  have w_lag : (Core.update_alert_controls
      (Core.update_status (Core.polled K inp c))).lagging K = false := by
    unfold Core.lagging
    show ((Core.polled K inp c).deviceState.started && _ && _ && _) = false
    rw [hds]
    rfl
  rw [Core.tick_polled]
  refine ⟨?_, ?_, ?_, ?_⟩
  · show (if (Core.update_alert_controls
        (Core.update_status (Core.polled K inp c))).lagging K = true then
        UIStatus.STATUS_ALERT
      else (Core.update_status (Core.polled K inp c)).status) = UIStatus.STATUS_OFFROAD
    rw [w_lag, a_status]
    rfl
  · exact a_side
  · unfold Core.vipc
    have hconn := a_conn
    unfold Core.vipc at hconn
    have hst : (Core.update_alert_timeout K (Core.update_alert_controls
        (Core.update_status (Core.polled K inp c)))).started = false := hnow
    have hvc : (Core.update_alert_timeout K (Core.update_alert_controls
        (Core.update_status (Core.polled K inp c)))).vipc_client = c.vipc_client := a_sel
    simp only [Core.update_vision, hst, hvc]
    rw [a_sel] at hconn
    cases hv : c.vipc_client <;> simp only [hv] at hconn ⊢ <;> simpa using hconn
  · show (if (Core.update_alert_controls
          (Core.update_status (Core.polled K inp c))).lagging K = true ∧
          (Core.update_alert_controls
            (Core.update_status (Core.polled K inp c))).alert_text2 ≠
            "Controls Unresponsive" then
        ((Core.update_status (Core.polled K inp c)).sound ++
          alert_sound_calls (Core.update_status (Core.polled K inp c))) ++
          [SoundCall.play AudibleAlert.CHIME_WARNING_REPEAT]
      else (Core.update_status (Core.polled K inp c)).sound ++
          alert_sound_calls (Core.update_status (Core.polled K inp c))) = _
    rw [w_lag, a_sound, a_calls]
    simp

/-- C6 (amended). In a run from start-up, for every tick that begins with
`scene.started` true and ends with it false: at the end of the tick the status
is `STATUS_OFFROAD`, the sidebar is not collapsed, the selected camera client
is not connected, and the sound calls of the tick are `stop()` (from
`update_status`) followed by whatever the first block of `update_alert` calls:
nothing when controlsState did not update or its alert type equals
`scene.alert_type`, `stop()` when the type differs and the alert sound is
NONE, and `play(alertSound)` when the type differs and the sound is not NONE. -/
theorem offroad_transition (K : Consts) (inputs : List TickInput) (inp : TickInput)
    (hprev : (run K inputs (init_state K)).scene.started = true)
    (hnow : (tick K inp (run K inputs (init_state K))).scene.started = false) :
    (tick K inp (run K inputs (init_state K))).status = UIStatus.STATUS_OFFROAD ∧
    (tick K inp (run K inputs (init_state K))).sidebar_collapsed = false ∧
    (vipc (tick K inp (run K inputs (init_state K)))).connected = false ∧
    (tick K inp (run K inputs (init_state K))).sound =
      SoundCall.stop ::
        (match inp.poll.controlsState with
         | some cs =>
           if (run K inputs (init_state K)).scene.alert_type ≠ cs.alertType then
             (if cs.alertSound = AudibleAlert.NONE then [SoundCall.stop]
              else [SoundCall.play cs.alertSound])
           else []
         | none => []) := by
  obtain ⟨_, hinv, _⟩ := run_inv K inputs
  generalize run K inputs (init_state K) = s at *
  have hnow' : (core (tick K inp s)).started = false := hnow
  rw [core_tick] at hnow'
  have hp : (core s).started_prev = true := by rw [hinv]; exact hprev
  obtain ⟨h1, h2, h3, h4⟩ := Core.offroad_tick K inp (core s) hp hprev hnow'
  rw [← core_tick] at h1 h2 h3 h4
  rw [core_vipc] at h3
  exact ⟨h1, h2, h3, h4⟩

/-- C6 (amended) at the tick in which the device stops right after the start. -/
theorem offroad_transition_witness :
    (run upstream_consts [device_input true] (init_state upstream_consts)).scene.started
      = true ∧
    (tick upstream_consts (device_input false)
      (run upstream_consts [device_input true] (init_state upstream_consts))).scene.started
      = false ∧
    (tick upstream_consts (device_input false)
      (run upstream_consts [device_input true] (init_state upstream_consts))).status
      = UIStatus.STATUS_OFFROAD ∧
    (tick upstream_consts (device_input false)
      (run upstream_consts [device_input true] (init_state upstream_consts))).sidebar_collapsed
      = false :=
  ⟨rfl, rfl,
    (offroad_transition upstream_consts [device_input true] (device_input false) rfl rfl).1,
    (offroad_transition upstream_consts [device_input true] (device_input false) rfl rfl).2.1⟩

set_option maxRecDepth 100000 in
/-- C6 as stated fails when a controller state with a new alert type and an
audible alert arrives in the tick in which the device stops: the scene was
started, it is not started after the tick, and the sound calls of the tick are
`stop()` followed by `play(CHIME_ERROR)`. -/
theorem offroad_transition_counterexample :
    (run upstream_consts [device_input true] (init_state upstream_consts)).scene.started
      = true ∧
    (tick upstream_consts
      { device_input false with
        poll := { (device_input false).poll with controlsState := some chime_controls } }
      (run upstream_consts [device_input true] (init_state upstream_consts))).scene.started
      = false ∧
    (tick upstream_consts
      { device_input false with
        poll := { (device_input false).poll with controlsState := some chime_controls } }
      (run upstream_consts [device_input true] (init_state upstream_consts))).sound
      = [SoundCall.stop, SoundCall.play AudibleAlert.CHIME_ERROR] := by
  refine ⟨rfl, rfl, ?_⟩
  decide

/-! ### Alerts with an unchanged type -/

/-- Function `update_alert` on the state `update_status` leaves, when controlsState
updated in the tick with the alert type the scene already shows. -/
theorem Core.same_type_alert (K : Consts) (inp : TickInput) (c : Core)
    (hsf : c.started_frame ≤ c.sm.frame)
    (hupd : (Core.update_status (Core.polled K inp c)).sm.controlsState.updated = true)
    (htype : (Core.update_status (Core.polled K inp c)).controls_state.alertType =
      c.alert_type) :
    (Core.update_status (Core.polled K inp c)).sm.controlsState.rcv_frame =
      (Core.update_status (Core.polled K inp c)).sm.frame ∧
    (Core.update_alert_timeout K (Core.update_alert_controls
      (Core.update_status (Core.polled K inp c)))).sound =
      (Core.update_status (Core.polled K inp c)).sound ∧
    (Core.update_alert_timeout K (Core.update_alert_controls
      (Core.update_status (Core.polled K inp c)))).alert_text1 =
      (Core.update_status (Core.polled K inp c)).controls_state.alertText1 ∧
    (Core.update_alert_timeout K (Core.update_alert_controls
      (Core.update_status (Core.polled K inp c)))).alert_text2 =
      (Core.update_status (Core.polled K inp c)).controls_state.alertText2 ∧
    (Core.update_alert_timeout K (Core.update_alert_controls
      (Core.update_status (Core.polled K inp c)))).alert_size =
      (Core.update_status (Core.polled K inp c)).controls_state.alertSize ∧
    (Core.update_alert_timeout K (Core.update_alert_controls
      (Core.update_status (Core.polled K inp c)))).alert_blinking_rate =
      (Core.update_status (Core.polled K inp c)).controls_state.alertBlinkingRate := by
  have hrcv : (Core.update_status (Core.polled K inp c)).sm.controlsState.rcv_frame =
      (Core.update_status (Core.polled K inp c)).sm.frame :=
    SubMaster.update_rcv_frame c.sm inp.poll hupd
  have hfr : (Core.update_status (Core.polled K inp c)).sm.frame = c.sm.frame + 1 := rfl
  have hsf' : (Core.update_status (Core.polled K inp c)).started_frame ≤ c.sm.frame + 1 := by
    simp only [Core.update_status]
    split
    · exact le_refl _
    · exact Nat.le_succ_of_le hsf
  have hty : (Core.update_status (Core.polled K inp c)).alert_type = c.alert_type := rfl
  have hcalls : alert_sound_calls (Core.update_status (Core.polled K inp c)) = [] := by
    simp [alert_sound_calls, hty, htype]
  generalize Core.update_status (Core.polled K inp c) = a at *
  have w_sm : (Core.update_alert_controls a).sm = a.sm := rfl
  have w_sf : (Core.update_alert_controls a).started_frame = a.started_frame := rfl
  have w_lag : (Core.update_alert_controls a).lagging K = false := by
    unfold Core.lagging
    rw [w_sm, hrcv, u64_sub_self]
    simp
  have w_wait : (Core.update_alert_controls a).waiting K = false := by
    unfold Core.waiting
    rw [w_sm, w_sf, hrcv, hfr]
    have : ¬ c.sm.frame + 1 < a.started_frame := Nat.not_lt.mpr hsf'
    simp [this]
  refine ⟨hrcv, ?_, ?_, ?_, ?_, ?_⟩
  · simp only [Core.update_alert_timeout, w_lag]
    simp [Core.update_alert_controls, hcalls]
  · simp only [Core.update_alert_timeout, w_lag, w_wait]
    simp [Core.update_alert_controls, hupd]
  · simp only [Core.update_alert_timeout, w_lag, w_wait]
    simp [Core.update_alert_controls, hupd]
  · simp only [Core.update_alert_timeout, w_lag, w_wait]
    simp [Core.update_alert_controls, hupd]
  · simp [Core.update_alert_timeout, Core.update_alert_controls, hupd]

/-- When the scene was started before the tick, the controller state
`update_status` and `update_alert` read is the message the tick delivered. -/
theorem Core.polled_controls (K : Consts) (inp : TickInput) (c : Core) (cs : ControlsState)
    (hcs : inp.poll.controlsState = some cs) (hs : c.started = true) :
    (Core.update_status (Core.polled K inp c)).controls_state = cs := by
  obtain ⟨hn, hupd, hmsg⟩ := SubMaster.update_controls c.sm inp.poll cs hcs
  show (Core.polled K inp c).controls_state = cs
  simp only [Core.polled, Core.update_sockets, Core.update_params, if_neg hn]
  rw [hs, hupd, hmsg]
  rfl

/-- C5. In a run from start-up, for every tick in which controlsState updated
(so its receive frame is the current frame) and the alert type of the
controller state that `update_alert` reads (`scene.controls_state`) equals the
`scene.alert_type` of the previous tick, `update_alert` makes no call on the
audio device, whatever the alert texts, size, sound and blink rate are, and it
overwrites `alert_text1`, `alert_text2`, `alert_size` and
`alert_blinking_rate` with the values of that controller state, which is the
message of the tick whenever the scene was started at the previous tick. -/
theorem same_alert_type_no_audio (K : Consts) (inputs : List TickInput) (inp : TickInput)
    (hupd : (tick_status K inp (run K inputs (init_state K))).sm.controlsState.updated = true)
    (htype : (tick_status K inp (run K inputs (init_state K))).scene.controls_state.alertType =
      (run K inputs (init_state K)).scene.alert_type) :
    (tick_status K inp (run K inputs (init_state K))).sm.controlsState.rcv_frame =
      (tick_status K inp (run K inputs (init_state K))).sm.frame ∧
    (update_alert K (tick_status K inp (run K inputs (init_state K)))).sound =
      (tick_status K inp (run K inputs (init_state K))).sound ∧
    (update_alert K (tick_status K inp (run K inputs (init_state K)))).scene.alert_text1 =
      (tick_status K inp (run K inputs (init_state K))).scene.controls_state.alertText1 ∧
    (update_alert K (tick_status K inp (run K inputs (init_state K)))).scene.alert_text2 =
      (tick_status K inp (run K inputs (init_state K))).scene.controls_state.alertText2 ∧
    (update_alert K (tick_status K inp (run K inputs (init_state K)))).scene.alert_size =
      (tick_status K inp (run K inputs (init_state K))).scene.controls_state.alertSize ∧
    (update_alert K
        (tick_status K inp (run K inputs (init_state K)))).scene.alert_blinking_rate =
      (tick_status K inp
        (run K inputs (init_state K))).scene.controls_state.alertBlinkingRate ∧
    (∀ cs, inp.poll.controlsState = some cs →
      (run K inputs (init_state K)).scene.started = true →
      (tick_status K inp (run K inputs (init_state K))).scene.controls_state = cs) := by
  have hsf := run_started_frame_le K inputs
  generalize run K inputs (init_state K) = s at *
  have hupd' : (core (tick_status K inp s)).sm.controlsState.updated = true := hupd
  have htype' : (core (tick_status K inp s)).controls_state.alertType = (core s).alert_type :=
    htype
  rw [core_tick_status] at hupd' htype'
  obtain ⟨h0, h1, h2, h3, h4, h5⟩ := Core.same_type_alert K inp (core s) hsf hupd' htype'
  rw [← core_tick_status, ← core_update_alert] at h1 h2 h3 h4 h5
  rw [← core_tick_status] at h0
  refine ⟨h0, h1, h2, h3, h4, h5, ?_⟩
  intro cs hcs hs
  have h6 := Core.polled_controls K inp (core s) cs hcs hs
  rw [← core_tick_status] at h6
  exact h6

/-- C5 at the tick after the start in which a controller state arrives whose
alert type is the one the scene shows and whose texts are new. -/
theorem same_alert_type_no_audio_witness :
    (tick_status upstream_consts
      (controls_input { chime_controls with alertType := "" })
      (run upstream_consts [device_input true]
        (init_state upstream_consts))).sm.controlsState.updated = true ∧
    (update_alert upstream_consts (tick_status upstream_consts
      (controls_input { chime_controls with alertType := "" })
      (run upstream_consts [device_input true] (init_state upstream_consts)))).sound =
      (tick_status upstream_consts
        (controls_input { chime_controls with alertType := "" })
        (run upstream_consts [device_input true] (init_state upstream_consts))).sound :=
  ⟨rfl,
    (same_alert_type_no_audio upstream_consts [device_input true]
      (controls_input { chime_controls with alertType := "" }) rfl rfl).2.1⟩

/-! ### The controls timeout -/

theorem run_append (K : Consts) (as bs : List TickInput) (s : UIState) :
    run K (as ++ bs) s = run K bs (run K as s) := by
  simp [run, List.foldl_append]

theorem quiet_idle_input : quiet idle_input :=
  ⟨rfl, fun _ h => Option.noConfusion h⟩

theorem quiet_replicate (n : Nat) : ∀ inp, inp ∈ List.replicate n idle_input → quiet inp := by
  intro inp h
  rw [List.eq_of_mem_replicate h]
  exact quiet_idle_input

/-- A run of quiet ticks from a started state, on `UIState`. -/
theorem quiet_run (K : Consts) (inputs : List TickInput) (s : UIState)
    (hq : ∀ inp, inp ∈ inputs → quiet inp)
    (hs : s.scene.started = true) (hp : s.started_prev = true)
    (hd : s.scene.deviceState.started = true)
    (hsf : s.scene.started_frame ≤ s.sm.frame)
    (hrcv : s.sm.controlsState.rcv_frame ≤ s.sm.frame)
    (hlt : s.sm.frame + inputs.length < UINT64_MOD) :
    (run K inputs s).scene.started = true ∧
    (run K inputs s).started_prev = true ∧
    (run K inputs s).scene.deviceState.started = true ∧
    (run K inputs s).sm.frame = s.sm.frame + inputs.length ∧
    (run K inputs s).scene.started_frame = s.scene.started_frame ∧
    (run K inputs s).sm.controlsState.rcv_frame = s.sm.controlsState.rcv_frame ∧
    (run K inputs s).status =
      (if 0 < inputs.length ∧ 10 * K.UI_FREQ < s.sm.frame + inputs.length - s.scene.started_frame ∧
          s.scene.started_frame ≤ s.sm.controlsState.rcv_frame ∧
          5 * K.UI_FREQ < s.sm.frame + inputs.length - s.sm.controlsState.rcv_frame
        then UIStatus.STATUS_ALERT else s.status) ∧
    (s.scene.started_frame ≤ s.sm.controlsState.rcv_frame →
      (run K inputs s).scene.alert_text2 =
        (if 0 < inputs.length ∧
            10 * K.UI_FREQ < s.sm.frame + inputs.length - s.scene.started_frame ∧
            5 * K.UI_FREQ < s.sm.frame + inputs.length - s.sm.controlsState.rcv_frame
          then "Controls Unresponsive" else s.scene.alert_text2)) := by
  have h := Core.quiet_run_core K inputs (core s) hq hs hp hd hsf hrcv hlt
  rw [← core_run] at h
  exact h

/-- C3 (amended). Let `s0` be the state at the end of the tick in which the
scene became started (started by the device, `started_frame` is the current
frame, status `STATUS_DISENGAGED`), and let no controlsState message arrive in
the ticks that follow while the device stays started.  After `n` such ticks
the frame is `started_frame + n`, and: if the last controlsState message was
received in the transition tick itself, the status is `STATUS_ALERT` exactly
when `n > 10 * UI_FREQ`, so it becomes `STATUS_ALERT` at the first tick with
`frame - started_frame > 10 * UI_FREQ`, not earlier and not later; if no
controlsState message was received at or after `started_frame`, the status
stays `STATUS_DISENGAGED`. -/
theorem controls_timeout_after_start (K : Consts) (s0 : UIState) (inputs : List TickInput)
    (hstart : s0.scene.started = true ∧ s0.started_prev = true ∧
      s0.scene.deviceState.started = true)
    (hframe : s0.scene.started_frame = s0.sm.frame)
    (hstatus : s0.status = UIStatus.STATUS_DISENGAGED)
    (hrcv : s0.sm.controlsState.rcv_frame ≤ s0.sm.frame)
    (hquiet : ∀ inp, inp ∈ inputs → quiet inp)
    (hbound : s0.sm.frame + inputs.length < UINT64_MOD) :
    (run K inputs s0).sm.frame = s0.scene.started_frame + inputs.length ∧
    (s0.sm.controlsState.rcv_frame = s0.scene.started_frame →
      ((run K inputs s0).status = UIStatus.STATUS_ALERT ↔ 10 * K.UI_FREQ < inputs.length)) ∧
    (s0.sm.controlsState.rcv_frame < s0.scene.started_frame →
      (run K inputs s0).status = UIStatus.STATUS_DISENGAGED) := by
  obtain ⟨hs, hp, hd⟩ := hstart
  obtain ⟨_, _, _, q4, _, _, q7, _⟩ :=
    quiet_run K inputs s0 hquiet hs hp hd (le_of_eq hframe) hrcv hbound
  refine ⟨by rw [q4, hframe], ?_, ?_⟩
  · intro he
    rw [q7, hstatus, he, hframe]
    constructor
    · intro h
      by_contra hn
      rw [if_neg (fun hc => hn (by omega))] at h
      exact UIStatus.noConfusion h
    · intro h
      rw [if_pos ⟨by omega, by omega, le_refl _, by omega⟩]
  · intro hl
    rw [q7, hstatus, if_neg (fun hc => by omega)]

theorem start_state_frame : start_state.sm.frame = 1 := rfl

theorem start_state_started_frame : start_state.scene.started_frame = 1 := rfl

theorem start_state_rcv_frame : start_state.sm.controlsState.rcv_frame = 1 := rfl

theorem start_state_status : start_state.status = UIStatus.STATUS_DISENGAGED := rfl

theorem start_state_bound (n : Nat) (h : n < 1000) :
    start_state.sm.frame + (List.replicate n idle_input).length < UINT64_MOD := by
  rw [start_state_frame, List.length_replicate]
  unfold UINT64_MOD
  omega

/-- C3 (amended) at the run in which the device starts while a controller
state arrives, and 201 ticks without any message follow. -/
theorem controls_timeout_after_start_witness :
    start_state.sm.controlsState.rcv_frame = start_state.scene.started_frame ∧
    ((run upstream_consts (List.replicate 201 idle_input) start_state).status =
        UIStatus.STATUS_ALERT ↔
      10 * upstream_consts.UI_FREQ < (List.replicate 201 idle_input).length) :=
  ⟨rfl,
    (controls_timeout_after_start upstream_consts start_state
      (List.replicate 201 idle_input) ⟨rfl, rfl, rfl⟩ rfl rfl
      (le_of_eq start_state_rcv_frame) (quiet_replicate 201)
      (start_state_bound 201 (by omega))).2.1 rfl⟩

/-- C3 as stated fails: the device starts at frame 1 while a controller state
arrives, and no message arrives afterwards; 101 ticks later
`frame - started_frame` is 101, more than `5 * UI_FREQ = 100`, and the status
is `STATUS_DISENGAGED`, not `STATUS_ALERT`. -/
theorem controls_timeout_after_start_counterexample :
    start_state =
      run upstream_consts [start_input "" AlertStatus.NORMAL] (init_state upstream_consts) ∧
    (run upstream_consts (List.replicate 101 idle_input) start_state).sm.frame -
      (run upstream_consts (List.replicate 101 idle_input) start_state).scene.started_frame
        = 101 ∧
    5 * upstream_consts.UI_FREQ < 101 ∧
    (run upstream_consts (List.replicate 101 idle_input) start_state).status =
      UIStatus.STATUS_DISENGAGED := by
  have h := quiet_run upstream_consts (List.replicate 101 idle_input) start_state
    (quiet_replicate 101) rfl rfl rfl (le_of_eq start_state_started_frame)
    (le_of_eq start_state_rcv_frame) (start_state_bound 101 (by omega))
  obtain ⟨_, _, _, q4, q5, _, q7, _⟩ := h
  rw [q4, q5, q7, start_state_frame, start_state_started_frame, start_state_rcv_frame,
    start_state_status, List.length_replicate]
  refine ⟨rfl, rfl, by decide, ?_⟩
  rw [if_neg]
  simp [upstream_consts]

/-! ### The sound of the controls timeout -/

/-- A tick whose controls-timeout block takes the lagging branch, on a `Core`:
controlsState did not update in it, the warning is played once when the second
alert line was not yet "Controls Unresponsive" and not at all when it was, and
the line is "Controls Unresponsive" afterwards. -/
theorem Core.lagging_tick (K : Consts) (inp : TickInput) (c : Core)
    (hlag : (Core.update_status (Core.polled K inp c)).lagging K = true) :
    (Core.tick K inp c).sound.count (SoundCall.play AudibleAlert.CHIME_WARNING_REPEAT) =
      (if c.alert_text2 = "Controls Unresponsive" then 0 else 1) ∧
    (Core.tick K inp c).alert_text2 = "Controls Unresponsive" := by
  have hupd : (Core.update_status (Core.polled K inp c)).sm.controlsState.updated = false := by
    cases hu : (Core.update_status (Core.polled K inp c)).sm.controlsState.updated with
    | false => rfl
    | true =>
      exfalso
      have hr : (Core.update_status (Core.polled K inp c)).sm.controlsState.rcv_frame =
          (Core.update_status (Core.polled K inp c)).sm.frame :=
        SubMaster.update_rcv_frame c.sm inp.poll hu
      unfold Core.lagging at hlag
      rw [hr, u64_sub_self] at hlag
      simp at hlag
  have a_text : (Core.update_status (Core.polled K inp c)).alert_text2 = c.alert_text2 := rfl
  have a_count : (Core.update_status (Core.polled K inp c)).sound.count
      (SoundCall.play AudibleAlert.CHIME_WARNING_REPEAT) = 0 := by
    have : (Core.polled K inp c).sound = [] := rfl
    simp only [Core.update_status, this]
    split <;> simp
  rw [Core.tick_polled]
  generalize Core.update_status (Core.polled K inp c) = a at *
  have w_lag : (Core.update_alert_controls a).lagging K = true := hlag
  have w_text : (Core.update_alert_controls a).alert_text2 = c.alert_text2 := by
    simp [Core.update_alert_controls, hupd, a_text]
  have w_sound : (Core.update_alert_controls a).sound = a.sound := by
    simp [Core.update_alert_controls, alert_sound_calls, hupd]
  constructor
  · show (Core.update_alert_timeout K (Core.update_alert_controls a)).sound.count _ = _
    simp only [Core.update_alert_timeout, w_lag, w_text, w_sound, true_and]
    by_cases ht : c.alert_text2 = "Controls Unresponsive"
    · simp [ht, a_count]
    · simp [ht, a_count]
  · show (Core.update_alert_timeout K (Core.update_alert_controls a)).alert_text2 = _
    simp [Core.update_alert_timeout, w_lag]

/-- C4 (amended). For every state and every tick in which `update_alert` takes
the controls-lagging branch: `play(CHIME_WARNING_REPEAT)` is called exactly
once in the tick when `scene.alert_text2` was not "Controls Unresponsive"
before the tick and not at all when it was; `scene.alert_text2` is "Controls
Unresponsive" after the tick; hence in a tick that follows it and takes the
branch again the sound is not played.  So within a maximal run of
controls-lagging ticks the sound is played on the first tick if and only if
the text shown before was not already "Controls Unresponsive", and on no later
tick. -/
theorem unresponsive_sound_once (K : Consts) (s : UIState) (inp : TickInput)
    (hlag : controls_lagging K (tick_status K inp s) = true) :
    (tick K inp s).sound.count (SoundCall.play AudibleAlert.CHIME_WARNING_REPEAT) =
      (if s.scene.alert_text2 = "Controls Unresponsive" then 0 else 1) ∧
    (tick K inp s).scene.alert_text2 = "Controls Unresponsive" ∧
    (∀ inp2, controls_lagging K (tick_status K inp2 (tick K inp s)) = true →
      (tick K inp2 (tick K inp s)).sound.count
        (SoundCall.play AudibleAlert.CHIME_WARNING_REPEAT) = 0) := by
  have key : ∀ (t : UIState) (i : TickInput),
      controls_lagging K (tick_status K i t) = true →
      (tick K i t).sound.count (SoundCall.play AudibleAlert.CHIME_WARNING_REPEAT) =
        (if t.scene.alert_text2 = "Controls Unresponsive" then 0 else 1) ∧
      (tick K i t).scene.alert_text2 = "Controls Unresponsive" := by
    intro t i hl
    have hl' : (core (tick_status K i t)).lagging K = true := hl
    rw [core_tick_status] at hl'
    have h := Core.lagging_tick K i (core t) hl'
    rw [← core_tick] at h
    exact h
  obtain ⟨h1, h2⟩ := key s inp hlag
  refine ⟨h1, h2, ?_⟩
  intro inp2 hl2
  rw [(key (tick K inp s) inp2 hl2).1, if_pos h2]

/-- The controls-lagging test of a quiet tick in a started state. -/
theorem Core.quiet_lagging (K : Consts) (inp : TickInput) (c : Core) (hq : quiet inp)
    (hs : c.started = true) (hp : c.started_prev = true) (hd : c.deviceState.started = true) :
    (Core.update_status (Core.polled K inp c)).lagging K =
      (decide (u64_sub (c.sm.frame + 1) c.started_frame > 10 * K.UI_FREQ) &&
        !decide (c.sm.controlsState.rcv_frame < c.started_frame) &&
        decide (u64_sub (c.sm.frame + 1) c.sm.controlsState.rcv_frame > 5 * K.UI_FREQ)) := by
  obtain ⟨hq1, hq2⟩ := hq
  have hds : (if (c.sm.update inp.poll).2.deviceState.updated = true then
      (c.sm.update inp.poll).2.deviceState.msg else c.deviceState).started = true := by
    simp only [SubMaster.update, Topic.receive]
    cases hdev : inp.poll.deviceState with
    | none => simpa using hd
    | some d => simpa using hq2 d hdev
  have hrcv : (c.sm.update inp.poll).2.controlsState.rcv_frame = c.sm.controlsState.rcv_frame := by
    simp [SubMaster.update, Topic.receive, hq1]
  have u_started : (Core.polled K inp c).started = true := by
    simp only [Core.polled, Core.update_sockets, Core.update_params]
    split
    · exact hs
    · rw [hds]; rfl
  have u_ds : (Core.polled K inp c).deviceState.started = true := by
    simp only [Core.polled, Core.update_sockets, Core.update_params]
    split
    · exact hd
    · exact hds
  have u_prev : (Core.polled K inp c).started_prev = true := hp
  have a_sf : (Core.update_status (Core.polled K inp c)).started_frame = c.started_frame := by
    simp [Core.update_status, u_started, u_prev]
    rfl
  have a_ds : (Core.update_status (Core.polled K inp c)).deviceState.started = true := u_ds
  have a_fr : (Core.update_status (Core.polled K inp c)).sm.frame = c.sm.frame + 1 := rfl
  have a_rcv : (Core.update_status (Core.polled K inp c)).sm.controlsState.rcv_frame =
      c.sm.controlsState.rcv_frame := hrcv
  unfold Core.lagging
  rw [a_sf, a_ds, a_fr, a_rcv]
  simp

/-- A quiet tick in a started state, on `UIState`: what it leaves, whether it
takes the controls-lagging branch, and the sound calls it makes. -/
theorem quiet_tick (K : Consts) (inp : TickInput) (s : UIState) (hq : quiet inp)
    (hs : s.scene.started = true) (hp : s.started_prev = true)
    (hd : s.scene.deviceState.started = true)
    (hge : s.scene.started_frame ≤ s.sm.controlsState.rcv_frame) :
    (tick K inp s).scene.started = true ∧
    (tick K inp s).started_prev = true ∧
    (tick K inp s).scene.deviceState.started = true ∧
    (tick K inp s).sm.frame = s.sm.frame + 1 ∧
    (tick K inp s).scene.started_frame = s.scene.started_frame ∧
    (tick K inp s).sm.controlsState.rcv_frame = s.sm.controlsState.rcv_frame ∧
    controls_lagging K (tick_status K inp s) =
      (decide (u64_sub (s.sm.frame + 1) s.scene.started_frame > 10 * K.UI_FREQ) &&
        decide (u64_sub (s.sm.frame + 1) s.sm.controlsState.rcv_frame > 5 * K.UI_FREQ)) ∧
    (tick K inp s).scene.alert_text2 =
      (if controls_lagging K (tick_status K inp s) = true then "Controls Unresponsive"
       else s.scene.alert_text2) ∧
    (tick K inp s).sound =
      (if controls_lagging K (tick_status K inp s) = true ∧
          s.scene.alert_text2 ≠ "Controls Unresponsive"
        then [SoundCall.play AudibleAlert.CHIME_WARNING_REPEAT] else []) := by
  have hnl : ¬ s.sm.controlsState.rcv_frame < s.scene.started_frame := Nat.not_lt.mpr hge
  obtain ⟨q1, q2, q3, q4, q5, q6, _, q8⟩ := Core.quiet_tick_core K inp (core s) hq hs hp hd
  obtain ⟨q8a, q8b⟩ := q8 hnl
  have hl : controls_lagging K (tick_status K inp s) =
      (decide (u64_sub (s.sm.frame + 1) s.scene.started_frame > 10 * K.UI_FREQ) &&
        decide (u64_sub (s.sm.frame + 1) s.sm.controlsState.rcv_frame > 5 * K.UI_FREQ)) := by
    have h := Core.quiet_lagging K inp (core s) hq hs hp hd
    rw [← core_tick_status] at h
    have e : controls_lagging K (tick_status K inp s) =
        (core (tick_status K inp s)).lagging K := rfl
    rw [e, h]
    have hdec : decide ((core s).sm.controlsState.rcv_frame < (core s).started_frame) = false := by
      simpa using hge
    rw [hdec]
    simp
    rfl
  rw [← core_tick] at q1 q2 q3 q4 q5 q6 q8a q8b
  refine ⟨q1, q2, q3, q4, q5, q6, hl, ?_, ?_⟩
  · rw [hl]; exact q8a
  · rw [hl]; exact q8b

/-- C4 (amended) at a tick 300 frames after the start, with the last controller
state received at the start. -/
theorem unresponsive_sound_once_witness :
    controls_lagging upstream_consts (tick_status upstream_consts idle_input stale_state)
      = true ∧
    (tick upstream_consts idle_input stale_state).sound.count
        (SoundCall.play AudibleAlert.CHIME_WARNING_REPEAT) =
      (if stale_state.scene.alert_text2 = "Controls Unresponsive" then 0 else 1) :=
  ⟨rfl, (unresponsive_sound_once upstream_consts stale_state idle_input rfl).1⟩

theorem lagging_start_state_fields :
    lagging_start_state.scene.started = true ∧
    lagging_start_state.started_prev = true ∧
    lagging_start_state.scene.deviceState.started = true ∧
    lagging_start_state.sm.frame = 2 ∧
    lagging_start_state.scene.started_frame = 1 ∧
    lagging_start_state.sm.controlsState.rcv_frame = 2 ∧
    lagging_start_state.scene.alert_text2 = "Controls Unresponsive" :=
  ⟨rfl, rfl, rfl, rfl, rfl, rfl, rfl⟩

/-- C4 as stated fails: the device starts at frame 1, at frame 2 the controller
state `unresponsive_controls` arrives (its second alert line is "Controls
Unresponsive"), and nothing arrives afterwards.  The tick at frame 201 does
not take the controls-lagging branch, the tick at frame 202 does, so it is the
first tick of a run of lagging ticks, and it makes no sound call at all. -/
theorem unresponsive_sound_once_counterexample :
    lagging_start_state =
      run upstream_consts [device_input true, controls_input unresponsive_controls]
        (init_state upstream_consts) ∧
    controls_lagging upstream_consts (tick_status upstream_consts idle_input
      (run upstream_consts (List.replicate 198 idle_input) lagging_start_state)) = false ∧
    controls_lagging upstream_consts (tick_status upstream_consts idle_input
      (tick upstream_consts idle_input
        (run upstream_consts (List.replicate 198 idle_input) lagging_start_state))) = true ∧
    (tick upstream_consts idle_input
      (tick upstream_consts idle_input
        (run upstream_consts (List.replicate 198 idle_input) lagging_start_state))).sound
      = [] := by
  obtain ⟨f1, f2, f3, f4, f5, f6, f7⟩ := lagging_start_state_fields
  have hb : lagging_start_state.sm.frame + (List.replicate 198 idle_input).length
      < UINT64_MOD := by
    rw [f4, List.length_replicate]
    unfold UINT64_MOD
    omega
  obtain ⟨r1, r2, r3, r4, r5, r6, _, r8⟩ :=
    quiet_run upstream_consts (List.replicate 198 idle_input) lagging_start_state
      (quiet_replicate 198) f1 f2 f3 (by rw [f4, f5]; omega) (by rw [f4, f6]) hb
  have r8' := r8 (by rw [f5, f6]; omega)
  rw [f4, f5, f6, f7, List.length_replicate] at r8'
  rw [f4, List.length_replicate] at r4
  rw [f5] at r5
  rw [f6] at r6
  have ht200 : (run upstream_consts (List.replicate 198 idle_input)
      lagging_start_state).scene.alert_text2 = "Controls Unresponsive" := by
    rw [r8']
    split <;> rfl
  generalize run upstream_consts (List.replicate 198 idle_input) lagging_start_state = s200 at *
  obtain ⟨t1, t2, t3, t4, t5, t6, t7, t8, _⟩ :=
    quiet_tick upstream_consts idle_input s200 quiet_idle_input r1 r2 r3 (by rw [r5, r6]; omega)
  rw [r4, r5, r6] at t7
  rw [r4] at t4
  rw [r5] at t5
  rw [r6] at t6
  have hl201 : controls_lagging upstream_consts
      (tick_status upstream_consts idle_input s200) = false := by
    rw [t7]
    have e : u64_sub (2 + 198 + 1) 1 = 200 := by unfold u64_sub UINT64_MOD; omega
    rw [e]
    rfl
  have ht201 : (tick upstream_consts idle_input s200).scene.alert_text2 =
      "Controls Unresponsive" := by
    rw [t8, hl201, ht200]
    rfl
  generalize tick upstream_consts idle_input s200 = s201 at *
  obtain ⟨_, _, _, _, _, _, u7, _, u9⟩ :=
    quiet_tick upstream_consts idle_input s201 quiet_idle_input t1 t2 t3 (by rw [t5, t6]; omega)
  rw [t4, t5, t6] at u7
  have hl202 : controls_lagging upstream_consts
      (tick_status upstream_consts idle_input s201) = true := by
    rw [u7]
    have e1 : u64_sub (2 + 198 + 1 + 1) 1 = 201 := by unfold u64_sub UINT64_MOD; omega
    have e2 : u64_sub (2 + 198 + 1 + 1) 2 = 200 := by unfold u64_sub UINT64_MOD; omega
    rw [e1, e2]
    rfl
  refine ⟨rfl, hl201, hl202, ?_⟩
  rw [u9, ht201]
  simp

/-! ### Projection -/

/-- The visibility `calib_frame_to_full_frame` returns: never for a zero
divisor, otherwise the margin test on the vertex it writes. -/
theorem calib_frame_to_full_frame_visible (K : Consts) (s : UIState) (x y z : ℚ) :
    ((calib_KEp K s x y z).v2 = 0 → (calib_frame_to_full_frame K s x y z).2 = false) ∧
    ((calib_KEp K s x y z).v2 ≠ 0 →
      (calib_frame_to_full_frame K s x y z).1 =
        nvgTransformPoint s.car_space_transform
          ((calib_KEp K s x y z).v0 / (calib_KEp K s x y z).v2)
          ((calib_KEp K s x y z).v1 / (calib_KEp K s x y z).v2) ∧
      ((calib_frame_to_full_frame K s x y z).2 = true ↔
        within_margin s (calib_frame_to_full_frame K s x y z).1)) := by
  constructor
  · intro h
    unfold calib_KEp at h
    simp only [calib_frame_to_full_frame, h, if_true]
  · intro h
    unfold calib_KEp at h ⊢
    simp only [calib_frame_to_full_frame, h, if_false, within_margin, decide_eq_true_eq,
      true_and]

/-- C13 (amended). `calib_frame_to_full_frame` returns false when the depth
`KEp.z`, the divisor of the perspective divide, is zero.  It does not test the
sign of the depth: for a negative depth it returns true exactly when the
vertex it writes, the viewport image of `(KEp.x / KEp.z, KEp.y / KEp.z)`, lies
inside the framebuffer widened by the margin. -/
theorem calib_frame_to_full_frame_behind (K : Consts) (s : UIState) (x y z : ℚ) :
    ((calib_KEp K s x y z).v2 = 0 → (calib_frame_to_full_frame K s x y z).2 = false) ∧
    ((calib_KEp K s x y z).v2 < 0 →
      (calib_frame_to_full_frame K s x y z).1 =
        nvgTransformPoint s.car_space_transform
          ((calib_KEp K s x y z).v0 / (calib_KEp K s x y z).v2)
          ((calib_KEp K s x y z).v1 / (calib_KEp K s x y z).v2) ∧
      ((calib_frame_to_full_frame K s x y z).2 = true ↔
        within_margin s (calib_frame_to_full_frame K s x y z).1)) :=
  ⟨(calib_frame_to_full_frame_visible K s x y z).1,
    fun h => (calib_frame_to_full_frame_visible K s x y z).2 (ne_of_lt h)⟩

/-- C13 (amended) at the point ten units behind the camera of
`sample_view_state`. -/
theorem calib_frame_to_full_frame_behind_witness :
    (calib_KEp upstream_consts sample_view_state (-10) 0 0).v2 < 0 ∧
    ((calib_frame_to_full_frame upstream_consts sample_view_state (-10) 0 0).2 = true ↔
      within_margin sample_view_state
        (calib_frame_to_full_frame upstream_consts sample_view_state (-10) 0 0).1) :=
  ⟨by norm_num [calib_KEp, matvecmul3, sample_view_state, axis_permutation, init_state,
      ui_init, upstream_consts],
    ((calib_frame_to_full_frame_behind upstream_consts sample_view_state (-10) 0 0).2
      (by norm_num [calib_KEp, matvecmul3, sample_view_state, axis_permutation, init_state,
        ui_init, upstream_consts])).2⟩

/-- C13 as stated fails: in `sample_view_state` the point `(-10, 0, 0)`, ten
units behind the camera, has depth `KEp.z = -10`, and
`calib_frame_to_full_frame` writes the vertex `(582, 437)` and returns true. -/
theorem calib_frame_to_full_frame_behind_counterexample :
    (calib_KEp upstream_consts sample_view_state (-10) 0 0).v2 = -10 ∧
    (calib_KEp upstream_consts sample_view_state (-10) 0 0).v2 ≤ 0 ∧
    (calib_frame_to_full_frame upstream_consts sample_view_state (-10) 0 0).1 =
      { x := 582, y := 437 } ∧
    (calib_frame_to_full_frame upstream_consts sample_view_state (-10) 0 0).2 = true := by
  norm_num [calib_KEp, calib_frame_to_full_frame, matvecmul3, nvgTransformPoint,
    sample_view_state, axis_permutation, init_state, ui_init, upstream_consts]

/-- C14 (amended). For a point that the calibration rotation sends to
`(0, 0, d)` with `d > 0`, and an intrinsic matrix of the pinhole form
`[[f, 0, cx], [0, f, cy], [0, 0, 1]]`, `calib_frame_to_full_frame` writes the
image of the principal point `(cx, cy)` under the viewport transform
`car_space_transform`: the same vertex for every such point, whatever its depth
is.  That vertex is the centre of the framebuffer exactly when the viewport
transform sends the principal point there, which nothing in
`calib_frame_to_full_frame` provides for. -/
theorem calib_frame_to_full_frame_on_axis (K : Consts) (s : UIState)
    (x y z d x' y' z' d' f cx cy : ℚ)
    (hE : matvecmul3 s.scene.view_from_calib { v0 := x, v1 := y, v2 := z } =
      { v0 := 0, v1 := 0, v2 := d })
    (hd : 0 < d)
    (hE' : matvecmul3 s.scene.view_from_calib { v0 := x', v1 := y', v2 := z' } =
      { v0 := 0, v1 := 0, v2 := d' })
    (hd' : 0 < d')
    (hK : (if s.wide_camera then K.ecam_intrinsic_matrix else K.fcam_intrinsic_matrix) =
      { v0 := f, v1 := 0, v2 := cx, v3 := 0, v4 := f, v5 := cy, v6 := 0, v7 := 0, v8 := 1 }) :
    (calib_frame_to_full_frame K s x y z).1 = nvgTransformPoint s.car_space_transform cx cy ∧
    (calib_frame_to_full_frame K s x' y' z').1 = (calib_frame_to_full_frame K s x y z).1 ∧
    ((calib_frame_to_full_frame K s x y z).1 = viewport_centre s ↔
      nvgTransformPoint s.car_space_transform cx cy = viewport_centre s) := by
  have key : ∀ (a b c e : ℚ),
      matvecmul3 s.scene.view_from_calib { v0 := a, v1 := b, v2 := c } =
        { v0 := 0, v1 := 0, v2 := e } → 0 < e →
      (calib_frame_to_full_frame K s a b c).1 =
        nvgTransformPoint s.car_space_transform cx cy := by
    intro a b c e hEe he
    have hne : e ≠ 0 := ne_of_gt he
    have hKEp : calib_KEp K s a b c = { v0 := cx * e, v1 := cy * e, v2 := e } := by
      unfold calib_KEp
      rw [hEe, hK]
      simp [matvecmul3]
    have hv2 : (calib_KEp K s a b c).v2 ≠ 0 := by rw [hKEp]; exact hne
    rw [((calib_frame_to_full_frame_visible K s a b c).2 hv2).1, hKEp]
    show nvgTransformPoint s.car_space_transform (cx * e / e) (cy * e / e) = _
    rw [mul_div_assoc, div_self hne, mul_one, mul_div_assoc, div_self hne, mul_one]
  have h1 := key x y z d hE hd
  have h2 := key x' y' z' d' hE' hd'
  exact ⟨h1, by rw [h2, h1], by rw [h1]⟩

/-- C14 (amended) at the points ten and twenty units ahead of the camera of
`sample_view_state`: both are written as the image of the principal point
`(582, 437)`. -/
theorem calib_frame_to_full_frame_on_axis_witness :
    (calib_frame_to_full_frame upstream_consts sample_view_state 10 0 0).1 =
      nvgTransformPoint sample_view_state.car_space_transform 582 437 ∧
    (calib_frame_to_full_frame upstream_consts sample_view_state 20 0 0).1 =
      (calib_frame_to_full_frame upstream_consts sample_view_state 10 0 0).1 :=
  have h := calib_frame_to_full_frame_on_axis upstream_consts sample_view_state
    10 0 0 10 20 0 0 20 910 582 437
    (by norm_num [matvecmul3, sample_view_state, axis_permutation])
    (by norm_num)
    (by norm_num [matvecmul3, sample_view_state, axis_permutation])
    (by norm_num)
    (by simp [sample_view_state, init_state, ui_init, upstream_consts])
  ⟨h.1, h.2.1⟩

/-- C14 as stated fails: in `sample_view_state` (identity viewport transform,
framebuffer 2160 by 1080, narrow camera with principal point `(582, 437)`) the
point ten units ahead is sent to `(0, 0, 10)` by the calibration rotation, on
the optical axis, and `calib_frame_to_full_frame` writes `(582, 437)`, while
the centre of the framebuffer is `(1080, 540)`. -/
theorem calib_frame_to_full_frame_on_axis_counterexample :
    matvecmul3 sample_view_state.scene.view_from_calib { v0 := 10, v1 := 0, v2 := 0 } =
      { v0 := 0, v1 := 0, v2 := 10 } ∧
    (if sample_view_state.wide_camera then upstream_consts.ecam_intrinsic_matrix
      else upstream_consts.fcam_intrinsic_matrix) =
      { v0 := 910, v1 := 0, v2 := 582, v3 := 0, v4 := 910, v5 := 437,
        v6 := 0, v7 := 0, v8 := 1 } ∧
    (calib_frame_to_full_frame upstream_consts sample_view_state 10 0 0).1 =
      { x := 582, y := 437 } ∧
    viewport_centre sample_view_state = { x := 1080, y := 540 } ∧
    (calib_frame_to_full_frame upstream_consts sample_view_state 10 0 0).1 ≠
      viewport_centre sample_view_state := by
  have h1 : (calib_frame_to_full_frame upstream_consts sample_view_state 10 0 0).1 =
      { x := 582, y := 437 } := by
    norm_num [calib_frame_to_full_frame, matvecmul3, nvgTransformPoint, sample_view_state,
      axis_permutation, init_state, ui_init, upstream_consts]
  have h2 : viewport_centre sample_view_state = { x := 1080, y := 540 } := by
    norm_num [viewport_centre, sample_view_state]
  refine ⟨by norm_num [matvecmul3, sample_view_state, axis_permutation],
    by simp [sample_view_state, init_state, ui_init, upstream_consts], h1, h2, ?_⟩
  rw [h1, h2]
  intro h
  have hx := congrArg vertex_data.x h
  norm_num at hx

/-! ### Calibration -/

/-- C12. When the liveCalibration topic updated with roll = pitch = yaw = 0
and `euler2rot` returns the identity rotation at zero angles, the calibration
handler of `update_sockets` writes the axis permutation
`[[0, 1, 0], [0, 0, 1], [1, 0, 0]]` to `scene.view_from_calib` and sets
`world_objects_visible`. -/
theorem zero_calibration (K : Consts) (s : UIState)
    (hK : euler2rot_zero_is_identity K)
    (hupd : s.sm.liveCalibration.updated = true)
    (hrpy : s.sm.liveCalibration.msg.rpyCalib = [0, 0, 0]) :
    (update_sockets_liveCalibration K s).scene.view_from_calib = axis_permutation ∧
    (update_sockets_liveCalibration K s).scene.world_objects_visible = true := by
  unfold euler2rot_zero_is_identity at hK
  simp only [update_sockets_liveCalibration, hupd, if_true, hrpy, List.getD_cons_zero,
    List.getD_cons_succ, hK, and_true]
  simp [matmul3, identity_rotation, axis_permutation]

/-- C12 at the start-up state after a zero calibration arrived, with the
identity as the rotation at zero angles. -/
theorem zero_calibration_witness :
    euler2rot_zero_is_identity upstream_consts ∧
    zero_calibration_state.sm.liveCalibration.msg.rpyCalib = [0, 0, 0] ∧
    (update_sockets_liveCalibration upstream_consts zero_calibration_state).scene.view_from_calib
      = axis_permutation ∧
    (update_sockets_liveCalibration upstream_consts
      zero_calibration_state).scene.world_objects_visible = true :=
  ⟨rfl, rfl, zero_calibration upstream_consts zero_calibration_state rfl rfl rfl⟩

/-! ### The waiting-for-controls alert -/

/-- The tick whose controls-timeout block takes the waiting-for-controls
branch, on a `Core`: controlsState cannot have updated in it, no sound call is
made by `update_alert`, the status stays, and the three alert fields are
written exactly when `is_OpenpilotViewEnabled` is off. -/
theorem Core.waiting_tick (K : Consts) (inp : TickInput) (c : Core)
    (hsf : c.started_frame ≤ c.sm.frame)
    (hd : (Core.update_status (Core.polled K inp c)).deviceState.started = true)
    (h10 : u64_sub (Core.update_status (Core.polled K inp c)).sm.frame
      (Core.update_status (Core.polled K inp c)).started_frame > 10 * K.UI_FREQ)
    (hrcv : (Core.update_status (Core.polled K inp c)).sm.controlsState.rcv_frame <
      (Core.update_status (Core.polled K inp c)).started_frame) :
    (Core.update_alert_timeout K (Core.update_alert_controls
      (Core.update_status (Core.polled K inp c)))).sound =
      (Core.update_status (Core.polled K inp c)).sound ∧
    (Core.update_alert_timeout K (Core.update_alert_controls
      (Core.update_status (Core.polled K inp c)))).status =
      (Core.update_status (Core.polled K inp c)).status ∧
    ((Core.update_status (Core.polled K inp c)).is_OpenpilotViewEnabled = false →
      (Core.update_alert_timeout K (Core.update_alert_controls
        (Core.update_status (Core.polled K inp c)))).alert_text1 = "openpilot Unavailable" ∧
      (Core.update_alert_timeout K (Core.update_alert_controls
        (Core.update_status (Core.polled K inp c)))).alert_text2 =
        "Waiting for controls to start" ∧
      (Core.update_alert_timeout K (Core.update_alert_controls
        (Core.update_status (Core.polled K inp c)))).alert_size = AlertSize.MID) ∧
    ((Core.update_status (Core.polled K inp c)).is_OpenpilotViewEnabled = true →
      (Core.update_alert_timeout K (Core.update_alert_controls
        (Core.update_status (Core.polled K inp c)))).alert_text1 =
        (Core.update_status (Core.polled K inp c)).alert_text1 ∧
      (Core.update_alert_timeout K (Core.update_alert_controls
        (Core.update_status (Core.polled K inp c)))).alert_text2 =
        (Core.update_status (Core.polled K inp c)).alert_text2 ∧
      (Core.update_alert_timeout K (Core.update_alert_controls
        (Core.update_status (Core.polled K inp c)))).alert_size =
        (Core.update_status (Core.polled K inp c)).alert_size) := by
  have hfr : (Core.update_status (Core.polled K inp c)).sm.frame = c.sm.frame + 1 := rfl
  have hsf' : (Core.update_status (Core.polled K inp c)).started_frame ≤ c.sm.frame + 1 := by
    simp only [Core.update_status]
    split
    · exact le_refl _
    · exact Nat.le_succ_of_le hsf
  have hupd : (Core.update_status (Core.polled K inp c)).sm.controlsState.updated = false := by
    cases hu : (Core.update_status (Core.polled K inp c)).sm.controlsState.updated with
    | false => rfl
    | true =>
      exfalso
      have hr : (Core.update_status (Core.polled K inp c)).sm.controlsState.rcv_frame =
          (Core.update_status (Core.polled K inp c)).sm.frame :=
        SubMaster.update_rcv_frame c.sm inp.poll hu
      rw [hr, hfr] at hrcv
      omega
  generalize Core.update_status (Core.polled K inp c) = a at *
  have w_sound : (Core.update_alert_controls a).sound = a.sound := by
    simp [Core.update_alert_controls, alert_sound_calls, hupd]
  have w_t1 : (Core.update_alert_controls a).alert_text1 = a.alert_text1 := by
    simp [Core.update_alert_controls, hupd]
  have w_t2 : (Core.update_alert_controls a).alert_text2 = a.alert_text2 := by
    simp [Core.update_alert_controls, hupd]
  have w_sz : (Core.update_alert_controls a).alert_size = a.alert_size := by
    simp [Core.update_alert_controls, hupd]
  have w_lag : (Core.update_alert_controls a).lagging K = false := by
    unfold Core.lagging
    show (_ && _ && !decide (a.sm.controlsState.rcv_frame < a.started_frame) && _) = false
    simp [hrcv]
  have w_wait : (Core.update_alert_controls a).waiting K = !a.is_OpenpilotViewEnabled := by
    unfold Core.waiting
    show (a.deviceState.started &&
      decide (u64_sub a.sm.frame a.started_frame > 10 * K.UI_FREQ) &&
      decide (a.sm.controlsState.rcv_frame < a.started_frame) &&
      !a.is_OpenpilotViewEnabled) = _
    rw [hd]
    simp [hrcv, h10]
  refine ⟨?_, ?_, ?_, ?_⟩
  · simp only [Core.update_alert_timeout, w_lag, w_sound]
    simp
  · simp [Core.update_alert_timeout, w_lag]
    rfl
  · intro hov
    simp only [Core.update_alert_timeout, w_lag, w_wait, hov]
    simp
  · intro hov
    simp only [Core.update_alert_timeout, w_lag, w_wait, hov, w_t1, w_t2, w_sz]
    simp

/-- C17. In a run from start-up, for every tick in which, when `update_alert`
is entered, the device is started, `frame - started_frame > 10 * UI_FREQ` and
the receive frame of controlsState is before `started_frame`: `update_alert`
makes no call on the audio device and leaves the status as it is; when
`is_OpenpilotViewEnabled` is off it sets `alert_text1` to "openpilot
Unavailable", `alert_text2` to "Waiting for controls to start" and
`alert_size` to MID, and when the flag is on it leaves the three alert fields
unchanged. -/
theorem waiting_for_controls (K : Consts) (inputs : List TickInput) (inp : TickInput)
    (hd : (tick_status K inp (run K inputs (init_state K))).scene.deviceState.started = true)
    (h10 : u64_sub (tick_status K inp (run K inputs (init_state K))).sm.frame
      (tick_status K inp (run K inputs (init_state K))).scene.started_frame > 10 * K.UI_FREQ)
    (hrcv : (tick_status K inp (run K inputs (init_state K))).sm.controlsState.rcv_frame <
      (tick_status K inp (run K inputs (init_state K))).scene.started_frame) :
    (update_alert K (tick_status K inp (run K inputs (init_state K)))).sound =
      (tick_status K inp (run K inputs (init_state K))).sound ∧
    (update_alert K (tick_status K inp (run K inputs (init_state K)))).status =
      (tick_status K inp (run K inputs (init_state K))).status ∧
    ((tick_status K inp (run K inputs (init_state K))).is_OpenpilotViewEnabled = false →
      (update_alert K (tick_status K inp (run K inputs (init_state K)))).scene.alert_text1 =
        "openpilot Unavailable" ∧
      (update_alert K (tick_status K inp (run K inputs (init_state K)))).scene.alert_text2 =
        "Waiting for controls to start" ∧
      (update_alert K (tick_status K inp (run K inputs (init_state K)))).scene.alert_size =
        AlertSize.MID) ∧
    ((tick_status K inp (run K inputs (init_state K))).is_OpenpilotViewEnabled = true →
      (update_alert K (tick_status K inp (run K inputs (init_state K)))).scene.alert_text1 =
        (tick_status K inp (run K inputs (init_state K))).scene.alert_text1 ∧
      (update_alert K (tick_status K inp (run K inputs (init_state K)))).scene.alert_text2 =
        (tick_status K inp (run K inputs (init_state K))).scene.alert_text2 ∧
      (update_alert K (tick_status K inp (run K inputs (init_state K)))).scene.alert_size =
        (tick_status K inp (run K inputs (init_state K))).scene.alert_size) := by
  have hsf := run_started_frame_le K inputs
  generalize run K inputs (init_state K) = s at *
  have hd' : (core (tick_status K inp s)).deviceState.started = true := hd
  have h10' : u64_sub (core (tick_status K inp s)).sm.frame
      (core (tick_status K inp s)).started_frame > 10 * K.UI_FREQ := h10
  have hrcv' : (core (tick_status K inp s)).sm.controlsState.rcv_frame <
      (core (tick_status K inp s)).started_frame := hrcv
  rw [core_tick_status] at hd' h10' hrcv'
  have h := Core.waiting_tick K inp (core s) hsf hd' h10' hrcv'
  rw [← core_tick_status, ← core_update_alert] at h
  exact h

/-- What `update_alert` and `update_vision` leave alone: the fields the
controls-timeout block reads are, at the end of the tick, what they were when
`update_alert` was entered. -/
theorem tick_status_fields (K : Consts) (inp : TickInput) (s : UIState) :
    (tick_status K inp s).scene.deviceState.started = (tick K inp s).scene.deviceState.started ∧
    (tick_status K inp s).sm.frame = (tick K inp s).sm.frame ∧
    (tick_status K inp s).scene.started_frame = (tick K inp s).scene.started_frame ∧
    (tick_status K inp s).sm.controlsState.rcv_frame =
      (tick K inp s).sm.controlsState.rcv_frame := by
  have h : core (tick K inp s) =
      Core.update_vision inp.connect_ok (Core.update_alert_timeout K
        (Core.update_alert_controls (core (tick_status K inp s)))) := by
    rw [core_tick, core_tick_status]
    rfl
  have h1 : (core (tick K inp s)).deviceState.started =
      (core (tick_status K inp s)).deviceState.started := by rw [h]; rfl
  have h2 : (core (tick K inp s)).sm = (core (tick_status K inp s)).sm := by rw [h]; rfl
  have h3 : (core (tick K inp s)).started_frame =
      (core (tick_status K inp s)).started_frame := by rw [h]; rfl
  exact ⟨h1.symm, congrArg SubMaster.frame h2.symm, h3.symm,
    congrArg (fun m => m.controlsState.rcv_frame) h2.symm⟩

theorem device_start_state_fields :
    device_start_state.scene.started = true ∧
    device_start_state.started_prev = true ∧
    device_start_state.scene.deviceState.started = true ∧
    device_start_state.sm.frame = 1 ∧
    device_start_state.scene.started_frame = 1 ∧
    device_start_state.sm.controlsState.rcv_frame = 0 ∧
    device_start_state.is_OpenpilotViewEnabled = false :=
  ⟨rfl, rfl, rfl, rfl, rfl, rfl, rfl⟩

/-- The tick at frame 202 of the run in which the device starts at frame 1 and
nothing else ever arrives: when `update_alert` is entered the device is
started, 201 frames have passed since the start and controlsState was last
received (never) before the start. -/
theorem device_start_waiting :
    (tick_status upstream_consts idle_input
      (run upstream_consts (device_input true :: List.replicate 200 idle_input)
        (init_state upstream_consts))).scene.deviceState.started = true ∧
    u64_sub (tick_status upstream_consts idle_input
      (run upstream_consts (device_input true :: List.replicate 200 idle_input)
        (init_state upstream_consts))).sm.frame
      (tick_status upstream_consts idle_input
        (run upstream_consts (device_input true :: List.replicate 200 idle_input)
          (init_state upstream_consts))).scene.started_frame > 10 * upstream_consts.UI_FREQ ∧
    (tick_status upstream_consts idle_input
      (run upstream_consts (device_input true :: List.replicate 200 idle_input)
        (init_state upstream_consts))).sm.controlsState.rcv_frame <
      (tick_status upstream_consts idle_input
        (run upstream_consts (device_input true :: List.replicate 200 idle_input)
          (init_state upstream_consts))).scene.started_frame := by
  have e : run upstream_consts (device_input true :: List.replicate 200 idle_input)
      (init_state upstream_consts) =
      run upstream_consts (List.replicate 200 idle_input) device_start_state := by
    unfold device_start_state run
    exact List.foldl_cons _ _
  have e2 : tick upstream_consts idle_input
      (run upstream_consts (List.replicate 200 idle_input) device_start_state) =
      run upstream_consts (List.replicate 201 idle_input) device_start_state := by
    have : List.replicate 201 idle_input = List.replicate 200 idle_input ++ [idle_input] :=
      List.replicate_succ' 200 idle_input
    rw [this, run_append]
    generalize run upstream_consts (List.replicate 200 idle_input) device_start_state = a
    unfold run
    rw [List.foldl_cons, List.foldl_nil]
  obtain ⟨f1, f2, f3, f4, f5, f6, _⟩ := device_start_state_fields
  have hb : device_start_state.sm.frame + (List.replicate 201 idle_input).length
      < UINT64_MOD := by
    rw [f4, List.length_replicate]
    unfold UINT64_MOD
    omega
  obtain ⟨_, _, q3, q4, q5, q6, _, _⟩ :=
    quiet_run upstream_consts (List.replicate 201 idle_input) device_start_state
      (quiet_replicate 201) f1 f2 f3 (by rw [f4, f5]) (by rw [f4, f6]; omega) hb
  obtain ⟨t1, t2, t3, t4⟩ := tick_status_fields upstream_consts idle_input
    (run upstream_consts (List.replicate 200 idle_input) device_start_state)
  rw [e, t1, t2, t3, t4, e2, q3, q4, q5, q6, f4, f5, f6, List.length_replicate]
  refine ⟨rfl, ?_, by omega⟩
  rw [u64_sub_of_le _ _ (by omega) (by unfold UINT64_MOD; omega)]
  simp [upstream_consts]

/-- C17 at the tick at frame 202 of the run in which the device starts at frame
1 and no controller state ever arrives. -/
theorem waiting_for_controls_witness :
    (tick_status upstream_consts idle_input
      (run upstream_consts (device_input true :: List.replicate 200 idle_input)
        (init_state upstream_consts))).scene.deviceState.started = true ∧
    (update_alert upstream_consts (tick_status upstream_consts idle_input
      (run upstream_consts (device_input true :: List.replicate 200 idle_input)
        (init_state upstream_consts)))).sound =
      (tick_status upstream_consts idle_input
        (run upstream_consts (device_input true :: List.replicate 200 idle_input)
          (init_state upstream_consts))).sound :=
  ⟨device_start_waiting.1,
    (waiting_for_controls upstream_consts (device_input true :: List.replicate 200 idle_input)
      idle_input device_start_waiting.1 device_start_waiting.2.1 device_start_waiting.2.2).1⟩

/-! ### Array bounds -/

theorem getElem?_eq_some_getD (l : List ℚ) (i : Nat) (h : i < l.length) :
    l[i]? = some (l.getD i 0) := by
  rw [List.getD_eq_getElem?_getD, List.getElem?_eq_getElem h]
  rfl

theorem get_path_length_idx_loop_checked_eq (line_x : List ℚ) (T : ℚ) :
    ∀ (rem i m : Nat), i + rem ≤ line_x.length →
      get_path_length_idx_loop_checked line_x T rem i m =
        some (get_path_length_idx_loop line_x T rem i m) := by
  intro rem
  induction rem with
  | zero => intro i m _; rfl
  | succ k ih =>
    intro i m h
    have hi : i < line_x.length := by omega
    simp only [get_path_length_idx_loop_checked, get_path_length_idx_loop,
      getElem?_eq_some_getD line_x i hi]
    split
    · exact ih (i + 1) i (by omega)
    · rfl

theorem update_line_data_store_checked_eq (K : Consts) (s : UIState) (c : LineCursor)
    (x y z : ℚ) (hp : c.p < c.v.length) :
    update_line_data_store_checked K s c x y z = some (update_line_data_store K s c x y z) ∧
    (update_line_data_store K s c x y z).p ≤ c.p + 1 ∧
    (update_line_data_store K s c x y z).v.length = c.v.length ∧
    (update_line_data_store K s c x y z).in_bounds = c.in_bounds := by
  refine ⟨?_, ?_, ?_, ?_⟩
  · simp [update_line_data_store_checked, hp]
  · simp only [update_line_data_store]
    split <;> omega
  · simp [update_line_data_store]
  · simp [update_line_data_store, hp]

theorem update_line_data_up_checked_eq (K : Consts) (s : UIState) (line : XYZTData)
    (y_off z_off : ℚ) :
    ∀ (rem i : Nat) (c : LineCursor),
      i + rem ≤ line.x.length → i + rem ≤ line.y.length → i + rem ≤ line.z.length →
      c.p + rem ≤ c.v.length →
      update_line_data_up_checked K s line y_off z_off rem i c =
        some (update_line_data_up K s line y_off z_off rem i c) ∧
      (update_line_data_up K s line y_off z_off rem i c).p ≤ c.p + rem ∧
      (update_line_data_up K s line y_off z_off rem i c).v.length = c.v.length ∧
      (update_line_data_up K s line y_off z_off rem i c).in_bounds = c.in_bounds := by
  intro rem
  induction rem with
  | zero => intro i c _ _ _ _; exact ⟨rfl, le_refl _, rfl, rfl⟩
  | succ k ih =>
    intro i c hx hy hz hc
    obtain ⟨e1, e2, e3, e4⟩ := update_line_data_store_checked_eq K s c (line.x.getD i 0)
      (line.y.getD i 0 - y_off) (line.z.getD i 0 + z_off) (by omega)
    obtain ⟨h1, h2, h3, h4⟩ := ih (i + 1)
      (update_line_data_store K s c (line.x.getD i 0) (line.y.getD i 0 - y_off)
        (line.z.getD i 0 + z_off)) (by omega) (by omega) (by omega) (by rw [e3]; omega)
    simp only [update_line_data_up_checked, update_line_data_up,
      getElem?_eq_some_getD line.x i (by omega), getElem?_eq_some_getD line.y i (by omega),
      getElem?_eq_some_getD line.z i (by omega), e1]
    exact ⟨h1, by omega, by rw [h3, e3], by rw [h4, e4]⟩

theorem update_line_data_down_checked_eq (K : Consts) (s : UIState) (line : XYZTData)
    (y_off z_off : ℚ) :
    ∀ (k : Nat) (c : LineCursor),
      k ≤ line.x.length → k ≤ line.y.length → k ≤ line.z.length →
      c.p + k ≤ c.v.length →
      update_line_data_down_checked K s line y_off z_off k c =
        some (update_line_data_down K s line y_off z_off k c) ∧
      (update_line_data_down K s line y_off z_off k c).in_bounds = c.in_bounds := by
  intro k
  induction k with
  | zero => intro c _ _ _ _; exact ⟨rfl, rfl⟩
  | succ k ih =>
    intro c hx hy hz hc
    obtain ⟨e1, e2, e3, e4⟩ := update_line_data_store_checked_eq K s c (line.x.getD k 0)
      (line.y.getD k 0 + y_off) (line.z.getD k 0 + z_off) (by omega)
    obtain ⟨h1, h4⟩ := ih
      (update_line_data_store K s c (line.x.getD k 0) (line.y.getD k 0 + y_off)
        (line.z.getD k 0 + z_off)) (by omega) (by omega) (by omega) (by rw [e3]; omega)
    simp only [update_line_data_down_checked, update_line_data_down,
      getElem?_eq_some_getD line.x k (by omega), getElem?_eq_some_getD line.y k (by omega),
      getElem?_eq_some_getD line.z k (by omega), e1]
    exact ⟨h1, by rw [h4, e4]⟩

/-- C20. With `TRAJECTORY_SIZE` positive, for a line whose `x`, `y` and `z`
lists have `TRAJECTORY_SIZE` entries, any threshold (the samples need not be
ordered), any `max_idx < TRAJECTORY_SIZE` and an array `pvd->v` of capacity
`2 * TRAJECTORY_SIZE`: `get_path_length_idx` returns an index below
`TRAJECTORY_SIZE` and reads `line_x` only inside the list; `update_line_data`
reads `line_x`, `line_y`, `line_z` only inside the lists and every store it
makes through `v`, visible or not, falls inside `pvd->v`; and the read of
`getZ()` in `update_leads` is inside the list. -/
theorem polyline_in_bounds (K : Consts) (s : UIState) (line : XYZTData) (T y_off z_off : ℚ)
    (pvd : line_vertices_data) (max_idx : Nat) (lead_data : LeadData)
    (hN : 0 < K.TRAJECTORY_SIZE)
    (hx : line.x.length = K.TRAJECTORY_SIZE) (hy : line.y.length = K.TRAJECTORY_SIZE)
    (hz : line.z.length = K.TRAJECTORY_SIZE)
    (hmax : max_idx < K.TRAJECTORY_SIZE)
    (hcap : pvd.v.length = 2 * K.TRAJECTORY_SIZE) :
    get_path_length_idx K.TRAJECTORY_SIZE line T < K.TRAJECTORY_SIZE ∧
    get_path_length_idx_checked K.TRAJECTORY_SIZE line T =
      some (get_path_length_idx K.TRAJECTORY_SIZE line T) ∧
    update_line_data_checked K s line y_off z_off pvd max_idx =
      some (update_line_data K s line y_off z_off pvd max_idx) ∧
    (update_line_data_cursor K s line y_off z_off pvd max_idx).in_bounds = true ∧
    update_leads_z_checked K (some line) lead_data =
      some (line.z.getD (get_path_length_idx K.TRAJECTORY_SIZE line lead_data.dRel) 0) := by
  have hidx : ∀ t, get_path_length_idx_checked K.TRAJECTORY_SIZE line t =
      some (get_path_length_idx K.TRAJECTORY_SIZE line t) := fun t =>
    get_path_length_idx_loop_checked_eq line.x t K.TRAJECTORY_SIZE 0 0 (by omega)
  obtain ⟨u1, u2, u3, u4⟩ := update_line_data_up_checked_eq K s line y_off z_off (max_idx + 1) 0
    { v := pvd.v, p := 0, in_bounds := true } (by omega) (by omega) (by omega)
    (by show 0 + (max_idx + 1) ≤ pvd.v.length; omega)
  have u2' : (update_line_data_up K s line y_off z_off (max_idx + 1) 0
      { v := pvd.v, p := 0, in_bounds := true }).p ≤ max_idx + 1 := by
    have : ({ v := pvd.v, p := 0, in_bounds := true } : LineCursor).p = 0 := rfl
    omega
  have u3' : (update_line_data_up K s line y_off z_off (max_idx + 1) 0
      { v := pvd.v, p := 0, in_bounds := true }).v.length = pvd.v.length := u3
  obtain ⟨d1, d4⟩ := update_line_data_down_checked_eq K s line y_off z_off (max_idx + 1)
    (update_line_data_up K s line y_off z_off (max_idx + 1) 0
      { v := pvd.v, p := 0, in_bounds := true }) (by omega) (by omega) (by omega)
    (by rw [u3']; omega)
  refine ⟨get_path_length_idx_lt K.TRAJECTORY_SIZE line T hN, hidx T, ?_, ?_, ?_⟩
  · simp only [update_line_data_checked, u1, d1]
    rfl
  · show (update_line_data_down K s line y_off z_off (max_idx + 1) _).in_bounds = true
    rw [d4, u4]
  · have hlt := get_path_length_idx_lt K.TRAJECTORY_SIZE line lead_data.dRel hN
    simp only [update_leads_z_checked, hidx lead_data.dRel]
    exact getElem?_eq_some_getD line.z _ (by omega)

/-- C20 at `sample_line` with all 33 samples drawn into an array of 66
vertices. -/
theorem polyline_in_bounds_witness :
    get_path_length_idx upstream_consts.TRAJECTORY_SIZE sample_line 10
      < upstream_consts.TRAJECTORY_SIZE ∧
    (update_line_data_cursor upstream_consts (init_state upstream_consts) sample_line (1 / 40) 0
      (line_vertices_data.zero upstream_consts) 32).in_bounds = true :=
  have h := polyline_in_bounds upstream_consts (init_state upstream_consts) sample_line 10
    (1 / 40) 0 (line_vertices_data.zero upstream_consts) 32
    { status := true, dRel := 10, yRel := 0 } (by decide)
    (by simp [sample_line, ramp, upstream_consts])
    (by simp [sample_line, upstream_consts]) (by simp [sample_line, upstream_consts])
    (by decide) (by simp [line_vertices_data.zero, upstream_consts])
  ⟨h.1, h.2.2.2.1⟩

/-! ### The assertion of `update_line_data` -/

/-- The projection reads the calibration matrix, the camera choice, the
viewport transform and the framebuffer size, and nothing else of the state. -/
theorem calib_frame_to_full_frame_congr (K : Consts) (s t : UIState)
    (hv : t.scene.view_from_calib = s.scene.view_from_calib)
    (hw : t.wide_camera = s.wide_camera)
    (hc : t.car_space_transform = s.car_space_transform)
    (hfw : t.fb_w = s.fb_w) (hfh : t.fb_h = s.fb_h) (x y z : ℚ) :
    calib_frame_to_full_frame K t x y z = calib_frame_to_full_frame K s x y z := by
  simp only [calib_frame_to_full_frame, hv, hw, hc, hfw, hfh]

theorem store_all_congr (K : Consts) (s t : UIState)
    (h : ∀ x y z, calib_frame_to_full_frame K t x y z = calib_frame_to_full_frame K s x y z) :
    ∀ (cands : List (ℚ × ℚ × ℚ)) (c : LineCursor),
      store_all K t cands c = store_all K s cands c := by
  intro cands
  induction cands with
  | nil => intro c; rfl
  | cons a as ih =>
    intro c
    simp only [store_all, update_line_data_store, h]
    exact ih _

theorem update_line_data_congr (K : Consts) (s t : UIState)
    (h : ∀ x y z, calib_frame_to_full_frame K t x y z = calib_frame_to_full_frame K s x y z)
    (line : XYZTData) (y_off z_off : ℚ) (pvd : line_vertices_data) (max_idx : Nat) :
    update_line_data K t line y_off z_off pvd max_idx =
      update_line_data K s line y_off z_off pvd max_idx := by
  simp only [update_line_data, update_line_data_cursor_eq, store_all_congr K s t h]

/-- The path polyline `update_model` leaves is the one `update_line_data`
builds from the state `update_model` was entered with. -/
theorem update_model_track_vertices (K : Consts) (s : UIState) (model : ModelDataV2) :
    (update_model K s model).scene.track_vertices =
      update_line_data K s model.position 0.7 1.22 s.scene.track_vertices
        (update_model_path_idx K s model) := by
  obtain ⟨a, b, h1⟩ := update_model_lane_lines_shape K model (update_model_lane_idx K model) 4 0 s
  obtain ⟨c, d, h2⟩ := update_model_road_edges_shape K model (update_model_lane_idx K model) 2 0
    (update_model_lane_lines K model (update_model_lane_idx K model) 4 0 s)
  have f1 : (update_model_road_edges K model (update_model_lane_idx K model) 2 0
      (update_model_lane_lines K model (update_model_lane_idx K model) 4 0 s)).scene.view_from_calib
      = s.scene.view_from_calib := by rw [h2, h1]
  have f2 : (update_model_road_edges K model (update_model_lane_idx K model) 2 0
      (update_model_lane_lines K model (update_model_lane_idx K model) 4 0 s)).wide_camera
      = s.wide_camera := by rw [h2, h1]
  have f3 : (update_model_road_edges K model (update_model_lane_idx K model) 2 0
      (update_model_lane_lines K model (update_model_lane_idx K model) 4 0 s)).car_space_transform
      = s.car_space_transform := by rw [h2, h1]
  have f4 : (update_model_road_edges K model (update_model_lane_idx K model) 2 0
      (update_model_lane_lines K model (update_model_lane_idx K model) 4 0 s)).fb_w
      = s.fb_w := by rw [h2, h1]
  have f5 : (update_model_road_edges K model (update_model_lane_idx K model) 2 0
      (update_model_lane_lines K model (update_model_lane_idx K model) 4 0 s)).fb_h
      = s.fb_h := by rw [h2, h1]
  have f6 : (update_model_road_edges K model (update_model_lane_idx K model) 2 0
      (update_model_lane_lines K model (update_model_lane_idx K model) 4 0 s)).scene.track_vertices
      = s.scene.track_vertices := by rw [h2, h1]
  have f7 : (update_model_road_edges K model (update_model_lane_idx K model) 2 0
      (update_model_lane_lines K model (update_model_lane_idx K model) 4 0 s)).scene.lead_data
      = s.scene.lead_data := by rw [h2, h1]
  simp only [update_model]
  generalize update_model_road_edges K model (update_model_lane_idx K model) 2 0
      (update_model_lane_lines K model (update_model_lane_idx K model) 4 0 s) = t at *
  have hidx : update_model_path_idx K t model = update_model_path_idx K s model := by
    simp only [update_model_path_idx, update_model_path_distance, f7]
  show update_line_data K t model.position 0.7 1.22 t.scene.track_vertices
      (update_model_path_idx K t model) = _
  rw [update_line_data_congr K s t (calib_frame_to_full_frame_congr K s t f1 f2 f3 f4 f5),
    f6, hidx]

/-- When every candidate is visible, every candidate is kept. -/
theorem visible_projections_length (K : Consts) (s : UIState) (cands : List (ℚ × ℚ × ℚ))
    (h : ∀ c, c ∈ cands → (calib_frame_to_full_frame K s c.1 c.2.1 c.2.2).2 = true) :
    (visible_projections K s cands).length = cands.length := by
  induction cands with
  | nil => rfl
  | cons a as ih =>
    have ha := h a (List.mem_cons_self a as)
    have hr := ih (fun c hc => h c (List.mem_cons_of_mem a hc))
    simp only [visible_projections, List.map_cons, List.filter_cons, ha, if_true,
      List.length_cons] at hr ⊢
    rw [hr]

/-- When every sample the loop can visit is below the threshold, the loop runs
to the end and returns the last index. -/
theorem get_path_length_idx_loop_all (line_x : List ℚ) (T : ℚ) :
    ∀ (rem i m : Nat), (∀ j, i ≤ j → j < i + rem → line_x.getD j 0 < T) → 0 < rem →
      get_path_length_idx_loop line_x T rem i m = i + rem - 1 := by
  intro rem
  induction rem with
  | zero => intro i m _ h; omega
  | succ k ih =>
    intro i m h _
    simp only [get_path_length_idx_loop, h i (le_refl _) (by omega), if_true]
    rcases Nat.eq_zero_or_pos k with e | e
    · subst e
      rfl
    · rw [ih (i + 1) i (fun j h1 h2 => h j (by omega) (by omega)) e]
      omega

theorem near_line_x (i : Nat) (hi : i < 33) : near_line.x.getD i 0 = 1 + (i : ℚ) / 4 := by
  unfold near_line
  rw [List.getD_eq_getElem?_getD, List.getElem?_map, List.getElem?_range hi]
  rfl

theorem near_line_y (i : Nat) (hi : i < 33) : near_line.y.getD i 0 = 0 := by
  unfold near_line
  rw [List.getD_eq_getElem?_getD, List.getElem?_replicate]
  simp [hi]

theorem near_line_z (i : Nat) (hi : i < 33) : near_line.z.getD i 0 = 0 := by
  unfold near_line
  rw [List.getD_eq_getElem?_getD, List.getElem?_replicate]
  simp [hi]

/-- In `sample_view_state` a point at least 1 ahead, 0.7 to either side
and 1.22 up is projected into the framebuffer widened by the margin. -/
theorem sample_view_state_visible (x y : ℚ) (hx1 : 1 ≤ x)
    (hy : y = -0.7 ∨ y = 0.7) :
    (calib_frame_to_full_frame upstream_consts sample_view_state x y 1.22).2 = true := by
  have hK : calib_KEp upstream_consts sample_view_state x y 1.22 =
      { v0 := 910 * y + 582 * x, v1 := 910 * 1.22 + 437 * x, v2 := x } := by
    simp [calib_KEp, matvecmul3, sample_view_state, axis_permutation, init_state, ui_init,
      upstream_consts]
  have hne : (calib_KEp upstream_consts sample_view_state x y 1.22).v2 ≠ 0 := by
    rw [hK]
    show x ≠ 0
    linarith
  obtain ⟨hv, hm⟩ := (calib_frame_to_full_frame_visible upstream_consts sample_view_state
    x y 1.22).2 hne
  rw [hm, hv, hK]
  have hx0 : (0 : ℚ) < x := by linarith
  have e1 : (910 * y + 582 * x) / x = 910 * y / x + 582 := by
    field_simp
  have e2 : (910 * 1.22 + 437 * x) / x = 910 * 1.22 / x + 437 := by
    field_simp
  have b1 : -637 ≤ 910 * y / x ∧ 910 * y / x ≤ 637 := by
    rcases hy with h | h <;> subst h
    · constructor
      · rw [le_div_iff₀ hx0]; nlinarith
      · rw [div_le_iff₀ hx0]; nlinarith
    · constructor
      · rw [le_div_iff₀ hx0]; nlinarith
      · rw [div_le_iff₀ hx0]; nlinarith
  have b2 : 0 ≤ 910 * 1.22 / x ∧ 910 * 1.22 / x ≤ 1111 := by
    constructor
    · positivity
    · rw [div_le_iff₀ hx0]; nlinarith
  simp only [within_margin, nvgTransformPoint, sample_view_state, e1, e2]
  norm_num
  refine ⟨?_, ?_, ?_, ?_⟩ <;> linarith [b1.1, b1.2, b2.1, b2.2]

theorem near_model_path_idx :
    update_model_path_idx upstream_consts sample_view_state near_model = 32 := by
  have hst : (sample_view_state.scene.lead_data 0).status = false := rfl
  have hT : update_model_path_distance sample_view_state.scene
      (update_model_max_distance upstream_consts near_model) = 10 := by
    have hx : near_model.position.x.getD (upstream_consts.TRAJECTORY_SIZE - 1) 0 = 9 := by
      show near_line.x.getD 32 0 = 9
      rw [near_line_x 32 (by omega)]
      norm_num
    simp only [update_model_path_distance, hst, update_model_max_distance, hx]
    norm_num [clamp, upstream_consts]
  unfold update_model_path_idx
  rw [hT]
  show get_path_length_idx_loop near_line.x 10 33 0 0 = 32
  rw [get_path_length_idx_loop_all near_line.x 10 33 0 0 _ (by omega)]
  intro j _ hj
  have hj' : j < 33 := by omega
  rw [near_line_x j hj']
  have : (j : ℚ) ≤ 32 := by exact_mod_cast Nat.le_of_lt_succ hj'
  linarith

theorem near_line_candidates_visible (c : ℚ × ℚ × ℚ)
    (hc : c ∈ ribbon_candidates near_line 0.7 1.22 32) :
    (calib_frame_to_full_frame upstream_consts sample_view_state c.1 c.2.1 c.2.2).2 = true := by
  have hpt : ∃ i, i < 33 ∧ (c = (near_line.x.getD i 0, near_line.y.getD i 0 - 0.7,
      near_line.z.getD i 0 + 1.22) ∨ c = (near_line.x.getD i 0, near_line.y.getD i 0 + 0.7,
      near_line.z.getD i 0 + 1.22)) := by
    simp only [ribbon_candidates, List.mem_append, List.mem_map, List.mem_range,
      List.mem_reverse] at hc
    rcases hc with ⟨i, hi, e⟩ | ⟨i, hi, e⟩
    · exact ⟨i, hi, Or.inl e.symm⟩
    · exact ⟨i, hi, Or.inr e.symm⟩
  obtain ⟨i, hi, e⟩ := hpt
  rw [near_line_x i hi, near_line_y i hi, near_line_z i hi] at e
  have h1 : (1 : ℚ) ≤ 1 + (i : ℚ) / 4 := by
    have : (0 : ℚ) ≤ (i : ℚ) := Nat.cast_nonneg i
    linarith
  have hz : (0 : ℚ) + 1.22 = 1.22 := zero_add _
  rcases e with e | e
  · subst e
    show (calib_frame_to_full_frame upstream_consts sample_view_state (1 + (i : ℚ) / 4)
      (0 - 0.7) (0 + 1.22)).2 = true
    rw [hz]
    exact sample_view_state_visible _ _ h1 (Or.inl (by norm_num))
  · subst e
    show (calib_frame_to_full_frame upstream_consts sample_view_state (1 + (i : ℚ) / 4)
      (0 + 0.7) (0 + 1.22)).2 = true
    rw [hz]
    exact sample_view_state_visible _ _ h1 (Or.inr (by norm_num))

/-- C19 fails at the model message `near_model` in `sample_view_state`: the
33 samples of the path lie between 1 and 9, below the draw threshold 10, so
`get_path_length_idx` returns 32; all 66 candidate points are visible, so the
path call of `update_line_data` leaves `cnt = 66` in an array of 66 vertices,
and the condition `pvd->cnt < std::size(pvd->v)` of the assertion is false. -/
theorem update_line_data_assert_fails :
    update_model_path_idx upstream_consts sample_view_state near_model = 32 ∧
    (update_model upstream_consts sample_view_state near_model).scene.track_vertices.cnt = 66 ∧
    (update_model upstream_consts sample_view_state near_model).scene.track_vertices.v.length
      = 66 ∧
    update_line_data_assert upstream_consts sample_view_state near_model.position 0.7 1.22
      sample_view_state.scene.track_vertices
      (update_model_path_idx upstream_consts sample_view_state near_model) = false := by
  have hcap : sample_view_state.scene.track_vertices.v.length = 66 := by
    show (List.replicate (2 * 33) ({ x := 0, y := 0 } : vertex_data)).length = 66
    simp
  have hlen : (ribbon_candidates near_line 0.7 1.22 32).length = 66 := by
    rw [ribbon_candidates_length]
  have hvis := visible_projections_length upstream_consts sample_view_state
    (ribbon_candidates near_line 0.7 1.22 32) near_line_candidates_visible
  obtain ⟨h1, _, h3, _⟩ := store_all_spec upstream_consts sample_view_state
    (ribbon_candidates near_line 0.7 1.22 32)
    { v := sample_view_state.scene.track_vertices.v, p := 0, in_bounds := true }
    (by show 0 + _ ≤ sample_view_state.scene.track_vertices.v.length; rw [hlen, hcap])
  have hcnt : (update_line_data upstream_consts sample_view_state near_line 0.7 1.22
      sample_view_state.scene.track_vertices 32).cnt = 66 := by
    simp only [update_line_data, update_line_data_cursor_eq]
    rw [h1, hvis, hlen]
  have hv : (update_line_data upstream_consts sample_view_state near_line 0.7 1.22
      sample_view_state.scene.track_vertices 32).v.length = 66 := by
    simp only [update_line_data, update_line_data_cursor_eq]
    rw [h3]
    exact hcap
  have ht := update_model_track_vertices upstream_consts sample_view_state near_model
  rw [near_model_path_idx] at ht
  refine ⟨near_model_path_idx, ?_, ?_, ?_⟩
  · rw [ht]; exact hcnt
  · rw [ht]; exact hv
  · rw [near_model_path_idx]
    show decide ((update_line_data upstream_consts sample_view_state near_line 0.7 1.22
      sample_view_state.scene.track_vertices 32).cnt <
      (update_line_data upstream_consts sample_view_state near_line 0.7 1.22
        sample_view_state.scene.track_vertices 32).v.length) = false
    rw [hcnt, hv]
    rfl

/-! ### The carState handler -/

/-- C18. For every scene and every carState payload, applying the carState
handler of `update_sockets` twice with the same payload yields the same scene
as applying it once (and so for the whole state, whether the topic updated or
not).  The handler sets `blinker_blinkingrate` to 120 exactly when the left or
the right blinker of the payload differs from the stored one, and leaves it as
it was otherwise.  After an application the scene holds the payload and its
two blinkers, so the edge test of a second application with the same payload
is false, and that application leaves the counter unchanged; the other fields
the handler writes hold the values of the payload.  On the state the
handler is this scene function applied to the message of the topic when the
topic updated, and the identity when it did not. -/
theorem carState_handler_idempotent (s : UIState) (scene : UIScene) (data : CarState) :
    update_sockets_carState_scene (update_sockets_carState_scene scene data) data =
      update_sockets_carState_scene scene data ∧
    update_sockets_carState (update_sockets_carState s) = update_sockets_carState s ∧
    (update_sockets_carState_scene scene data).blinker_blinkingrate =
      (if blinker_edge scene data = true then 120 else scene.blinker_blinkingrate) ∧
    (blinker_edge scene data = true ↔
      scene.leftBlinker ≠ data.leftBlinker ∨ scene.rightBlinker ≠ data.rightBlinker) ∧
    (update_sockets_carState_scene scene data).leftBlinker = data.leftBlinker ∧
    (update_sockets_carState_scene scene data).rightBlinker = data.rightBlinker ∧
    (update_sockets_carState_scene scene data).car_state = data ∧
    ((update_sockets_carState_scene scene data).brakePress = data.brakePressed ∧
      (update_sockets_carState_scene scene data).brakeLights = data.brakeLights ∧
      (update_sockets_carState_scene scene data).getGearShifter = data.gearShifter ∧
      (update_sockets_carState_scene scene data).leftblindspot = data.leftBlindspot ∧
      (update_sockets_carState_scene scene data).rightblindspot = data.rightBlindspot ∧
      (update_sockets_carState_scene scene data).tpmsPressureFl = data.tpmsPressureFl ∧
      (update_sockets_carState_scene scene data).tpmsPressureFr = data.tpmsPressureFr ∧
      (update_sockets_carState_scene scene data).tpmsPressureRl = data.tpmsPressureRl ∧
      (update_sockets_carState_scene scene data).tpmsPressureRr = data.tpmsPressureRr ∧
      (update_sockets_carState_scene scene data).radarDistance = data.radarDistance ∧
      (update_sockets_carState_scene scene data).standStill = data.standStill ∧
      (update_sockets_carState_scene scene data).vSetDis = data.vSetDis ∧
      (update_sockets_carState_scene scene data).cruiseAccStatus = data.cruiseAccStatus ∧
      (update_sockets_carState_scene scene data).angleSteers = data.steeringAngleDeg) ∧
    blinker_edge (update_sockets_carState_scene scene data) data = false ∧
    (update_sockets_carState_scene
      (update_sockets_carState_scene scene data) data).blinker_blinkingrate =
      (update_sockets_carState_scene scene data).blinker_blinkingrate ∧
    (s.sm.carState.updated = true →
      (update_sockets_carState s).scene =
        update_sockets_carState_scene s.scene s.sm.carState.msg) ∧
    (s.sm.carState.updated = false → update_sockets_carState s = s) := by
  have idem : ∀ (sc : UIScene) (d : CarState),
      update_sockets_carState_scene (update_sockets_carState_scene sc d) d =
        update_sockets_carState_scene sc d := by
    intro sc d
    simp only [update_sockets_carState_scene, bne_self_eq_false, Bool.or_self,
      Bool.false_eq_true, if_false]
    split_ifs <;> rfl
  have hl : (update_sockets_carState_scene scene data).leftBlinker = data.leftBlinker := rfl
  have hr : (update_sockets_carState_scene scene data).rightBlinker = data.rightBlinker := rfl
  have hup : s.sm.carState.updated = true →
      update_sockets_carState s =
        { s with scene := update_sockets_carState_scene s.scene s.sm.carState.msg } := by
    intro h
    simp only [update_sockets_carState, h, if_true]
  have hno : s.sm.carState.updated = false → update_sockets_carState s = s := by
    intro h
    simp only [update_sockets_carState, h, Bool.false_eq_true, if_false]
  have hcs : (update_sockets_carState_scene scene data).car_state = data := by
    simp only [update_sockets_carState_scene]
    split_ifs <;> rfl
  refine ⟨idem scene data, ?_, ?_, ?_, hl, hr, hcs,
    ⟨rfl, rfl, rfl, rfl, rfl, rfl, rfl, rfl, rfl, rfl, rfl, rfl, rfl, rfl⟩, ?_,
    by rw [idem scene data], ?_, hno⟩
  · cases h : s.sm.carState.updated with
    | true =>
      rw [hup h]
      simp only [update_sockets_carState, h, if_true, idem]
    | false =>
      rw [hno h, hno h]
  · simp only [update_sockets_carState_scene, blinker_edge]
    split_ifs <;> rfl
  · simp only [blinker_edge, bne_iff_ne, ne_eq, Bool.or_eq_true]
  · simp only [blinker_edge, hl, hr, bne_self_eq_false, Bool.or_self]
  · intro h
    rw [hup h]

/-- C18 at the start-up state after a carState message with the left blinker on
arrived: the handler stores the blinker and sets the counter to 120, and a
second application changes nothing. -/
theorem carState_handler_idempotent_witness :
    left_blinker_state.sm.carState.updated = true ∧
    (update_sockets_carState left_blinker_state).scene =
      update_sockets_carState_scene left_blinker_state.scene
        left_blinker_state.sm.carState.msg ∧
    (update_sockets_carState left_blinker_state).scene.leftBlinker = true ∧
    (update_sockets_carState left_blinker_state).scene.blinker_blinkingrate = 120 ∧
    update_sockets_carState (update_sockets_carState left_blinker_state) =
      update_sockets_carState left_blinker_state :=
  have h := carState_handler_idempotent left_blinker_state left_blinker_state.scene
    left_blinker_state.sm.carState.msg
  ⟨rfl, h.2.2.2.2.2.2.2.2.2.2.1 rfl, rfl, rfl, h.2.1⟩

/-! ### The periodic refresh -/

/-- C15 (amended). On a tick whose frame is a multiple of `5 * UI_FREQ`,
`update_params` re-reads the persisted flags and leaves `scene.athenaStatus`
as it was, also when the frame is a multiple of `6 * UI_FREQ` as well (every
`30 * UI_FREQ` frames, the first tick included).  On a tick whose frame is a
multiple of `6 * UI_FREQ` but not of `5 * UI_FREQ` it recomputes
`scene.athenaStatus` from the last-ping timestamp: `NET_CONNECTED` if the
timestamp is present and its age is below 70e9 ns, `NET_ERROR` if it is present
and its age is at least 70e9 ns, `NET_DISCONNECTED` if it is absent.  On every
other tick it changes nothing. -/
theorem update_params_refresh (K : Consts) (params : Params) (now : ℚ) (s : UIState) :
    (s.sm.frame % (5 * K.UI_FREQ) = 0 →
      (update_params K params now s).scene.is_metric = params.IsMetric ∧
      (update_params K params now s).is_OpenpilotViewEnabled = params.IsOpenpilotViewEnabled ∧
      (update_params K params now s).nOpkrUIBrightness = params.OpkrUIBrightness ∧
      (update_params K params now s).nOpkrUIVolumeBoost = params.OpkrUIVolumeBoost ∧
      (update_params K params now s).lat_control = params.LateralControlMethod ∧
      (update_params K params now s).driving_record = params.OpkrDrivingRecord ∧
      (update_params K params now s).scene.end_to_end = params.EndToEndToggle ∧
      (update_params K params now s).scene.athenaStatus = s.scene.athenaStatus) ∧
    (s.sm.frame % (6 * K.UI_FREQ) = 0 → s.sm.frame % (5 * K.UI_FREQ) ≠ 0 →
      (∀ last_ping, params.LastAthenaPingTime = some last_ping →
        now - last_ping < 70000000000 →
        (update_params K params now s).scene.athenaStatus = NetStatus.NET_CONNECTED) ∧
      (∀ last_ping, params.LastAthenaPingTime = some last_ping →
        ¬ now - last_ping < 70000000000 →
        (update_params K params now s).scene.athenaStatus = NetStatus.NET_ERROR) ∧
      (params.LastAthenaPingTime = none →
        (update_params K params now s).scene.athenaStatus = NetStatus.NET_DISCONNECTED)) ∧
    (s.sm.frame % (5 * K.UI_FREQ) ≠ 0 → s.sm.frame % (6 * K.UI_FREQ) ≠ 0 →
      update_params K params now s = s) := by
  refine ⟨?_, ?_, ?_⟩
  · intro h5
    simp only [update_params, h5, if_true, and_self]
  · intro h6 h5
    refine ⟨?_, ?_, ?_⟩
    · intro t ht hlt
      simp only [update_params, h5, h6, if_true, if_false, ht, hlt]
    · intro t ht hlt
      simp only [update_params, h5, h6, if_true, if_false, ht, hlt]
    · intro ht
      simp only [update_params, h5, h6, if_true, if_false, ht]
  · intro h5 h6
    simp only [update_params, h5, h6, if_false]

/-- C15 (amended) at frame 120 with a ping 10 s old, and at frame 100. -/
theorem update_params_refresh_witness :
    (frame_state 120).sm.frame % (6 * upstream_consts.UI_FREQ) = 0 ∧
    (frame_state 120).sm.frame % (5 * upstream_consts.UI_FREQ) ≠ 0 ∧
    (update_params upstream_consts (ping_params (some 5000000000)) 15000000000
      (frame_state 120)).scene.athenaStatus = NetStatus.NET_CONNECTED ∧
    (update_params upstream_consts (ping_params (some 5000000000)) 15000000000
      (frame_state 100)).scene.athenaStatus = (frame_state 100).scene.athenaStatus :=
  ⟨by decide, by decide,
    ((update_params_refresh upstream_consts (ping_params (some 5000000000)) 15000000000
      (frame_state 120)).2.1 (by decide) (by decide)).1 5000000000 rfl (by norm_num),
    ((update_params_refresh upstream_consts (ping_params (some 5000000000)) 15000000000
      (frame_state 100)).1 (by decide)).2.2.2.2.2.2.2⟩

/-- C15 as stated fails at the first tick of every run: the frame is 0, a
multiple of `6 * UI_FREQ`, and it is a multiple of `5 * UI_FREQ` too, so
`update_params` takes the first branch only.  With the timestamp absent the
status is not `NET_DISCONNECTED`, with a timestamp 100 s old it is not
`NET_ERROR`: it is what it was before the call in both cases. -/
theorem update_params_refresh_counterexample :
    (init_state upstream_consts).sm.frame % (6 * upstream_consts.UI_FREQ) = 0 ∧
    (update_params upstream_consts (ping_params none) 100000000000
      (init_state upstream_consts)).scene.athenaStatus ≠ NetStatus.NET_DISCONNECTED ∧
    (update_params upstream_consts (ping_params (some 0)) 100000000000
      (init_state upstream_consts)).scene.athenaStatus ≠ NetStatus.NET_ERROR ∧
    (update_params upstream_consts (ping_params none) 100000000000
      (init_state upstream_consts)).scene.athenaStatus =
      (init_state upstream_consts).scene.athenaStatus ∧
    (update_params upstream_consts (ping_params (some 0)) 100000000000
      (init_state upstream_consts)).scene.athenaStatus =
      (init_state upstream_consts).scene.athenaStatus := by
  refine ⟨by decide, ?_, ?_, rfl, rfl⟩
  · show NetStatus.NET_CONNECTED ≠ NetStatus.NET_DISCONNECTED
    decide
  · show NetStatus.NET_CONNECTED ≠ NetStatus.NET_ERROR
    decide

/-! ### What the handlers of `update_sockets` leave alone, continued -/

theorem update_sockets_controlsState_frame (s : UIState) :
    (update_sockets_controlsState s).sm = s.sm ∧
    (update_sockets_controlsState s).scene.pandaType = s.scene.pandaType ∧
    (update_sockets_controlsState s).scene.ignition = s.scene.ignition ∧
    (update_sockets_controlsState s).scene.view_from_calib = s.scene.view_from_calib ∧
    (update_sockets_controlsState s).wide_camera = s.wide_camera ∧
    (update_sockets_controlsState s).car_space_transform = s.car_space_transform ∧
    (update_sockets_controlsState s).fb_w = s.fb_w ∧
    (update_sockets_controlsState s).fb_h = s.fb_h := by
  unfold update_sockets_controlsState
  split <;> (refine ⟨?_, ?_, ?_, ?_, ?_, ?_, ?_, ?_⟩ <;> rfl)

theorem update_sockets_carState_frame (s : UIState) :
    (update_sockets_carState s).sm = s.sm ∧
    (update_sockets_carState s).scene.pandaType = s.scene.pandaType ∧
    (update_sockets_carState s).scene.ignition = s.scene.ignition ∧
    (update_sockets_carState s).scene.view_from_calib = s.scene.view_from_calib ∧
    (update_sockets_carState s).wide_camera = s.wide_camera ∧
    (update_sockets_carState s).car_space_transform = s.car_space_transform ∧
    (update_sockets_carState s).fb_w = s.fb_w ∧
    (update_sockets_carState s).fb_h = s.fb_h := by
  unfold update_sockets_carState
  split
  · simp only [update_sockets_carState_scene]
    split_ifs <;> (refine ⟨?_, ?_, ?_, ?_, ?_, ?_, ?_, ?_⟩ <;> first | rfl | trivial)
  · (refine ⟨?_, ?_, ?_, ?_, ?_, ?_, ?_, ?_⟩ <;> rfl)

theorem update_sockets_radarState_frame (K : Consts) (s : UIState) :
    (update_sockets_radarState K s).sm = s.sm ∧
    (update_sockets_radarState K s).scene.pandaType = s.scene.pandaType ∧
    (update_sockets_radarState K s).scene.ignition = s.scene.ignition := by
  unfold update_sockets_radarState
  split
  · obtain ⟨a, b, h⟩ := update_leads_shape K s s.sm.radarState.msg
      (if s.sm.modelV2.rcv_frame > 0 then some s.sm.modelV2.msg.position else none)
    simp only [h]
    (refine ⟨?_, ?_, ?_⟩ <;> first | rfl | trivial)
  · (refine ⟨?_, ?_, ?_⟩ <;> rfl)

theorem update_sockets_liveCalibration_frame (K : Consts) (s : UIState) :
    (update_sockets_liveCalibration K s).sm = s.sm ∧
    (update_sockets_liveCalibration K s).scene.pandaType = s.scene.pandaType ∧
    (update_sockets_liveCalibration K s).scene.ignition = s.scene.ignition ∧
    (update_sockets_liveCalibration K s).scene.lead_vertices = s.scene.lead_vertices := by
  unfold update_sockets_liveCalibration
  split <;> (refine ⟨?_, ?_, ?_, ?_⟩ <;> rfl)

theorem update_sockets_modelV2_frame (K : Consts) (s : UIState) :
    (update_sockets_modelV2 K s).sm = s.sm ∧
    (update_sockets_modelV2 K s).scene.pandaType = s.scene.pandaType ∧
    (update_sockets_modelV2 K s).scene.ignition = s.scene.ignition ∧
    (update_sockets_modelV2 K s).scene.lead_vertices = s.scene.lead_vertices ∧
    (update_sockets_modelV2 K s).scene.view_from_calib = s.scene.view_from_calib := by
  unfold update_sockets_modelV2
  split
  · obtain ⟨a, b, c, d, e, h⟩ := update_model_shape K s s.sm.modelV2.msg
    rw [h]
    (refine ⟨?_, ?_, ?_, ?_, ?_⟩ <;> rfl)
  · (refine ⟨?_, ?_, ?_, ?_, ?_⟩ <;> rfl)

theorem update_sockets_deviceState_frame (s : UIState) :
    (update_sockets_deviceState s).sm = s.sm ∧
    (update_sockets_deviceState s).scene.pandaType = s.scene.pandaType ∧
    (update_sockets_deviceState s).scene.ignition = s.scene.ignition ∧
    (update_sockets_deviceState s).scene.lead_vertices = s.scene.lead_vertices ∧
    (update_sockets_deviceState s).scene.view_from_calib = s.scene.view_from_calib := by
  unfold update_sockets_deviceState
  split <;> (refine ⟨?_, ?_, ?_, ?_, ?_⟩ <;> rfl)

theorem update_sockets_pandaState_frame (K : Consts) (s : UIState) :
    (update_sockets_pandaState K s).sm = s.sm ∧
    (update_sockets_pandaState K s).scene.lead_vertices = s.scene.lead_vertices ∧
    (update_sockets_pandaState K s).scene.view_from_calib = s.scene.view_from_calib := by
  unfold update_sockets_pandaState
  split
  · (refine ⟨?_, ?_, ?_⟩ <;> rfl)
  · split <;> (refine ⟨?_, ?_, ?_⟩ <;> rfl)

/-- The state the pandaState handler of `update_sockets` is entered with, in a
tick in which some topic updated: the bus is as the poll left it, and the
handlers before it have not touched `pandaType` and `ignition`. -/
theorem update_sockets_before_pandaState (K : Consts) (s : UIState) :
    (update_sockets_deviceState (update_sockets_modelV2 K (update_sockets_liveCalibration K
      (update_sockets_radarState K (update_sockets_carState
        (update_sockets_controlsState s)))))).sm = s.sm ∧
    (update_sockets_deviceState (update_sockets_modelV2 K (update_sockets_liveCalibration K
      (update_sockets_radarState K (update_sockets_carState
        (update_sockets_controlsState s)))))).scene.pandaType = s.scene.pandaType ∧
    (update_sockets_deviceState (update_sockets_modelV2 K (update_sockets_liveCalibration K
      (update_sockets_radarState K (update_sockets_carState
        (update_sockets_controlsState s)))))).scene.ignition = s.scene.ignition := by
  obtain ⟨a1, a2, a3, _⟩ := update_sockets_controlsState_frame s
  obtain ⟨b1, b2, b3, _⟩ := update_sockets_carState_frame (update_sockets_controlsState s)
  obtain ⟨c1, c2, c3⟩ := update_sockets_radarState_frame K
    (update_sockets_carState (update_sockets_controlsState s))
  obtain ⟨d1, d2, d3, _⟩ := update_sockets_liveCalibration_frame K
    (update_sockets_radarState K (update_sockets_carState (update_sockets_controlsState s)))
  obtain ⟨e1, e2, e3, _⟩ := update_sockets_modelV2_frame K
    (update_sockets_liveCalibration K (update_sockets_radarState K
      (update_sockets_carState (update_sockets_controlsState s))))
  obtain ⟨f1, f2, f3, _⟩ := update_sockets_deviceState_frame
    (update_sockets_modelV2 K (update_sockets_liveCalibration K (update_sockets_radarState K
      (update_sockets_carState (update_sockets_controlsState s)))))
  exact ⟨by rw [f1, e1, d1, c1, b1, a1], by rw [f2, e2, d2, c2, b2, a2],
    by rw [f3, e3, d3, c3, b3, a3]⟩

/-- Function `update_sockets` in a tick in which some topic updated: the handlers
in the order of the source. -/
theorem update_sockets_of_ne (K : Consts) (poll : Poll) (s : UIState)
    (h : (s.sm.update poll).1 ≠ 0) :
    update_sockets K poll s =
      update_sockets_started (update_sockets_pandaState K (update_sockets_deviceState
        (update_sockets_modelV2 K (update_sockets_liveCalibration K
          (update_sockets_radarState K (update_sockets_carState
            (update_sockets_controlsState { s with sm := (s.sm.update poll).2 }))))))) := by
  simp only [update_sockets, h, if_false]

/-- Function `update_sockets` in a tick in which no topic updated: the early
return of line 167. -/
theorem update_sockets_of_eq (K : Consts) (poll : Poll) (s : UIState)
    (h : (s.sm.update poll).1 = 0) :
    update_sockets K poll s = { s with sm := (s.sm.update poll).2 } := by
  simp only [update_sockets, h, if_true]

/-! ### The liveness timeout of pandaState -/

/-- C16 (amended). After `update_sockets`: when pandaState updated in the tick,
`scene.pandaType` is the type of the payload and `scene.ignition` is
`ignitionLine || ignitionCan`; when pandaState did not update, some other topic
did, and `frame - rcv_frame(pandaState) > 5 * UI_FREQ`, `scene.pandaType` is
UNKNOWN; when no topic at all updated in the tick, `update_sockets` returns
before the handlers and `scene.pandaType` and `scene.ignition` are what they
were, whatever the age of the last pandaState message. -/
theorem pandaState_timeout (K : Consts) (poll : Poll) (s : UIState) :
    (∀ p, poll.pandaState = some p →
      (update_sockets K poll s).scene.pandaType = p.pandaType ∧
      (update_sockets K poll s).scene.ignition = (p.ignitionLine || p.ignitionCan)) ∧
    (poll.pandaState = none → (s.sm.update poll).1 ≠ 0 →
      u64_sub (update_sockets K poll s).sm.frame
        (update_sockets K poll s).sm.pandaState.rcv_frame > 5 * K.UI_FREQ →
      (update_sockets K poll s).scene.pandaType = PandaType.UNKNOWN) ∧
    ((s.sm.update poll).1 = 0 →
      (update_sockets K poll s).scene.pandaType = s.scene.pandaType ∧
      (update_sockets K poll s).scene.ignition = s.scene.ignition) := by
  obtain ⟨t1, t2, t3⟩ := update_sockets_before_pandaState K
    { s with sm := (s.sm.update poll).2 }
  refine ⟨?_, ?_, ?_⟩
  · intro p hp
    have hne : (s.sm.update poll).1 ≠ 0 := by
      simp only [SubMaster.update, delivered, hp, Option.isSome_some, if_true]
      omega
    have hu : (s.sm.update poll).2.pandaState.updated = true := by
      simp only [SubMaster.update, Topic.receive, hp]
    have hm : (s.sm.update poll).2.pandaState.msg = p := by
      simp only [SubMaster.update, Topic.receive, hp]
    rw [update_sockets_of_ne K poll s hne]
    generalize update_sockets_deviceState (update_sockets_modelV2 K
      (update_sockets_liveCalibration K (update_sockets_radarState K (update_sockets_carState
        (update_sockets_controlsState { s with sm := (s.sm.update poll).2 }))))) = t at *
    have hu' : t.sm.pandaState.updated = true := by rw [t1]; exact hu
    have hm' : t.sm.pandaState.msg = p := by rw [t1]; exact hm
    simp only [update_sockets_started, update_sockets_pandaState, hu', if_true, hm', and_self]
  · intro hp hne hgt
    have hu : (s.sm.update poll).2.pandaState.updated = false := by
      simp only [SubMaster.update, Topic.receive, hp]
    rw [update_sockets_of_ne K poll s hne] at hgt ⊢
    generalize update_sockets_deviceState (update_sockets_modelV2 K
      (update_sockets_liveCalibration K (update_sockets_radarState K (update_sockets_carState
        (update_sockets_controlsState { s with sm := (s.sm.update poll).2 }))))) = t at *
    have hu' : t.sm.pandaState.updated = false := by rw [t1]; exact hu
    have hsm : (update_sockets_started (update_sockets_pandaState K t)).sm = t.sm :=
      (update_sockets_pandaState_frame K t).1
    rw [hsm] at hgt
    simp only [update_sockets_started, update_sockets_pandaState, hu', Bool.false_eq_true,
      if_false, hgt, if_true]
  · intro h0
    rw [update_sockets_of_eq K poll s h0]
    exact ⟨rfl, rfl⟩

theorem update_params_link (K : Consts) (params : Params) (now : ℚ) (s : UIState) :
    (update_params K params now s).sm = s.sm ∧
    (update_params K params now s).scene.pandaType = s.scene.pandaType := by
  unfold update_params
  by_cases h5 : s.sm.frame % (5 * K.UI_FREQ) = 0
  · simp only [h5, if_true, and_self]
  · by_cases h6 : s.sm.frame % (6 * K.UI_FREQ) = 0
    · simp only [h5, h6, if_true, if_false]
      cases params.LastAthenaPingTime <;> exact ⟨rfl, rfl⟩
    · simp only [h5, h6, if_false, and_self]

theorem update_status_link (s : UIState) :
    (update_status s).sm = s.sm ∧
    (update_status s).scene.pandaType = s.scene.pandaType := by
  have h1 : (update_status_controls s).sm = s.sm := by
    simp only [update_status_controls]
    split_ifs <;> rfl
  have h1' : (update_status_controls s).scene.pandaType = s.scene.pandaType := by
    simp only [update_status_controls]
    split_ifs <;> rfl
  have h2 : ∀ t : UIState, (update_status_transition t).sm = t.sm := by
    intro t
    simp only [update_status_transition, set_vipc]
    split_ifs <;> first | rfl | (split <;> rfl)
  have h2' : ∀ t : UIState,
      (update_status_transition t).scene.pandaType = t.scene.pandaType := by
    intro t
    simp only [update_status_transition, set_vipc]
    split_ifs <;> first | rfl | (split <;> rfl)
  unfold update_status
  exact ⟨by rw [h2, h1], by rw [h2', h1']⟩

theorem update_alert_link (K : Consts) (s : UIState) :
    (update_alert K s).sm = s.sm ∧
    (update_alert K s).scene.pandaType = s.scene.pandaType := by
  have h1 : (update_alert_controls s).sm = s.sm := by
    simp only [update_alert_controls]
    split_ifs <;> rfl
  have h1' : (update_alert_controls s).scene.pandaType = s.scene.pandaType := by
    simp only [update_alert_controls]
    split_ifs <;> rfl
  have h2 : ∀ t : UIState, (update_alert_timeout K t).sm = t.sm := by
    intro t
    simp only [update_alert_timeout]
    split_ifs <;> rfl
  have h2' : ∀ t : UIState,
      (update_alert_timeout K t).scene.pandaType = t.scene.pandaType := by
    intro t
    simp only [update_alert_timeout]
    split_ifs <;> rfl
  unfold update_alert
  exact ⟨by rw [h2, h1], by rw [h2', h1']⟩

theorem update_vision_link (connect_ok : Bool) (recv : Option Nat) (s : UIState) :
    (update_vision connect_ok recv s).sm = s.sm ∧
    (update_vision connect_ok recv s).scene.pandaType = s.scene.pandaType := by
  have h1 : ∀ (t : UIState) (c : VisionIpcClient), (set_vipc t c).sm = t.sm ∧
      (set_vipc t c).scene.pandaType = t.scene.pandaType := by
    intro t c
    unfold set_vipc
    cases t.vipc_client <;> exact ⟨rfl, rfl⟩
  have h2 : (if (!(vipc s).connected && s.scene.started) = true then
        if connect_ok = true then ui_init_vision (set_vipc s { connected := true }) else s
      else s).sm = s.sm ∧
      (if (!(vipc s).connected && s.scene.started) = true then
        if connect_ok = true then ui_init_vision (set_vipc s { connected := true }) else s
      else s).scene.pandaType = s.scene.pandaType := by
    split_ifs
    · exact ⟨(h1 s _).1, (h1 s _).2⟩
    · exact ⟨rfl, rfl⟩
    · exact ⟨rfl, rfl⟩
  unfold update_vision
  generalize (if (!(vipc s).connected && s.scene.started) = true then
        if connect_ok = true then ui_init_vision (set_vipc s { connected := true }) else s
      else s) = t at h2 ⊢
  show (if (vipc t).connected = true then
      match recv with
      | some buf => { t with last_frame := some buf }
      | none => t
    else t).sm = s.sm ∧ (if (vipc t).connected = true then
      match recv with
      | some buf => { t with last_frame := some buf }
      | none => t
    else t).scene.pandaType = s.scene.pandaType
  split_ifs
  · cases recv <;> exact h2
  · exact h2

/-- A tick in which nothing arrives on the bus leaves `scene.pandaType` and the
receive frame of pandaState as they were, and advances the frame by one. -/
theorem idle_tick_link (K : Consts) (s : UIState) :
    (tick K idle_input s).scene.pandaType = s.scene.pandaType ∧
    (tick K idle_input s).sm.frame = s.sm.frame + 1 ∧
    (tick K idle_input s).sm.pandaState.rcv_frame = s.sm.pandaState.rcv_frame ∧
    (tick_sockets K idle_input s).scene.pandaType = s.scene.pandaType ∧
    (tick_sockets K idle_input s).sm.frame = s.sm.frame + 1 ∧
    (tick_sockets K idle_input s).sm.pandaState.rcv_frame = s.sm.pandaState.rcv_frame ∧
    (tick_sockets K idle_input s).sm.pandaState.updated = false := by
  have hp := update_params_link K idle_input.params idle_input.nanos_since_boot
    { s with scene := { s.scene with driver_view := idle_input.driver_view }, sound := [] }
  have h0 : ∀ sm : SubMaster, (sm.update idle_input.poll).1 = 0 := fun sm => rfl
  have hs : tick_sockets K idle_input s =
      { update_params K idle_input.params idle_input.nanos_since_boot
          { s with scene := { s.scene with driver_view := idle_input.driver_view }, sound := [] }
        with sm := ((update_params K idle_input.params idle_input.nanos_since_boot
          { s with scene := { s.scene with driver_view := idle_input.driver_view },
                   sound := [] }).sm.update idle_input.poll).2 } :=
    update_sockets_of_eq K idle_input.poll _ (h0 _)
  have e1 : (tick_sockets K idle_input s).scene.pandaType = s.scene.pandaType := by
    rw [hs]; exact hp.2
  have e2 : (tick_sockets K idle_input s).sm = (s.sm.update idle_input.poll).2 := by
    rw [hs]
    show ((update_params K idle_input.params idle_input.nanos_since_boot _).sm.update
      idle_input.poll).2 = _
    rw [hp.1]
  have ht : tick K idle_input s =
      update_vision idle_input.connect_ok idle_input.recv
        (update_alert K (update_status (tick_sockets K idle_input s))) := rfl
  obtain ⟨v1, v2⟩ := update_vision_link idle_input.connect_ok idle_input.recv
    (update_alert K (update_status (tick_sockets K idle_input s)))
  obtain ⟨a1, a2⟩ := update_alert_link K (update_status (tick_sockets K idle_input s))
  obtain ⟨u1, u2⟩ := update_status_link (tick_sockets K idle_input s)
  have e3 : (tick K idle_input s).sm = (s.sm.update idle_input.poll).2 := by
    rw [ht, v1, a1, u1, e2]
  have e4 : (tick K idle_input s).scene.pandaType = s.scene.pandaType := by
    rw [ht, v2, a2, u2, e1]
  refine ⟨e4, by rw [e3]; rfl, by rw [e3]; rfl, e1, by rw [e2]; rfl, by rw [e2]; rfl,
    by rw [e2]; rfl⟩

/-- A run of ticks in which nothing arrives on the bus. -/
theorem idle_run_link (K : Consts) (n : Nat) (s : UIState) :
    (run K (List.replicate n idle_input) s).scene.pandaType = s.scene.pandaType ∧
    (run K (List.replicate n idle_input) s).sm.frame = s.sm.frame + n ∧
    (run K (List.replicate n idle_input) s).sm.pandaState.rcv_frame =
      s.sm.pandaState.rcv_frame := by
  induction n generalizing s with
  | zero => exact ⟨rfl, rfl, rfl⟩
  | succ k ih =>
    obtain ⟨t1, t2, t3, _⟩ := idle_tick_link K s
    obtain ⟨r1, r2, r3⟩ := ih (tick K idle_input s)
    have e : run K (List.replicate (k + 1) idle_input) s =
        run K (List.replicate k idle_input) (tick K idle_input s) := by
      unfold run
      rw [List.replicate_succ, List.foldl_cons]
    rw [e]
    exact ⟨by rw [r1, t1], by rw [r2, t2]; omega, by rw [r3, t3]⟩

/-- C16 (amended) at the first tick of a run, in which a pandaState message of
type UNO with the ignition line on arrives. -/
theorem pandaState_timeout_witness :
    (panda_input PandaType.UNO).poll.pandaState =
      some { pandaType := PandaType.UNO, ignitionLine := true, ignitionCan := false } ∧
    (update_sockets upstream_consts (panda_input PandaType.UNO).poll
      (init_state upstream_consts)).scene.pandaType = PandaType.UNO ∧
    (update_sockets upstream_consts (panda_input PandaType.UNO).poll
      (init_state upstream_consts)).scene.ignition = (true || false) :=
  ⟨rfl, (pandaState_timeout upstream_consts (panda_input PandaType.UNO).poll
    (init_state upstream_consts)).1 _ rfl⟩

/-- C16 as stated fails: a pandaState message of type UNO arrives at frame 1 and
nothing arrives on the bus afterwards.  In the tick at frame 102 pandaState
did not update and `frame - rcv_frame(pandaState)` is 101, more than
`5 * UI_FREQ = 100`, yet after `update_sockets` `scene.pandaType` is UNO, not
UNKNOWN: no topic updated, so `update_sockets` returned at line 167. -/
theorem pandaState_timeout_counterexample :
    (tick_sockets upstream_consts idle_input
      (run upstream_consts (panda_input PandaType.UNO :: List.replicate 100 idle_input)
        (init_state upstream_consts))).sm.pandaState.updated = false ∧
    u64_sub (tick_sockets upstream_consts idle_input
      (run upstream_consts (panda_input PandaType.UNO :: List.replicate 100 idle_input)
        (init_state upstream_consts))).sm.frame
      (tick_sockets upstream_consts idle_input
        (run upstream_consts (panda_input PandaType.UNO :: List.replicate 100 idle_input)
          (init_state upstream_consts))).sm.pandaState.rcv_frame = 101 ∧
    5 * upstream_consts.UI_FREQ < 101 ∧
    (tick_sockets upstream_consts idle_input
      (run upstream_consts (panda_input PandaType.UNO :: List.replicate 100 idle_input)
        (init_state upstream_consts))).scene.pandaType = PandaType.UNO := by
  have e : run upstream_consts (panda_input PandaType.UNO :: List.replicate 100 idle_input)
      (init_state upstream_consts) =
      run upstream_consts (List.replicate 100 idle_input) panda_start_state := by
    unfold panda_start_state run
    exact List.foldl_cons _ _
  have f1 : panda_start_state.scene.pandaType = PandaType.UNO := rfl
  have f2 : panda_start_state.sm.frame = 1 := rfl
  have f3 : panda_start_state.sm.pandaState.rcv_frame = 1 := rfl
  obtain ⟨r1, r2, r3⟩ := idle_run_link upstream_consts 100 panda_start_state
  obtain ⟨_, _, _, t1, t2, t3, t4⟩ := idle_tick_link upstream_consts
    (run upstream_consts (List.replicate 100 idle_input) panda_start_state)
  rw [e, t1, t2, t3, t4, r1, r2, r3, f1, f2, f3]
  refine ⟨rfl, ?_, by decide, rfl⟩
  rw [u64_sub_of_le _ _ (by omega) (by unfold UINT64_MOD; omega)]

/-! ### The order of the calibration and the projecting handlers -/

/-- The vertex `update_leads` writes for lead one when it is tracked. -/
theorem update_leads_vertex (K : Consts) (s : UIState) (r : RadarState)
    (hst : r.leadOne.status = true) :
    (update_leads K s r none).scene.lead_vertices 0 =
      (calib_frame_to_full_frame K s r.leadOne.dRel (-r.leadOne.yRel) (0 + 1.22)).1 := by
  have h0 : (update_leads_body K r none 0 s).scene.lead_vertices 0 =
      (calib_frame_to_full_frame K s r.leadOne.dRel (-r.leadOne.yRel) (0 + 1.22)).1 := by
    simp only [update_leads_body, if_true, hst, Function.update_same]
  have h1 : ∀ t : UIState, (update_leads_body K r none 1 t).scene.lead_vertices 0 =
      t.scene.lead_vertices 0 := by
    intro t
    simp only [update_leads_body, one_ne_zero, if_false]
    split_ifs
    · exact Function.update_noteq (show (0 : Nat) ≠ 1 by decide)
        (calib_frame_to_full_frame K t r.leadTwo.dRel (-r.leadTwo.yRel) (0 + 1.22)).1
        t.scene.lead_vertices
    · rfl
  unfold update_leads
  rw [h1, h0]

/-- The lead vertex after `update_sockets`, in a tick in which radarState
delivers a tracked lead one and no model message has ever arrived: it is the
projection under the calibration matrix the state had when `update_sockets`
was entered, whatever else the poll delivers. -/
theorem update_sockets_lead_vertex (K : Consts) (poll : Poll) (s : UIState) (r : RadarState)
    (hr : poll.radarState = some r) (hst : r.leadOne.status = true)
    (hm : poll.modelV2 = none) (h0 : s.sm.modelV2.rcv_frame = 0) :
    (update_sockets K poll s).scene.lead_vertices 0 =
      (calib_frame_to_full_frame K s r.leadOne.dRel (-r.leadOne.yRel) (0 + 1.22)).1 := by
  have hne : (s.sm.update poll).1 ≠ 0 := by
    simp only [SubMaster.update, delivered, hr, Option.isSome_some, if_true]
    omega
  have hu : (s.sm.update poll).2.radarState.updated = true := by
    simp only [SubMaster.update, Topic.receive, hr]
  have hmsg : (s.sm.update poll).2.radarState.msg = r := by
    simp only [SubMaster.update, Topic.receive, hr]
  have hrcv : (s.sm.update poll).2.modelV2.rcv_frame = 0 := by
    simp only [SubMaster.update, Topic.receive, hm]
    exact h0
  rw [update_sockets_of_ne K poll s hne]
  obtain ⟨a1, _, _, a4, a5, a6, a7, a8⟩ :=
    update_sockets_controlsState_frame { s with sm := (s.sm.update poll).2 }
  obtain ⟨b1, _, _, b4, b5, b6, b7, b8⟩ := update_sockets_carState_frame
    (update_sockets_controlsState { s with sm := (s.sm.update poll).2 })
  generalize update_sockets_carState
    (update_sockets_controlsState { s with sm := (s.sm.update poll).2 }) = t at *
  have tsm : t.sm = (s.sm.update poll).2 := by rw [b1, a1]
  have hrad : update_sockets_radarState K t = update_leads K t r none := by
    simp only [update_sockets_radarState, tsm, hu, if_true, hmsg, hrcv, gt_iff_lt,
      lt_self_iff_false, if_false]
  have hproj : ∀ x y z, calib_frame_to_full_frame K t x y z =
      calib_frame_to_full_frame K s x y z :=
    calib_frame_to_full_frame_congr K s t (by rw [b4, a4]) (by rw [b5, a5]) (by rw [b6, a6])
      (by rw [b7, a7]) (by rw [b8, a8])
  have hv : (update_sockets_radarState K t).scene.lead_vertices 0 =
      (calib_frame_to_full_frame K s r.leadOne.dRel (-r.leadOne.yRel) (0 + 1.22)).1 := by
    rw [hrad, update_leads_vertex K t r hst, hproj]
  generalize update_sockets_radarState K t = u at hv ⊢
  have e1 := (update_sockets_liveCalibration_frame K u).2.2.2
  have e2 := (update_sockets_modelV2_frame K (update_sockets_liveCalibration K u)).2.2.2.1
  have e3 := (update_sockets_deviceState_frame
    (update_sockets_modelV2 K (update_sockets_liveCalibration K u))).2.2.2.1
  have e4 := (update_sockets_pandaState_frame K (update_sockets_deviceState
    (update_sockets_modelV2 K (update_sockets_liveCalibration K u)))).2.1
  show (update_sockets_pandaState K (update_sockets_deviceState
    (update_sockets_modelV2 K (update_sockets_liveCalibration K u)))).scene.lead_vertices 0 = _
  rw [e4, e3, e2, e1, hv]

/-- The calibration matrix after `update_sockets`, in a tick in which
liveCalibration delivers `c`: the matrix computed from `c`. -/
theorem update_sockets_view_from_calib (K : Consts) (poll : Poll) (s : UIState)
    (c : LiveCalibration) (hc : poll.liveCalibration = some c) :
    (update_sockets K poll s).scene.view_from_calib =
      matmul3 axis_permutation
        (K.euler2rot (c.rpyCalib.getD 0 0) (c.rpyCalib.getD 1 0) (c.rpyCalib.getD 2 0)) := by
  have hne : (s.sm.update poll).1 ≠ 0 := by
    simp only [SubMaster.update, delivered, hc, Option.isSome_some, if_true]
    omega
  have hu : (s.sm.update poll).2.liveCalibration.updated = true := by
    simp only [SubMaster.update, Topic.receive, hc]
  have hmsg : (s.sm.update poll).2.liveCalibration.msg = c := by
    simp only [SubMaster.update, Topic.receive, hc]
  rw [update_sockets_of_ne K poll s hne]
  have a1 := (update_sockets_controlsState_frame { s with sm := (s.sm.update poll).2 }).1
  have b1 := (update_sockets_carState_frame
    (update_sockets_controlsState { s with sm := (s.sm.update poll).2 })).1
  have c1 := (update_sockets_radarState_frame K (update_sockets_carState
    (update_sockets_controlsState { s with sm := (s.sm.update poll).2 }))).1
  generalize update_sockets_radarState K (update_sockets_carState
    (update_sockets_controlsState { s with sm := (s.sm.update poll).2 })) = u at *
  have usm : u.sm = (s.sm.update poll).2 := by rw [c1, b1, a1]
  have hv : (update_sockets_liveCalibration K u).scene.view_from_calib =
      matmul3 axis_permutation
        (K.euler2rot (c.rpyCalib.getD 0 0) (c.rpyCalib.getD 1 0) (c.rpyCalib.getD 2 0)) := by
    simp only [update_sockets_liveCalibration, usm, hu, if_true, hmsg]
    rfl
  have e2 := (update_sockets_modelV2_frame K (update_sockets_liveCalibration K u)).2.2.2.2
  have e3 := (update_sockets_deviceState_frame
    (update_sockets_modelV2 K (update_sockets_liveCalibration K u))).2.2.2.2
  have e4 := (update_sockets_pandaState_frame K (update_sockets_deviceState
    (update_sockets_modelV2 K (update_sockets_liveCalibration K u)))).2.2
  show (update_sockets_pandaState K (update_sockets_deviceState
    (update_sockets_modelV2 K (update_sockets_liveCalibration K u)))).scene.view_from_calib = _
  rw [e4, e3, e2, hv]

/-- The radarState and liveCalibration handlers leave the camera choice, the
viewport transform and the framebuffer size alone. -/
theorem update_sockets_radarState_view (K : Consts) (s : UIState) :
    (update_sockets_radarState K s).scene.view_from_calib = s.scene.view_from_calib ∧
    (update_sockets_radarState K s).wide_camera = s.wide_camera ∧
    (update_sockets_radarState K s).car_space_transform = s.car_space_transform ∧
    (update_sockets_radarState K s).fb_w = s.fb_w ∧
    (update_sockets_radarState K s).fb_h = s.fb_h := by
  unfold update_sockets_radarState
  split
  · obtain ⟨a, b, h⟩ := update_leads_shape K s s.sm.radarState.msg
      (if s.sm.modelV2.rcv_frame > 0 then some s.sm.modelV2.msg.position else none)
    simp only [h]
    (refine ⟨?_, ?_, ?_, ?_, ?_⟩ <;> first | rfl | trivial)
  · (refine ⟨?_, ?_, ?_, ?_, ?_⟩ <;> rfl)

theorem update_sockets_liveCalibration_view (K : Consts) (s : UIState) :
    (update_sockets_liveCalibration K s).wide_camera = s.wide_camera ∧
    (update_sockets_liveCalibration K s).car_space_transform = s.car_space_transform ∧
    (update_sockets_liveCalibration K s).fb_w = s.fb_w ∧
    (update_sockets_liveCalibration K s).fb_h = s.fb_h := by
  unfold update_sockets_liveCalibration
  split <;> (refine ⟨?_, ?_, ?_, ?_⟩ <;> rfl)

/-- The path polyline after `update_sockets`, in a tick in which
liveCalibration delivers `c` and modelV2 delivers `m`: every vertex is a
projection under the calibration matrix computed from `c`, the matrix of this
tick. -/
theorem update_sockets_track_vertices (K : Consts) (poll : Poll) (s : UIState)
    (c : LiveCalibration) (m : ModelDataV2)
    (hc : poll.liveCalibration = some c) (hm : poll.modelV2 = some m) :
    ∃ (pvd : line_vertices_data) (max_idx : Nat),
      (update_sockets K poll s).scene.track_vertices =
        update_line_data K
          { s with scene := { s.scene with
              view_from_calib := matmul3 axis_permutation
                (K.euler2rot (c.rpyCalib.getD 0 0) (c.rpyCalib.getD 1 0)
                  (c.rpyCalib.getD 2 0)) } }
          m.position 0.7 1.22 pvd max_idx := by
  have hne : (s.sm.update poll).1 ≠ 0 := by
    simp only [SubMaster.update, delivered, hc, Option.isSome_some, if_true]
    omega
  have hu : (s.sm.update poll).2.liveCalibration.updated = true := by
    simp only [SubMaster.update, Topic.receive, hc]
  have hmsg : (s.sm.update poll).2.liveCalibration.msg = c := by
    simp only [SubMaster.update, Topic.receive, hc]
  have hu2 : (s.sm.update poll).2.modelV2.updated = true := by
    simp only [SubMaster.update, Topic.receive, hm]
  have hmsg2 : (s.sm.update poll).2.modelV2.msg = m := by
    simp only [SubMaster.update, Topic.receive, hm]
  rw [update_sockets_of_ne K poll s hne]
  obtain ⟨a1, _, _, _, a5, a6, a7, a8⟩ :=
    update_sockets_controlsState_frame { s with sm := (s.sm.update poll).2 }
  obtain ⟨b1, _, _, _, b5, b6, b7, b8⟩ := update_sockets_carState_frame
    (update_sockets_controlsState { s with sm := (s.sm.update poll).2 })
  have c1 := (update_sockets_radarState_frame K (update_sockets_carState
    (update_sockets_controlsState { s with sm := (s.sm.update poll).2 }))).1
  obtain ⟨_, c5, c6, c7, c8⟩ := update_sockets_radarState_view K (update_sockets_carState
    (update_sockets_controlsState { s with sm := (s.sm.update poll).2 }))
  generalize update_sockets_radarState K (update_sockets_carState
    (update_sockets_controlsState { s with sm := (s.sm.update poll).2 })) = u at *
  have usm : u.sm = (s.sm.update poll).2 := by rw [c1, b1, a1]
  have hv : (update_sockets_liveCalibration K u).scene.view_from_calib =
      matmul3 axis_permutation
        (K.euler2rot (c.rpyCalib.getD 0 0) (c.rpyCalib.getD 1 0) (c.rpyCalib.getD 2 0)) := by
    simp only [update_sockets_liveCalibration, usm, hu, if_true, hmsg]
    rfl
  have d1 := (update_sockets_liveCalibration_frame K u).1
  obtain ⟨d5, d6, d7, d8⟩ := update_sockets_liveCalibration_view K u
  generalize update_sockets_liveCalibration K u = w at *
  have wsm : w.sm = (s.sm.update poll).2 := by rw [d1, usm]
  have hmod : update_sockets_modelV2 K w = update_model K w m := by
    simp only [update_sockets_modelV2, wsm, hu2, if_true, hmsg2]
  have htrack : (update_sockets_started (update_sockets_pandaState K
      (update_sockets_deviceState (update_sockets_modelV2 K w)))).scene.track_vertices =
      (update_sockets_modelV2 K w).scene.track_vertices := by
    have p1 : ∀ t : UIState,
        (update_sockets_deviceState t).scene.track_vertices = t.scene.track_vertices := by
      intro t
      unfold update_sockets_deviceState
      split <;> rfl
    have p2 : ∀ t : UIState,
        (update_sockets_pandaState K t).scene.track_vertices = t.scene.track_vertices := by
      intro t
      unfold update_sockets_pandaState
      split
      · rfl
      · split <;> rfl
    show (update_sockets_pandaState K
      (update_sockets_deviceState (update_sockets_modelV2 K w))).scene.track_vertices = _
    rw [p2, p1]
  refine ⟨w.scene.track_vertices, update_model_path_idx K w m, ?_⟩
  rw [htrack, hmod, update_model_track_vertices]
  exact update_line_data_congr K
    { s with scene := { s.scene with
        view_from_calib := matmul3 axis_permutation
          (K.euler2rot (c.rpyCalib.getD 0 0) (c.rpyCalib.getD 1 0) (c.rpyCalib.getD 2 0)) } }
    w (calib_frame_to_full_frame_congr K _ w hv
      (by show w.wide_camera = s.wide_camera; rw [d5, c5, b5, a5])
      (by show w.car_space_transform = s.car_space_transform; rw [d6, c6, b6, a6])
      (by show w.fb_w = s.fb_w; rw [d7, c7, b7, a7])
      (by show w.fb_h = s.fb_h; rw [d8, c8, b8, a8])) _ _ _ _ _

/-- C11 fails for the lead vertices: in `sample_view_state`, calibrated with
zero angles, a tick delivers a radarState message with lead one at range 10
straight ahead together with a liveCalibration message whose yaw is not zero.
After `update_sockets` the calibration matrix is the one computed from the
payload of that tick, under which the lead is projected to `(1264.5, 575.775)`;
the lead vertex `update_sockets` wrote is `(582, 548.02)`, the projection under
the matrix of the previous tick: the radarState handler (line 221) runs before
the liveCalibration handler (line 228). -/
theorem leads_read_previous_calibration :
    (update_sockets yaw_consts lead_and_calibration_input.poll
      sample_view_state).scene.view_from_calib = matmul3 axis_permutation yaw_rotation ∧
    sample_view_state.scene.view_from_calib = axis_permutation ∧
    (update_sockets yaw_consts lead_and_calibration_input.poll
      sample_view_state).scene.lead_vertices 0 = { x := 582, y := 27401 / 50 } ∧
    (calib_frame_to_full_frame yaw_consts sample_view_state 10 0 (0 + 1.22)).1 =
      { x := 582, y := 27401 / 50 } ∧
    (calib_frame_to_full_frame yaw_consts
      (update_sockets yaw_consts lead_and_calibration_input.poll sample_view_state)
      10 0 (0 + 1.22)).1 = { x := 2529 / 2, y := 23031 / 40 } := by
  have hv := update_sockets_view_from_calib yaw_consts lead_and_calibration_input.poll
    sample_view_state { rpyCalib := [0, 0, 1287 / 2000] } rfl
  have hrot : yaw_consts.euler2rot
      ((({ rpyCalib := [0, 0, 1287 / 2000] } : LiveCalibration).rpyCalib).getD 0 0)
      ((({ rpyCalib := [0, 0, 1287 / 2000] } : LiveCalibration).rpyCalib).getD 1 0)
      ((({ rpyCalib := [0, 0, 1287 / 2000] } : LiveCalibration).rpyCalib).getD 2 0) =
      yaw_rotation := by
    norm_num [yaw_consts]
  rw [hrot] at hv
  have hl := update_sockets_lead_vertex yaw_consts lead_and_calibration_input.poll
    sample_view_state
    { leadOne := { status := true, dRel := 10, yRel := 0 }
      leadTwo := { status := false, dRel := 0, yRel := 0 } } rfl rfl rfl rfl
  have hold : (calib_frame_to_full_frame yaw_consts sample_view_state 10 0 (0 + 1.22)).1 =
      { x := 582, y := 27401 / 50 } := by
    norm_num [calib_frame_to_full_frame, matvecmul3, nvgTransformPoint, sample_view_state,
      axis_permutation, init_state, ui_init, upstream_consts, yaw_consts]
  have hnew : (calib_frame_to_full_frame yaw_consts
      { sample_view_state with
        scene := { sample_view_state.scene with
          view_from_calib := matmul3 axis_permutation yaw_rotation } }
      10 0 (0 + 1.22)).1 = { x := 2529 / 2, y := 23031 / 40 } := by
    norm_num [calib_frame_to_full_frame, matvecmul3, matmul3, nvgTransformPoint,
      sample_view_state, axis_permutation, yaw_rotation, init_state, ui_init, upstream_consts,
      yaw_consts]
  refine ⟨hv, rfl, ?_, hold, ?_⟩
  · rw [hl]
    simpa using hold
  · rw [calib_frame_to_full_frame_congr yaw_consts
      { sample_view_state with
        scene := { sample_view_state.scene with
          view_from_calib := matmul3 axis_permutation yaw_rotation } }
      (update_sockets yaw_consts lead_and_calibration_input.poll sample_view_state)
      hv rfl rfl rfl rfl]
    exact hnew

end UI
